import Mathlib

/-! # BQ4050 smart-battery gauge driver: transport and integrity layer

A shallow embedding of `src/src/BQ4050.cpp` (the register access engine, the
PEC computation, the smart-PEC policy and the sticky last-error field) together
with theorems about it.

Machine integers are natural numbers; every place where the C++ code converts
to `uint8_t`, `uint16_t` or `uint32_t` is an explicit `% 2^w`.  The two-wire bus
(`TwoWire`) is not part of the repository: it is modelled as a scripted
device whose answers (completion statuses, received counts, received bytes) are
arbitrary, and which records every transaction it is asked to run.  The
settling delays (`delay`, `delayMicroseconds`) and the debug output have no
effect on the state and are left out.  Every operation takes the session and
returns its result together with the session after the call.
-/

/-! ## The two-wire bus -/

/-- One transaction observed on the bus: a write transaction completed by
`endTransmission` (address, queued bytes, the stop flag and the completion
status), or a read request issued by `requestFrom` (address, byte count). -/
inductive BusEvent where
  | transmission (address : Nat) (bytes : List Nat) (sendStop : Bool) (status : Nat)
  | request (address : Nat) (quantity : Nat)
  deriving DecidableEq, Repr

/-- Modelled from the spec: the transport capability of section 6 (the Arduino
`TwoWire` object, which is not part of the repository). The device side is a
script: `statuses` holds the completion status of the next write transactions,
`responses` the reported byte count and the delivered bytes of the next read
requests; both are arbitrary. `log` records what the driver did on the bus. -/
structure TwoWire where
  txAddress : Nat
  txBuffer : List Nat
  rxBuffer : List Nat
  statuses : List Nat
  responses : List (Nat × List Nat)
  log : List BusEvent
  deriving DecidableEq, Repr

namespace TwoWire

/-- Start queueing a write transaction to `address`. -/
def beginTransmission (w : TwoWire) (address : Nat) : TwoWire :=
  { w with txAddress := address, txBuffer := [] }

/-- Queue one byte (`write(uint8_t)`). -/
def write (w : TwoWire) (b : Nat) : TwoWire :=
  { w with txBuffer := w.txBuffer ++ [b % 256] }

/-- Completion status the device gives to the next write transaction (0 when the
script is exhausted); `endTransmission` returns a `uint8_t`. -/
def nextStatus (w : TwoWire) : Nat :=
  w.statuses.headD 0 % 256

/-- Run the queued write transaction; `sendStop = false` keeps the bus owned for
a repeated start. Returns the completion status (0 = acknowledged). -/
def endTransmission (w : TwoWire) (sendStop : Bool) : Nat × TwoWire :=
  (w.nextStatus,
   { w with
     txBuffer := [],
     statuses := w.statuses.tail,
     log := w.log ++ [BusEvent.transmission w.txAddress w.txBuffer sendStop w.nextStatus] })

/-- Answer of the device to the next read request: reported count and delivered
bytes (nothing when the script is exhausted). -/
def nextResponse (w : TwoWire) : Nat × List Nat :=
  w.responses.headD (0, [])

/-- Request `quantity` bytes from `address`: the delivered bytes replace the
receive buffer, and the reported count is returned as a `uint8_t`. -/
def requestFrom (w : TwoWire) (address quantity : Nat) : Nat × TwoWire :=
  (w.nextResponse.1 % 256,
   { w with
     rxBuffer := w.nextResponse.2,
     responses := w.responses.tail,
     log := w.log ++ [BusEvent.request address quantity] })

/-- Number of buffered bytes not yet read. -/
def available (w : TwoWire) : Nat :=
  w.rxBuffer.length

/-- Read one buffered byte; `-1` when the buffer is empty (`int read()`). -/
def read (w : TwoWire) : Int × TwoWire :=
  match w.rxBuffer with
  | [] => (-1, w)
  | b :: rest => (((b % 256 : Nat) : Int), { w with rxBuffer := rest })

/-- Initialise the bus (the `begin()` of the transport): the script and the log
are not touched. -/
def begin (w : TwoWire) : TwoWire :=
  w

/-- An idle bus in front of a device that will answer with the given script. -/
def scripted (statuses : List Nat) (responses : List (Nat × List Nat)) : TwoWire :=
  { txAddress := 0, txBuffer := [], rxBuffer := [], statuses := statuses,
    responses := responses, log := [] }

end TwoWire

/-- Conversion of an `int` to `uint8_t`. -/
def toUint8 (x : Int) : Nat :=
  (x % 256).toNat

/-! ## Session -/

/-- Error codes (`enum BQ4050_Error` of `BQ4050.h`). -/
inductive BQ4050_Error where
  | BQ4050_ERROR_NONE
  | BQ4050_ERROR_I2C_TIMEOUT
  | BQ4050_ERROR_I2C_NACK
  | BQ4050_ERROR_INVALID_PARAMETER
  | BQ4050_ERROR_CRC_MISMATCH
  | BQ4050_ERROR_PEC_MISMATCH
  | BQ4050_ERROR_DEVICE_NOT_FOUND
  deriving DecidableEq, Repr

open BQ4050_Error

/-- The private state of `class BQ4050`. -/
structure BQ4050 where
  _address : Nat
  _wire : TwoWire
  _lastError : BQ4050_Error
  _pecEnabled : Bool
  deriving DecidableEq, Repr

/-- The result of `getParsedSafetyStatus` (`struct SafetyStatus` of `BQ4050.h`). -/
structure SafetyStatus where
  overVoltage : Bool
  underVoltage : Bool
  overTemperature : Bool
  underTemperature : Bool
  overCurrent : Bool
  shortCircuit : Bool
  cellImbalance : Bool
  chargeFETFailure : Bool
  dischargeFETFailure : Bool
  safetyAlert : Nat
  safetyStatusRaw : Nat
  deriving DecidableEq, Repr

/-- Security modes (`enum BQ4050_SecurityMode` of `BQ4050.h`). -/
inductive BQ4050_SecurityMode where
  | BQ4050_SECURITY_SEALED
  | BQ4050_SECURITY_UNSEALED
  | BQ4050_SECURITY_FULL_ACCESS
  | BQ4050_SECURITY_UNKNOWN
  deriving DecidableEq, Repr

open BQ4050_SecurityMode

/-- Settings struct `DAConfiguration` of `BQ4050.h`; `cellCount` is the value of
the `CellCount` enumeration (ONE_CELL = 0 .. FOUR_CELL = 3). -/
structure DAConfiguration where
  fetTempAverage : Bool
  cellTempAverage : Bool
  emergencyShutdown : Bool
  sleepMode : Bool
  inSystemSleep : Bool
  nonRemovable : Bool
  cellCount : Nat
  deriving DecidableEq, Repr

/-- Settings struct `FETOptions` of `BQ4050.h`. -/
structure FETOptions where
  overTempFETDisable : Bool
  chargeInhibitFET : Bool
  chargeSuspendFET : Bool
  prechargeComm : Bool
  deriving DecidableEq, Repr

/-- Settings struct `PowerConfig` of `BQ4050.h`. -/
structure PowerConfig where
  autoShipEnable : Bool
  deriving DecidableEq, Repr

/-- Settings struct `IOConfig` of `BQ4050.h`. -/
structure IOConfig where
  btpEnable : Bool
  btpPolarity : Bool
  deriving DecidableEq, Repr

/-- Settings struct `TemperatureConfig` of `BQ4050.h`. -/
structure TemperatureConfig where
  ts1Enable : Bool
  ts2Enable : Bool
  ts3Enable : Bool
  ts4Enable : Bool
  internalTSEnable : Bool
  ts1CellMode : Bool
  ts2CellMode : Bool
  ts3CellMode : Bool
  ts4CellMode : Bool
  internalCellMode : Bool
  deriving DecidableEq, Repr

/-- Settings struct `LEDConfig` of `BQ4050.h` (`displayMask` is a `uint16_t`,
the two rates are `uint8_t`). -/
structure LEDConfig where
  displayMask : Nat
  ledEnable : Bool
  blinkRate : Nat
  flashRate : Nat
  deriving DecidableEq, Repr

/-- Settings struct `BalancingConfig` of `BQ4050.h` (two `uint16_t` fields). -/
structure BalancingConfig where
  cellBalancingEnable : Bool
  balanceVoltage : Nat
  balanceTime : Nat
  deriving DecidableEq, Repr

/-- Settings struct `SBSGaugingConfig` of `BQ4050.h`. -/
structure SBSGaugingConfig where
  rsocHold : Bool
  capacitySync : Bool
  smoothSOC : Bool
  deriving DecidableEq, Repr

/-- Settings struct `SBSConfig` of `BQ4050.h`. -/
structure SBSConfig where
  specificationMode : Bool
  smbusTimeout : Nat
  packetErrorCheck : Bool
  deriving DecidableEq, Repr

/-- Settings struct `SOCFlagConfig` of `BQ4050.h`. -/
structure SOCFlagConfig where
  tcSetOnCharge : Bool
  fcSetOnCharge : Bool
  tcClearOnRSOC : Bool
  tdClearOnRSOC : Bool
  rsocThresholds : Nat
  deriving DecidableEq, Repr

/-- Settings struct `ProtectionConfig` of `BQ4050.h`. -/
structure ProtectionConfig where
  protectionEnable : Bool
  protectionDelay : Nat
  deriving DecidableEq, Repr

namespace BQ4050

/-! ## CRC engine -/

/-- The table `crc8_lookup` of `BQ4050::calculatePEC`. -/
def crc8_lookup : List Nat := [
  0x00, 0x07, 0x0E, 0x09, 0x1C, 0x1B, 0x12, 0x15, 0x38, 0x3F, 0x36, 0x31, 0x24, 0x23, 0x2A, 0x2D,
  0x70, 0x77, 0x7E, 0x79, 0x6C, 0x6B, 0x62, 0x65, 0x48, 0x4F, 0x46, 0x41, 0x54, 0x53, 0x5A, 0x5D,
  0xE0, 0xE7, 0xEE, 0xE9, 0xFC, 0xFB, 0xF2, 0xF5, 0xD8, 0xDF, 0xD6, 0xD1, 0xC4, 0xC3, 0xCA, 0xCD,
  0x90, 0x97, 0x9E, 0x99, 0x8C, 0x8B, 0x82, 0x85, 0xA8, 0xAF, 0xA6, 0xA1, 0xB4, 0xB3, 0xBA, 0xBD,
  0xC7, 0xC0, 0xC9, 0xCE, 0xDB, 0xDC, 0xD5, 0xD2, 0xFF, 0xF8, 0xF1, 0xF6, 0xE3, 0xE4, 0xED, 0xEA,
  0xB7, 0xB0, 0xB9, 0xBE, 0xAB, 0xAC, 0xA5, 0xA2, 0x8F, 0x88, 0x81, 0x86, 0x93, 0x94, 0x9D, 0x9A,
  0x27, 0x20, 0x29, 0x2E, 0x3B, 0x3C, 0x35, 0x32, 0x1F, 0x18, 0x11, 0x16, 0x03, 0x04, 0x0D, 0x0A,
  0x57, 0x50, 0x59, 0x5E, 0x4B, 0x4C, 0x45, 0x42, 0x6F, 0x68, 0x61, 0x66, 0x73, 0x74, 0x7D, 0x7A,
  0x89, 0x8E, 0x87, 0x80, 0x95, 0x92, 0x9B, 0x9C, 0xB1, 0xB6, 0xBF, 0xB8, 0xAD, 0xAA, 0xA3, 0xA4,
  0xF9, 0xFE, 0xF7, 0xF0, 0xE5, 0xE2, 0xEB, 0xEC, 0xC1, 0xC6, 0xCF, 0xC8, 0xDD, 0xDA, 0xD3, 0xD4,
  0x69, 0x6E, 0x67, 0x60, 0x75, 0x72, 0x7B, 0x7C, 0x51, 0x56, 0x5F, 0x58, 0x4D, 0x4A, 0x43, 0x44,
  0x19, 0x1E, 0x17, 0x10, 0x05, 0x02, 0x0B, 0x0C, 0x21, 0x26, 0x2F, 0x28, 0x3D, 0x3A, 0x33, 0x34,
  0x4E, 0x49, 0x40, 0x47, 0x52, 0x55, 0x5C, 0x5B, 0x76, 0x71, 0x78, 0x7F, 0x6A, 0x6D, 0x64, 0x63,
  0x3E, 0x39, 0x30, 0x37, 0x22, 0x25, 0x2C, 0x2B, 0x06, 0x01, 0x08, 0x0F, 0x1A, 0x1D, 0x14, 0x13,
  0xAE, 0xA9, 0xA0, 0xA7, 0xB2, 0xB5, 0xBC, 0xBB, 0x96, 0x91, 0x98, 0x9F, 0x8A, 0x8D, 0x84, 0x83,
  0xDE, 0xD9, 0xD0, 0xD7, 0xC2, 0xC5, 0xCC, 0xCB, 0xE6, 0xE1, 0xE8, 0xEF, 0xFA, 0xFD, 0xF4, 0xF3]

/-- One iteration of the loop of `calculatePEC`: `crc = crc8_lookup[crc ^ data[i]]`.
`data[i]` past the end of the buffer (undefined in C++) reads as 0. -/
def calculatePEC_step (data : List Nat) (crc i : Nat) : Nat :=
  crc8_lookup.getD (crc ^^^ data.getD i 0) 0

/-- Source function `BQ4050::calculatePEC(data, length)`: `crc = 0`, then for `i = 0 .. length-1`
the table step. `length` is a `uint8_t`, so it is at most 255. -/
def calculatePEC (data : List Nat) (length : Nat) : Nat :=
  (List.range length).foldl (calculatePEC_step data) 0x00

/-- Reference CRC-8, one bit: shift left, and fold the polynomial 0x07
(x^8 + x^2 + x + 1) in when the bit shifted out is set. Written from the
specification, not from the table. -/
def crc8_reference_bit (crc : Nat) : Nat :=
  if crc &&& 0x80 ≠ 0 then ((crc <<< 1) ^^^ 0x07) % 256 else (crc <<< 1) % 256

/-- Reference CRC-8, one byte: XOR the byte in, then eight bit steps, MSB first. -/
def crc8_reference_byte (crc b : Nat) : Nat :=
  crc8_reference_bit (crc8_reference_bit (crc8_reference_bit (crc8_reference_bit
    (crc8_reference_bit (crc8_reference_bit (crc8_reference_bit (crc8_reference_bit
      (crc ^^^ b))))))))

/-- Reference bit-at-a-time CRC-8 of a byte sequence: initial value 0x00, no
reflection, no final XOR. -/
def crc8_reference (data : List Nat) : Nat :=
  data.foldl crc8_reference_byte 0x00

/-! ## Register access engine -/

/-- Constant `MAX_SBS_STRING_LENGTH` of `BQ4050.h`. -/
def MAX_SBS_STRING_LENGTH : Nat := 32

/-- Constant `BQ4050_CMD_SAFETY_STATUS` of `BQ4050.h`. -/
def BQ4050_CMD_SAFETY_STATUS : Nat := 0x51

/-- The constructor `BQ4050::BQ4050(address, wire)`: no error, PEC disabled. -/
def init (address : Nat) (wire : TwoWire) : BQ4050 :=
  { _address := address, _wire := wire, _lastError := BQ4050_ERROR_NONE, _pecEnabled := false }

/-- Source function `BQ4050::setError`. -/
def setError (self : BQ4050) (error : BQ4050_Error) : BQ4050 :=
  { self with _lastError := error }

/-- Source function `BQ4050::getLastError`. -/
def getLastError (self : BQ4050) : BQ4050_Error :=
  self._lastError

/-- Source function `BQ4050::setPECEnabled`. -/
def setPECEnabled (self : BQ4050) (enable : Bool) : BQ4050 :=
  { self with _pecEnabled := enable }

/-- Source function `BQ4050::isPECEnabled`. -/
def isPECEnabled (self : BQ4050) : Bool :=
  self._pecEnabled

/-- Source function `BQ4050::validatePEC`. -/
def validatePEC (self : BQ4050) (data : List Nat) (length expectedPEC : Nat) : Bool × BQ4050 :=
  let calculatedPEC := calculatePEC data length
  if calculatedPEC ≠ expectedPEC then
    (false, self.setError BQ4050_ERROR_PEC_MISMATCH)
  else
    (true, self)

/-- Source function `BQ4050::safeBeginTransmission`: write the command byte, keeping the bus. -/
def safeBeginTransmission (self : BQ4050) (reg : Nat) : Bool × BQ4050 :=
  let e := ((self._wire.beginTransmission self._address).write reg).endTransmission false
  let result := e.1
  let self := { self with _wire := e.2 }
  if result ≠ 0 then
    (false, self.setError BQ4050_ERROR_I2C_NACK)
  else
    (true, self)

/-- Source function `BQ4050::safeRequestData`. -/
def safeRequestData (self : BQ4050) (bytesToRead : Nat) : Nat × BQ4050 :=
  let r := self._wire.requestFrom self._address bytesToRead
  let bytesReceived := r.1 % 256
  let self := { self with _wire := r.2 }
  if bytesReceived ≠ bytesToRead then
    (0, self.setError BQ4050_ERROR_I2C_TIMEOUT)
  else
    (bytesReceived, self)

/-- The frame over which the PEC of a register read is computed:
`{(uint8_t)(_address << 1), reg, (uint8_t)((_address << 1) | 1), data...}`. -/
def packet (self : BQ4050) (reg : Nat) (data : List Nat) : List Nat :=
  [(self._address <<< 1) % 256, reg, ((self._address <<< 1) ||| 1) % 256] ++ data

/-- Source function `BQ4050::readRegister8`. -/
def readRegister8 (self : BQ4050) (reg : Nat) : Nat × BQ4050 :=
  let t := self.safeBeginTransmission reg
  if !t.1 then (0, t.2) else
  let self := t.2
  let bytesToRead := if self._pecEnabled then 2 else 1
  let r := self.safeRequestData bytesToRead
  if r.1 = 0 then (0, r.2) else
  let self := r.2
  let d := self._wire.read
  let data := toUint8 d.1
  let self := { self with _wire := d.2 }
  let v :=
    if self._pecEnabled then
      let p := self._wire.read
      let receivedPEC := toUint8 p.1
      let self := { self with _wire := p.2 }
      self.validatePEC (self.packet reg [data]) 4 receivedPEC
    else (true, self)
  if !v.1 then (0, v.2) else
  (data, v.2.setError BQ4050_ERROR_NONE)

/-- Source function `BQ4050::readRegister16`. -/
def readRegister16 (self : BQ4050) (reg : Nat) : Nat × BQ4050 :=
  let e := ((self._wire.beginTransmission self._address).write reg).endTransmission false
  let self := { self with _wire := e.2 }
  if e.1 ≠ 0 then (0, self.setError BQ4050_ERROR_I2C_NACK) else
  let bytesToRead := if self._pecEnabled then 3 else 2
  let r := self._wire.requestFrom self._address bytesToRead
  let self := { self with _wire := r.2 }
  if r.1 ≠ bytesToRead then (0, self.setError BQ4050_ERROR_I2C_TIMEOUT) else
  let l := self._wire.read
  let lsb := toUint8 l.1
  let m := l.2.read
  let msb := toUint8 m.1
  let self := { self with _wire := m.2 }
  let v :=
    if self._pecEnabled then
      let p := self._wire.read
      let receivedPEC := toUint8 p.1
      let self := { self with _wire := p.2 }
      self.validatePEC (self.packet reg [lsb, msb]) 5 receivedPEC
    else (true, self)
  if !v.1 then (0, v.2) else
  (((msb <<< 8) ||| lsb) % 65536, v.2.setError BQ4050_ERROR_NONE)

/-- One iteration of the loop of `readRegister32`:
`data[i] = _wire->read(); result |= ((uint32_t)data[i]) << (i * 8);`.
The state is the bus, the bytes read so far and `result`. -/
def readRegister32_step (st : TwoWire × List Nat × Nat) (i : Nat) : TwoWire × List Nat × Nat :=
  let d := st.1.read
  let b := toUint8 d.1
  (d.2, st.2.1 ++ [b], (st.2.2 ||| ((b <<< (i * 8)) % 4294967296)) % 4294967296)

/-- Source function `BQ4050::readRegister32`. -/
def readRegister32 (self : BQ4050) (reg : Nat) : Nat × BQ4050 :=
  let e := ((self._wire.beginTransmission self._address).write reg).endTransmission false
  let self := { self with _wire := e.2 }
  if e.1 ≠ 0 then (0, self.setError BQ4050_ERROR_I2C_NACK) else
  let bytesToRead := if self._pecEnabled then 5 else 4
  let r := self._wire.requestFrom self._address bytesToRead
  let self := { self with _wire := r.2 }
  if r.1 ≠ bytesToRead then (0, self.setError BQ4050_ERROR_I2C_TIMEOUT) else
  let st := (List.range 4).foldl readRegister32_step (self._wire, [], 0)
  let data := st.2.1
  let result := st.2.2
  let self := { self with _wire := st.1 }
  let v :=
    if self._pecEnabled then
      let p := self._wire.read
      let receivedPEC := toUint8 p.1
      let self := { self with _wire := p.2 }
      self.validatePEC (self.packet reg data) 7 receivedPEC
    else (true, self)
  if !v.1 then (0, v.2) else
  (result, v.2.setError BQ4050_ERROR_NONE)

/-- Source function `BQ4050::writeRegister8`. -/
def writeRegister8 (self : BQ4050) (reg value : Nat) : Bool × BQ4050 :=
  let e := (((self._wire.beginTransmission self._address).write reg).write value).endTransmission true
  let self := { self with _wire := e.2 }
  if e.1 ≠ 0 then (false, self.setError BQ4050_ERROR_I2C_NACK) else
  (true, self.setError BQ4050_ERROR_NONE)

/-- Source function `BQ4050::writeRegister16`. -/
def writeRegister16 (self : BQ4050) (reg value : Nat) : Bool × BQ4050 :=
  let e := ((((self._wire.beginTransmission self._address).write reg).write
    (value &&& 0xFF)).write ((value >>> 8) &&& 0xFF)).endTransmission true
  let self := { self with _wire := e.2 }
  if e.1 ≠ 0 then (false, self.setError BQ4050_ERROR_I2C_NACK) else
  (true, self.setError BQ4050_ERROR_NONE)

/-- Source function `BQ4050::manufacturerAccessWrite`. -/
def manufacturerAccessWrite (self : BQ4050) (command data : Nat) : Bool × BQ4050 :=
  let e := ((((((self._wire.beginTransmission self._address).write 0x00).write
    (command &&& 0xFF)).write ((command >>> 8) &&& 0xFF)).write
    (data &&& 0xFF)).write ((data >>> 8) &&& 0xFF)).endTransmission true
  let self := { self with _wire := e.2 }
  if e.1 ≠ 0 then (false, self.setError BQ4050_ERROR_I2C_NACK) else
  (true, self.setError BQ4050_ERROR_NONE)

/-! ## Smart PEC policy -/

/-- Source function `BQ4050::shouldUsePECForRegister`. -/
def shouldUsePECForRegister (self : BQ4050) (reg : Nat) : Bool :=
  if reg ≥ 0x50 ∧ reg ≤ 0x57 then false
  else if reg ≥ 0x58 then false
  else self._pecEnabled

/-- The macro `SMART_PEC_READ(reg, readCall)`. -/
def SMART_PEC_READ {α : Type} (self : BQ4050) (reg : Nat) (readCall : BQ4050 → α × BQ4050) :
    α × BQ4050 :=
  let originalPECEnabled := self._pecEnabled
  let shouldUsePEC := self.shouldUsePECForRegister reg
  let self := if self._pecEnabled ≠ shouldUsePEC then { self with _pecEnabled := shouldUsePEC } else self
  let result := readCall self
  let self := { result.2 with _pecEnabled := originalPECEnabled }
  (result.1, self)

/-- The loop of `readSBSString` with `n` iterations left: stop with a timeout
error when no byte is available, otherwise read a character and keep it when
it is printable ASCII. The character is kept as its byte value; a byte above
0x7F fails the test `c >= 0x20 && c <= 0x7E` whether `char` is signed or not. -/
def readSBSString_loop (self : BQ4050) (result : List Nat) : Nat → List Nat × BQ4050
  | 0 => (result, self)
  | n + 1 =>
    if self._wire.available = 0 then
      (result, self.setError BQ4050_ERROR_I2C_TIMEOUT)
    else
      let d := self._wire.read
      let c := toUint8 d.1
      let self := { self with _wire := d.2 }
      readSBSString_loop self (if c ≥ 0x20 ∧ c ≤ 0x7E then result ++ [c] else result) n

/-- Source function `BQ4050::readSBSString`; the string is the list of its character codes. -/
def readSBSString (self : BQ4050) (command : Nat) : List Nat × BQ4050 :=
  let t := self.safeBeginTransmission command
  if !t.1 then ([], t.2) else
  let r := t.2.safeRequestData 1
  if r.1 = 0 then ([], r.2) else
  let self := r.2
  let d := self._wire.read
  let length := toUint8 d.1
  let self := { self with _wire := d.2 }
  if length = 0 then ([], self) else
  if length > MAX_SBS_STRING_LENGTH then ([], self.setError BQ4050_ERROR_INVALID_PARAMETER) else
  let bytesToRead := (if self._pecEnabled then length + 1 else length) % 256
  let q := self.safeRequestData bytesToRead
  if q.1 = 0 then ([], q.2) else
  let self := q.2
  let lp := self.readSBSString_loop [] length
  let result := lp.1
  let self := lp.2
  let self := if self._pecEnabled then { self with _wire := self._wire.read.2 } else self
  (result, self.setError BQ4050_ERROR_NONE)

/-- Source function `BQ4050::readRegister16WithSmartPEC`. -/
def readRegister16WithSmartPEC (self : BQ4050) (reg : Nat) : Nat × BQ4050 :=
  SMART_PEC_READ self reg (fun s => s.readRegister16 reg)

/-- Source function `BQ4050::readRegister32WithSmartPEC`. -/
def readRegister32WithSmartPEC (self : BQ4050) (reg : Nat) : Nat × BQ4050 :=
  SMART_PEC_READ self reg (fun s => s.readRegister32 reg)

/-- Source function `BQ4050::readSBSStringWithSmartPEC`. -/
def readSBSStringWithSmartPEC (self : BQ4050) (reg : Nat) : List Nat × BQ4050 :=
  SMART_PEC_READ self reg (fun s => s.readSBSString reg)

/-- Source function `BQ4050::getSafetyStatus`. -/
def getSafetyStatus (self : BQ4050) : Nat × BQ4050 :=
  self.readRegister16WithSmartPEC BQ4050_CMD_SAFETY_STATUS

/-! ## Manufacturer access and data flash -/

/-- Source function `BQ4050::manufacturerAccess16`. -/
def manufacturerAccess16 (self : BQ4050) (command : Nat) : Nat × BQ4050 :=
  let w := self.writeRegister16 0x00 command
  if !w.1 then (0, w.2) else
  w.2.readRegister16 0x00

/-- Source function `BQ4050::manufacturerAccess32`. -/
def manufacturerAccess32 (self : BQ4050) (command : Nat) : Nat × BQ4050 :=
  let w := self.writeRegister16 0x00 command
  if !w.1 then (0, w.2) else
  w.2.readRegister32 0x00

/-- Constant `BQ4050_DATA_FLASH_START` of `BQ4050.h`. -/
def BQ4050_DATA_FLASH_START : Nat := 0x4000

/-- Constant `BQ4050_DATA_FLASH_END` of `BQ4050.h`. -/
def BQ4050_DATA_FLASH_END : Nat := 0x5FFF

/-- Source function `BQ4050::readDataFlash`. -/
def readDataFlash (self : BQ4050) (address : Nat) : Nat × BQ4050 :=
  if address < BQ4050_DATA_FLASH_START ∨ address > BQ4050_DATA_FLASH_END then
    (0, self.setError BQ4050_ERROR_INVALID_PARAMETER)
  else
  let m := self.manufacturerAccessWrite 0x44 address
  if !m.1 then (0, m.2) else
  m.2.readRegister8 0x40

/-- Source function `BQ4050::writeDataFlash`. -/
def writeDataFlash (self : BQ4050) (address data : Nat) : Bool × BQ4050 :=
  if address < BQ4050_DATA_FLASH_START ∨ address > BQ4050_DATA_FLASH_END then
    (false, self.setError BQ4050_ERROR_INVALID_PARAMETER)
  else
  let m := self.manufacturerAccessWrite 0x44 address
  if !m.1 then (false, m.2) else
  let w := m.2.writeRegister8 0x40 data
  if !w.1 then (false, w.2) else
  (true, w.2)

/-! ## Status accessors -/

/-- Constant `BQ4050_CMD_SAFETY_ALERT` of `BQ4050.h`. -/
def BQ4050_CMD_SAFETY_ALERT : Nat := 0x50

/-- Constant `BQ4050_CMD_PF_ALERT` of `BQ4050.h`. -/
def BQ4050_CMD_PF_ALERT : Nat := 0x52

/-- Constant `BQ4050_CMD_PF_STATUS` of `BQ4050.h`. -/
def BQ4050_CMD_PF_STATUS : Nat := 0x53

/-- Constant `BQ4050_CMD_OPERATION_STATUS` of `BQ4050.h`. -/
def BQ4050_CMD_OPERATION_STATUS : Nat := 0x54

/-- Constant `BQ4050_CMD_CHARGING_STATUS` of `BQ4050.h`. -/
def BQ4050_CMD_CHARGING_STATUS : Nat := 0x55

/-- Constant `BQ4050_CMD_GAUGING_STATUS` of `BQ4050.h`. -/
def BQ4050_CMD_GAUGING_STATUS : Nat := 0x56

/-- Constant `BQ4050_CMD_MANUFACTURING_STATUS` of `BQ4050.h`. -/
def BQ4050_CMD_MANUFACTURING_STATUS : Nat := 0x57

/-- Source function `BQ4050::getSafetyAlert`. -/
def getSafetyAlert (self : BQ4050) : Nat × BQ4050 :=
  self.readRegister16WithSmartPEC BQ4050_CMD_SAFETY_ALERT

/-- Source function `BQ4050::getPFAlert`. -/
def getPFAlert (self : BQ4050) : Nat × BQ4050 :=
  self.readRegister16WithSmartPEC BQ4050_CMD_PF_ALERT

/-- Source function `BQ4050::getPFStatus`. -/
def getPFStatus (self : BQ4050) : Nat × BQ4050 :=
  self.readRegister16WithSmartPEC BQ4050_CMD_PF_STATUS

/-- Source function `BQ4050::getOperationStatus`. -/
def getOperationStatus (self : BQ4050) : Nat × BQ4050 :=
  self.readRegister16WithSmartPEC BQ4050_CMD_OPERATION_STATUS

/-- Source function `BQ4050::getChargingStatus`. -/
def getChargingStatus (self : BQ4050) : Nat × BQ4050 :=
  self.readRegister16WithSmartPEC BQ4050_CMD_CHARGING_STATUS

/-- Source function `BQ4050::getGaugingStatus`. -/
def getGaugingStatus (self : BQ4050) : Nat × BQ4050 :=
  self.readRegister16WithSmartPEC BQ4050_CMD_GAUGING_STATUS

/-- Source function `BQ4050::getManufacturingStatus`. -/
def getManufacturingStatus (self : BQ4050) : Nat × BQ4050 :=
  self.readRegister16WithSmartPEC BQ4050_CMD_MANUFACTURING_STATUS

/-- Source function `BQ4050::getParsedSafetyStatus`: the alert through the smart-PEC
accessor, the raw status through a direct `readRegister16`. -/
def getParsedSafetyStatus (self : BQ4050) : SafetyStatus × BQ4050 :=
  let a := self.getSafetyAlert
  let r := a.2.readRegister16 BQ4050_CMD_SAFETY_STATUS
  let safetyStatusRaw := r.1
  ({ safetyAlert := a.1,
     safetyStatusRaw := safetyStatusRaw,
     overVoltage := (safetyStatusRaw &&& 0x0001) != 0,
     underVoltage := (safetyStatusRaw &&& 0x0002) != 0,
     overTemperature := (safetyStatusRaw &&& 0x0004) != 0,
     underTemperature := (safetyStatusRaw &&& 0x0008) != 0,
     overCurrent := (safetyStatusRaw &&& 0x0010) != 0,
     shortCircuit := (safetyStatusRaw &&& 0x0020) != 0,
     cellImbalance := (safetyStatusRaw &&& 0x0040) != 0,
     chargeFETFailure := (safetyStatusRaw &&& 0x0080) != 0,
     dischargeFETFailure := (safetyStatusRaw &&& 0x0100) != 0 },
   r.2)

/-! ## Initialisation, security mode, state of health -/

/-- Constant `BQ4050_MAC_DEVICE_TYPE` of `BQ4050.h`. -/
def BQ4050_MAC_DEVICE_TYPE : Nat := 0x0001

/-- Source function `BQ4050::getDeviceType`. -/
def getDeviceType (self : BQ4050) : Nat × BQ4050 :=
  self.manufacturerAccess16 BQ4050_MAC_DEVICE_TYPE

/-- Source function `BQ4050::begin()`: initialise the bus, probe the device type,
and fail when the probe left an error. -/
def begin (self : BQ4050) : Bool × BQ4050 :=
  let self := { self with _wire := self._wire.begin }
  let d := self.getDeviceType
  let self := d.2
  if self._lastError ≠ BQ4050_ERROR_NONE then (false, self) else
  (true, self)

/-- Source function `BQ4050::getSecurityMode`. -/
def getSecurityMode (self : BQ4050) : BQ4050_SecurityMode × BQ4050 :=
  let m := self.getManufacturingStatus
  let mfgStatus := m.1
  let self := m.2
  if self._lastError ≠ BQ4050_ERROR_NONE then (BQ4050_SECURITY_UNKNOWN, self) else
  let sealed := (mfgStatus &&& 0x2000) == 0
  let fullAccess := (mfgStatus &&& 0x4000) != 0
  if sealed then (BQ4050_SECURITY_SEALED, self)
  else if fullAccess then (BQ4050_SECURITY_FULL_ACCESS, self)
  else (BQ4050_SECURITY_UNSEALED, self)

/-- Constant `BQ4050_CMD_FULL_CHARGE_CAPACITY` of `BQ4050.h`. -/
def BQ4050_CMD_FULL_CHARGE_CAPACITY : Nat := 0x10

/-- Constant `BQ4050_CMD_DESIGN_CAPACITY` of `BQ4050.h`. -/
def BQ4050_CMD_DESIGN_CAPACITY : Nat := 0x18

/-- Source function `BQ4050::getFullChargeCapacity`. -/
def getFullChargeCapacity (self : BQ4050) : Nat × BQ4050 :=
  self.readRegister16 BQ4050_CMD_FULL_CHARGE_CAPACITY

/-- Source function `BQ4050::getDesignCapacity`. -/
def getDesignCapacity (self : BQ4050) : Nat × BQ4050 :=
  self.readRegister16 BQ4050_CMD_DESIGN_CAPACITY

/-- Source function `BQ4050::getStateOfHealth`. The product and the quotient are
computed in `int` (a `uint16_t` times 100 is below 2^31, so nothing wraps) and
the result is converted to `uint8_t`. -/
def getStateOfHealth (self : BQ4050) : Nat × BQ4050 :=
  let f := self.getFullChargeCapacity
  let fullCapacity := f.1
  let d := f.2.getDesignCapacity
  let designCapacity := d.1
  let self := d.2
  if designCapacity = 0 then (0, self) else
  (((fullCapacity * 100) / designCapacity) % 256, self)

/-! ## Settings flash: cell count and configuration check -/

/-- Value `ONE_CELL` of `enum CellCount`. -/
def ONE_CELL : Nat := 0

/-- Value `FOUR_CELL` of `enum CellCount`. -/
def FOUR_CELL : Nat := 3

/-- Source function `BQ4050::getCellCount`. -/
def getCellCount (self : BQ4050) : Nat × BQ4050 :=
  let r := self.readDataFlash 0x4000
  let daConfig := r.1
  ((daConfig >>> 0) &&& 0x03, r.2)

/-- Source function `BQ4050::setCellCount`: read the register, clear bits 0-1
(`daConfig &= ~0x03` on a `uint8_t`), set the new count, write it back. -/
def setCellCount (self : BQ4050) (count : Nat) : Bool × BQ4050 :=
  let r := self.readDataFlash 0x4000
  let daConfig := r.1
  let daConfig := daConfig &&& 0xFC
  let daConfig := (daConfig ||| ((count % 256) &&& 0x03)) % 256
  r.2.writeDataFlash 0x4000 daConfig

/-- The struct that `getBalancingConfig` builds from the five bytes it reads. -/
def getBalancingConfig_config (balanceCtrl v0 v1 t0 t1 : Nat) : BalancingConfig :=
  { cellBalancingEnable := (balanceCtrl &&& 0x01) != 0,
    balanceVoltage := (v0 ||| (v1 <<< 8)) % 65536,
    balanceTime := (t0 ||| (t1 <<< 8)) % 65536 }

/-- Source function `BQ4050::getBalancingConfig`; the two reads of each 16-bit
field are taken left to right. -/
def getBalancingConfig (self : BQ4050) : BalancingConfig × BQ4050 :=
  let c := self.readDataFlash 0x4009
  let v0 := c.2.readDataFlash 0x400A
  let v1 := v0.2.readDataFlash 0x400B
  let t0 := v1.2.readDataFlash 0x400C
  let t1 := t0.2.readDataFlash 0x400D
  (getBalancingConfig_config c.1 v0.1 v1.1 t0.1 t1.1, t1.2)

/-- Source function `BQ4050::validateConfiguration`. -/
def validateConfiguration (self : BQ4050) : Bool × BQ4050 :=
  let c := self.getCellCount
  let cellCount := c.1
  let self := c.2
  if cellCount > FOUR_CELL then (false, self) else
  let self := if cellCount > ONE_CELL then self.getBalancingConfig.2 else self
  (true, self)

/-- Source function `BQ4050::isConfigurationValid`. -/
def isConfigurationValid (self : BQ4050) : Bool × BQ4050 :=
  self.validateConfiguration

/-! ## Settings flash: configuration structs

For each setter, the byte it computes and hands to `writeDataFlash`; for each
getter, the struct it builds from the bytes `readDataFlash` returned. -/

/-- The byte `daReg` computed by `setDAConfiguration`. -/
def setDAConfiguration_daReg (config : DAConfiguration) : Nat :=
  let daReg := 0
  let daReg := (daReg ||| ((config.cellCount % 256) &&& 0x03)) % 256
  let daReg := if config.nonRemovable then (daReg ||| 0x04) % 256 else daReg
  let daReg := if config.inSystemSleep then (daReg ||| 0x08) % 256 else daReg
  let daReg := if config.sleepMode then (daReg ||| 0x10) % 256 else daReg
  let daReg := if config.emergencyShutdown then (daReg ||| 0x20) % 256 else daReg
  let daReg := if config.cellTempAverage then (daReg ||| 0x40) % 256 else daReg
  let daReg := if config.fetTempAverage then (daReg ||| 0x80) % 256 else daReg
  daReg

/-- Source function `BQ4050::setDAConfiguration`. -/
def setDAConfiguration (self : BQ4050) (config : DAConfiguration) : Bool × BQ4050 :=
  self.writeDataFlash 0x4000 (setDAConfiguration_daReg config)

/-- The struct built by `getDAConfiguration` from the byte `daReg`. -/
def getDAConfiguration_config (daReg : Nat) : DAConfiguration :=
  { cellCount := daReg &&& 0x03,
    nonRemovable := (daReg &&& 0x04) != 0,
    inSystemSleep := (daReg &&& 0x08) != 0,
    sleepMode := (daReg &&& 0x10) != 0,
    emergencyShutdown := (daReg &&& 0x20) != 0,
    cellTempAverage := (daReg &&& 0x40) != 0,
    fetTempAverage := (daReg &&& 0x80) != 0 }

/-- Source function `BQ4050::getDAConfiguration`. -/
def getDAConfiguration (self : BQ4050) : DAConfiguration × BQ4050 :=
  let r := self.readDataFlash 0x4000
  (getDAConfiguration_config r.1, r.2)

/-- The byte `fetReg` computed by `setFETOptions`. -/
def setFETOptions_fetReg (options : FETOptions) : Nat :=
  let fetReg := 0
  let fetReg := if options.prechargeComm then (fetReg ||| 0x01) % 256 else fetReg
  let fetReg := if options.chargeSuspendFET then (fetReg ||| 0x02) % 256 else fetReg
  let fetReg := if options.chargeInhibitFET then (fetReg ||| 0x04) % 256 else fetReg
  let fetReg := if options.overTempFETDisable then (fetReg ||| 0x08) % 256 else fetReg
  fetReg

/-- Source function `BQ4050::setFETOptions`. -/
def setFETOptions (self : BQ4050) (options : FETOptions) : Bool × BQ4050 :=
  self.writeDataFlash 0x4001 (setFETOptions_fetReg options)

/-- The struct built by `getFETOptions` from the byte `fetReg`. -/
def getFETOptions_options (fetReg : Nat) : FETOptions :=
  { prechargeComm := (fetReg &&& 0x01) != 0,
    chargeSuspendFET := (fetReg &&& 0x02) != 0,
    chargeInhibitFET := (fetReg &&& 0x04) != 0,
    overTempFETDisable := (fetReg &&& 0x08) != 0 }

/-- Source function `BQ4050::getFETOptions`. -/
def getFETOptions (self : BQ4050) : FETOptions × BQ4050 :=
  let r := self.readDataFlash 0x4001
  (getFETOptions_options r.1, r.2)

/-- The byte `powerReg` computed by `setPowerConfig`. -/
def setPowerConfig_powerReg (config : PowerConfig) : Nat :=
  let powerReg := 0
  let powerReg := if config.autoShipEnable then (powerReg ||| 0x01) % 256 else powerReg
  powerReg

/-- Source function `BQ4050::setPowerConfig`. -/
def setPowerConfig (self : BQ4050) (config : PowerConfig) : Bool × BQ4050 :=
  self.writeDataFlash 0x4002 (setPowerConfig_powerReg config)

/-- The struct built by `getPowerConfig` from the byte `powerReg`. -/
def getPowerConfig_config (powerReg : Nat) : PowerConfig :=
  { autoShipEnable := (powerReg &&& 0x01) != 0 }

/-- Source function `BQ4050::getPowerConfig`. -/
def getPowerConfig (self : BQ4050) : PowerConfig × BQ4050 :=
  let r := self.readDataFlash 0x4002
  (getPowerConfig_config r.1, r.2)

/-- The byte `ioReg` computed by `setIOConfig`. -/
def setIOConfig_ioReg (config : IOConfig) : Nat :=
  let ioReg := 0
  let ioReg := if config.btpEnable then (ioReg ||| 0x01) % 256 else ioReg
  let ioReg := if config.btpPolarity then (ioReg ||| 0x02) % 256 else ioReg
  ioReg

/-- Source function `BQ4050::setIOConfig`. -/
def setIOConfig (self : BQ4050) (config : IOConfig) : Bool × BQ4050 :=
  self.writeDataFlash 0x4003 (setIOConfig_ioReg config)

/-- The struct built by `getIOConfig` from the byte `ioReg`. -/
def getIOConfig_config (ioReg : Nat) : IOConfig :=
  { btpEnable := (ioReg &&& 0x01) != 0,
    btpPolarity := (ioReg &&& 0x02) != 0 }

/-- Source function `BQ4050::getIOConfig`. -/
def getIOConfig (self : BQ4050) : IOConfig × BQ4050 :=
  let r := self.readDataFlash 0x4003
  (getIOConfig_config r.1, r.2)

/-- The byte `tempReg1` computed by `setTemperatureConfig`. -/
def setTemperatureConfig_tempReg1 (config : TemperatureConfig) : Nat :=
  let tempReg1 := 0
  let tempReg1 := if config.ts1Enable then (tempReg1 ||| 0x01) % 256 else tempReg1
  let tempReg1 := if config.ts2Enable then (tempReg1 ||| 0x02) % 256 else tempReg1
  let tempReg1 := if config.ts3Enable then (tempReg1 ||| 0x04) % 256 else tempReg1
  let tempReg1 := if config.ts4Enable then (tempReg1 ||| 0x08) % 256 else tempReg1
  let tempReg1 := if config.internalTSEnable then (tempReg1 ||| 0x10) % 256 else tempReg1
  tempReg1

/-- The byte `tempReg2` computed by `setTemperatureConfig`. -/
def setTemperatureConfig_tempReg2 (config : TemperatureConfig) : Nat :=
  let tempReg2 := 0
  let tempReg2 := if config.ts1CellMode then (tempReg2 ||| 0x01) % 256 else tempReg2
  let tempReg2 := if config.ts2CellMode then (tempReg2 ||| 0x02) % 256 else tempReg2
  let tempReg2 := if config.ts3CellMode then (tempReg2 ||| 0x04) % 256 else tempReg2
  let tempReg2 := if config.ts4CellMode then (tempReg2 ||| 0x08) % 256 else tempReg2
  let tempReg2 := if config.internalCellMode then (tempReg2 ||| 0x10) % 256 else tempReg2
  tempReg2

/-- Source function `BQ4050::setTemperatureConfig`: both writes are issued
(`success &= ...` does not short-circuit). -/
def setTemperatureConfig (self : BQ4050) (config : TemperatureConfig) : Bool × BQ4050 :=
  let w1 := self.writeDataFlash 0x4004 (setTemperatureConfig_tempReg1 config)
  let w2 := w1.2.writeDataFlash 0x4005 (setTemperatureConfig_tempReg2 config)
  (w1.1 && w2.1, w2.2)

/-- The struct built by `getTemperatureConfig` from the bytes `tempReg1`,
`tempReg2`. -/
def getTemperatureConfig_config (tempReg1 tempReg2 : Nat) : TemperatureConfig :=
  { ts1Enable := (tempReg1 &&& 0x01) != 0,
    ts2Enable := (tempReg1 &&& 0x02) != 0,
    ts3Enable := (tempReg1 &&& 0x04) != 0,
    ts4Enable := (tempReg1 &&& 0x08) != 0,
    internalTSEnable := (tempReg1 &&& 0x10) != 0,
    ts1CellMode := (tempReg2 &&& 0x01) != 0,
    ts2CellMode := (tempReg2 &&& 0x02) != 0,
    ts3CellMode := (tempReg2 &&& 0x04) != 0,
    ts4CellMode := (tempReg2 &&& 0x08) != 0,
    internalCellMode := (tempReg2 &&& 0x10) != 0 }

/-- Source function `BQ4050::getTemperatureConfig`. -/
def getTemperatureConfig (self : BQ4050) : TemperatureConfig × BQ4050 :=
  let r1 := self.readDataFlash 0x4004
  let r2 := r1.2.readDataFlash 0x4005
  (getTemperatureConfig_config r1.1 r2.1, r2.2)

/-- The byte `ledCtrl` computed by `setLEDConfig`. -/
def setLEDConfig_ledCtrl (config : LEDConfig) : Nat :=
  let ledCtrl := 0
  let ledCtrl := if config.ledEnable then (ledCtrl ||| 0x01) % 256 else ledCtrl
  let ledCtrl := (ledCtrl ||| ((config.blinkRate &&& 0x07) <<< 1)) % 256
  let ledCtrl := (ledCtrl ||| ((config.flashRate &&& 0x0F) <<< 4)) % 256
  ledCtrl

/-- Source function `BQ4050::setLEDConfig`: the low and the high byte of the
display mask, then the control byte; all three writes are issued. -/
def setLEDConfig (self : BQ4050) (config : LEDConfig) : Bool × BQ4050 :=
  let w1 := self.writeDataFlash 0x4006 (config.displayMask &&& 0xFF)
  let w2 := w1.2.writeDataFlash 0x4007 ((config.displayMask >>> 8) &&& 0xFF)
  let w3 := w2.2.writeDataFlash 0x4008 (setLEDConfig_ledCtrl config)
  (w1.1 && w2.1 && w3.1, w3.2)

/-- The struct built by `getLEDConfig` from the two mask bytes and `ledCtrl`. -/
def getLEDConfig_config (m0 m1 ledCtrl : Nat) : LEDConfig :=
  { displayMask := (m0 ||| (m1 <<< 8)) % 65536,
    ledEnable := (ledCtrl &&& 0x01) != 0,
    blinkRate := (ledCtrl >>> 1) &&& 0x07,
    flashRate := (ledCtrl >>> 4) &&& 0x0F }

/-- Source function `BQ4050::getLEDConfig`; the two reads of the display mask
are taken left to right. -/
def getLEDConfig (self : BQ4050) : LEDConfig × BQ4050 :=
  let m0 := self.readDataFlash 0x4006
  let m1 := m0.2.readDataFlash 0x4007
  let c := m1.2.readDataFlash 0x4008
  (getLEDConfig_config m0.1 m1.1 c.1, c.2)

/-- The byte `balanceCtrl` computed by `setBalancingConfig`. -/
def setBalancingConfig_balanceCtrl (config : BalancingConfig) : Nat :=
  let balanceCtrl := 0
  let balanceCtrl := if config.cellBalancingEnable then (balanceCtrl ||| 0x01) % 256 else balanceCtrl
  balanceCtrl

/-- Source function `BQ4050::setBalancingConfig`: five writes, all issued. -/
def setBalancingConfig (self : BQ4050) (config : BalancingConfig) : Bool × BQ4050 :=
  let w1 := self.writeDataFlash 0x4009 (setBalancingConfig_balanceCtrl config)
  let w2 := w1.2.writeDataFlash 0x400A (config.balanceVoltage &&& 0xFF)
  let w3 := w2.2.writeDataFlash 0x400B ((config.balanceVoltage >>> 8) &&& 0xFF)
  let w4 := w3.2.writeDataFlash 0x400C (config.balanceTime &&& 0xFF)
  let w5 := w4.2.writeDataFlash 0x400D ((config.balanceTime >>> 8) &&& 0xFF)
  (w1.1 && w2.1 && w3.1 && w4.1 && w5.1, w5.2)

/-- The byte `gaugingReg` computed by `setSBSGaugingConfig`. -/
def setSBSGaugingConfig_gaugingReg (config : SBSGaugingConfig) : Nat :=
  let gaugingReg := 0
  let gaugingReg := if config.rsocHold then (gaugingReg ||| 0x01) % 256 else gaugingReg
  let gaugingReg := if config.capacitySync then (gaugingReg ||| 0x02) % 256 else gaugingReg
  let gaugingReg := if config.smoothSOC then (gaugingReg ||| 0x04) % 256 else gaugingReg
  gaugingReg

/-- Source function `BQ4050::setSBSGaugingConfig`. -/
def setSBSGaugingConfig (self : BQ4050) (config : SBSGaugingConfig) : Bool × BQ4050 :=
  self.writeDataFlash 0x400E (setSBSGaugingConfig_gaugingReg config)

/-- The struct built by `getSBSGaugingConfig` from the byte `gaugingReg`. -/
def getSBSGaugingConfig_config (gaugingReg : Nat) : SBSGaugingConfig :=
  { rsocHold := (gaugingReg &&& 0x01) != 0,
    capacitySync := (gaugingReg &&& 0x02) != 0,
    smoothSOC := (gaugingReg &&& 0x04) != 0 }

/-- Source function `BQ4050::getSBSGaugingConfig`. -/
def getSBSGaugingConfig (self : BQ4050) : SBSGaugingConfig × BQ4050 :=
  let r := self.readDataFlash 0x400E
  (getSBSGaugingConfig_config r.1, r.2)

/-- The byte `sbsReg` computed by `setSBSConfig`. -/
def setSBSConfig_sbsReg (config : SBSConfig) : Nat :=
  let sbsReg := 0
  let sbsReg := if config.specificationMode then (sbsReg ||| 0x01) % 256 else sbsReg
  let sbsReg := if config.packetErrorCheck then (sbsReg ||| 0x02) % 256 else sbsReg
  let sbsReg := (sbsReg ||| ((config.smbusTimeout &&& 0x3F) <<< 2)) % 256
  sbsReg

/-- Source function `BQ4050::setSBSConfig`. -/
def setSBSConfig (self : BQ4050) (config : SBSConfig) : Bool × BQ4050 :=
  self.writeDataFlash 0x400F (setSBSConfig_sbsReg config)

/-- The struct built by `getSBSConfig` from the byte `sbsReg`. -/
def getSBSConfig_config (sbsReg : Nat) : SBSConfig :=
  { specificationMode := (sbsReg &&& 0x01) != 0,
    packetErrorCheck := (sbsReg &&& 0x02) != 0,
    smbusTimeout := (sbsReg >>> 2) &&& 0x3F }

/-- Source function `BQ4050::getSBSConfig`. -/
def getSBSConfig (self : BQ4050) : SBSConfig × BQ4050 :=
  let r := self.readDataFlash 0x400F
  (getSBSConfig_config r.1, r.2)

/-- The byte `socReg` computed by `setSOCFlagConfig`. -/
def setSOCFlagConfig_socReg (config : SOCFlagConfig) : Nat :=
  let socReg := 0
  let socReg := if config.tcSetOnCharge then (socReg ||| 0x01) % 256 else socReg
  let socReg := if config.fcSetOnCharge then (socReg ||| 0x02) % 256 else socReg
  let socReg := if config.tcClearOnRSOC then (socReg ||| 0x04) % 256 else socReg
  let socReg := if config.tdClearOnRSOC then (socReg ||| 0x08) % 256 else socReg
  let socReg := (socReg ||| ((config.rsocThresholds &&& 0x0F) <<< 4)) % 256
  socReg

/-- Source function `BQ4050::setSOCFlagConfig`. -/
def setSOCFlagConfig (self : BQ4050) (config : SOCFlagConfig) : Bool × BQ4050 :=
  self.writeDataFlash 0x4010 (setSOCFlagConfig_socReg config)

/-- The struct built by `getSOCFlagConfig` from the byte `socReg`. -/
def getSOCFlagConfig_config (socReg : Nat) : SOCFlagConfig :=
  { tcSetOnCharge := (socReg &&& 0x01) != 0,
    fcSetOnCharge := (socReg &&& 0x02) != 0,
    tcClearOnRSOC := (socReg &&& 0x04) != 0,
    tdClearOnRSOC := (socReg &&& 0x08) != 0,
    rsocThresholds := (socReg >>> 4) &&& 0x0F }

/-- Source function `BQ4050::getSOCFlagConfig`. -/
def getSOCFlagConfig (self : BQ4050) : SOCFlagConfig × BQ4050 :=
  let r := self.readDataFlash 0x4010
  (getSOCFlagConfig_config r.1, r.2)

/-- The byte `protReg` computed by `setProtectionConfig`. -/
def setProtectionConfig_protReg (config : ProtectionConfig) : Nat :=
  let protReg := 0
  let protReg := if config.protectionEnable then (protReg ||| 0x01) % 256 else protReg
  let protReg := (protReg ||| ((config.protectionDelay &&& 0x7F) <<< 1)) % 256
  protReg

/-- Source function `BQ4050::setProtectionConfig`. -/
def setProtectionConfig (self : BQ4050) (config : ProtectionConfig) : Bool × BQ4050 :=
  self.writeDataFlash 0x4011 (setProtectionConfig_protReg config)

/-- The struct built by `getProtectionConfig` from the byte `protReg`. -/
def getProtectionConfig_config (protReg : Nat) : ProtectionConfig :=
  { protectionEnable := (protReg &&& 0x01) != 0,
    protectionDelay := (protReg >>> 1) &&& 0x7F }

/-- Source function `BQ4050::getProtectionConfig`. -/
def getProtectionConfig (self : BQ4050) : ProtectionConfig × BQ4050 :=
  let r := self.readDataFlash 0x4011
  (getProtectionConfig_config r.1, r.2)

/-! ## Specification-side notions -/

/-- Little-endian value of a byte sequence (first byte least significant). -/
def littleEndian : List Nat → Nat
  | [] => 0
  | b :: bs => b + 256 * littleEndian bs

/-- Printable ASCII: a byte value in 0x20..0x7E. -/
def printable (c : Nat) : Bool :=
  decide (0x20 ≤ c ∧ c ≤ 0x7E)

/-- The `i`-th byte the driver obtains by `read()` after a request answered
with `resp`: the delivered byte, or 0xFF (the `-1` of an empty buffer converted
to `uint8_t`) when fewer bytes were delivered. -/
def receivedByte (resp : List Nat) (i : Nat) : Nat :=
  resp.getD i 255 % 256

/-- The single error of the first failing step of a register read of `width`
bytes, or None when every step succeeds: the command write is not acknowledged
(BusNack), the reported byte count differs from the requested one (BusTimeout),
the PEC byte does not match the frame (IntegrityMismatch). It is a function of
the address, the PEC flag and the transport only. -/
def expectedReadError (address : Nat) (pecEnabled : Bool) (wire : TwoWire) (reg width : Nat) :
    BQ4050_Error :=
  if wire.nextStatus ≠ 0 then BQ4050_ERROR_I2C_NACK
  else if wire.nextResponse.1 % 256 ≠ width + (if pecEnabled then 1 else 0) then
    BQ4050_ERROR_I2C_TIMEOUT
  else if pecEnabled = true ∧
      calculatePEC ([(address <<< 1) % 256, reg, ((address <<< 1) ||| 1) % 256] ++
        (List.range width).map (receivedByte wire.nextResponse.2)) (3 + width)
        ≠ receivedByte wire.nextResponse.2 width then
    BQ4050_ERROR_PEC_MISMATCH
  else BQ4050_ERROR_NONE

/-- The single error of a write transaction: BusNack when the completion status
is not 0, None otherwise. -/
def expectedWriteError (wire : TwoWire) : BQ4050_Error :=
  if wire.nextStatus ≠ 0 then BQ4050_ERROR_I2C_NACK else BQ4050_ERROR_NONE

/-- Every write transaction still in the script of the bus completes with
status 0 (an exhausted script acknowledges as well). -/
def allAcknowledged (w : TwoWire) : Prop :=
  ∀ s ∈ w.statuses, s % 256 = 0

/-- Whether a bus acknowledges every write is decided by inspecting its script. -/
instance allAcknowledged_decidable (w : TwoWire) : Decidable (allAcknowledged w) :=
  inferInstanceAs (Decidable (∀ s ∈ w.statuses, s % 256 = 0))

/-- The two acknowledged transactions by which the byte `d` is written to flash
address `a` of the device at bus address `dev`: the address selection
`manufacturerAccessWrite(0x44, a)` and the data write `writeRegister8(0x40, d)`. -/
def flashWrite (dev a d : Nat) : List BusEvent :=
  [BusEvent.transmission dev [0x00, 0x44, 0x00, a &&& 0xFF, a >>> 8] true 0,
   BusEvent.transmission dev [0x40, d] true 0]

/-- The bus events of an acknowledged read of flash address `a`: the address
selection, the command write of register 0x40 and the request of one byte
(two with PEC). -/
def flashRead (dev : Nat) (pec : Bool) (a : Nat) : List BusEvent :=
  [BusEvent.transmission dev [0x00, 0x44, 0x00, a &&& 0xFF, a >>> 8] true 0,
   BusEvent.transmission dev [0x40] false 0,
   BusEvent.request dev (if pec then 2 else 1)]

/-- The answer to the read of register 0x40 of a device at bus address `dev`
that holds the byte `b` at the selected flash address: the byte alone (count
1), or with PEC the byte followed by the PEC of the read frame (count 2). The
reported count is the number of bytes delivered. -/
def flashAnswer (dev : Nat) (pec : Bool) (b : Nat) : Nat × List Nat :=
  if pec then
    (2, [b, calculatePEC [(dev <<< 1) % 256, 0x40, ((dev <<< 1) ||| 1) % 256, b] 4])
  else (1, [b])

/-- Round trip of a settings struct `c` through the flash cells `cells`, a list
of (address, byte): on a bus that acknowledges every write, the setter returns
true and its bus traffic is exactly one write of each byte of `cells` to its
address, in order; the getter, run on a session whose device answers with the
bytes of `cells`, reads exactly the addresses of `cells`, in the same order,
and returns `c`. -/
def flashRoundtrip {α : Type} (setter : BQ4050 → α → Bool × BQ4050)
    (getter : BQ4050 → α × BQ4050) (c : α) (cells : List (Nat × Nat)) : Prop :=
  ∀ (w r : BQ4050) (more : List (Nat × List Nat)),
    allAcknowledged w._wire → allAcknowledged r._wire →
    r._wire.responses
      = cells.map (fun x => flashAnswer r._address r._pecEnabled x.2) ++ more →
      (setter w c).1 = true ∧
      (setter w c).2._wire.log
        = w._wire.log ++ cells.flatMap (fun x => flashWrite w._address x.1 x.2) ∧
      (getter r).2._wire.log
        = r._wire.log ++ cells.flatMap (fun x => flashRead r._address r._pecEnabled x.1) ∧
      (getter r).1 = c

end BQ4050

/-! ## Presentation utilities (`BQ4050Utils.cpp`) -/

namespace BQ4050Utils

/-- Source function `BQ4050Utils::isValidCycleCount`. -/
def isValidCycleCount (cycleCount : Nat) : Bool :=
  if cycleCount = 0xFFFF then false
  else if cycleCount = 0x0000 then true
  else if cycleCount > 50000 then false
  else true

/-- Flag `SAFETY_CUV` of `enum BQ4050_SafetyFlags` (bit 0: Cell Undervoltage). -/
def SAFETY_CUV : Nat := 0x00000001

/-- Flag `SAFETY_COV` of `enum BQ4050_SafetyFlags` (bit 1: Cell Overvoltage). -/
def SAFETY_COV : Nat := 0x00000002

/-- Flag `SAFETY_OCC1` of `enum BQ4050_SafetyFlags`. -/
def SAFETY_OCC1 : Nat := 0x00000004

/-- Flag `SAFETY_OCC2` of `enum BQ4050_SafetyFlags`. -/
def SAFETY_OCC2 : Nat := 0x00000008

/-- Flag `SAFETY_OCD1` of `enum BQ4050_SafetyFlags`. -/
def SAFETY_OCD1 : Nat := 0x00000010

/-- Flag `SAFETY_OCD2` of `enum BQ4050_SafetyFlags`. -/
def SAFETY_OCD2 : Nat := 0x00000020

/-- Flag `SAFETY_AOLDL` of `enum BQ4050_SafetyFlags`. -/
def SAFETY_AOLDL : Nat := 0x00000080

/-- Flag `SAFETY_ASCCL` of `enum BQ4050_SafetyFlags`. -/
def SAFETY_ASCCL : Nat := 0x00000200

/-- Flag `SAFETY_ASCDL` of `enum BQ4050_SafetyFlags`. -/
def SAFETY_ASCDL : Nat := 0x00000800

/-- Flag `SAFETY_OTC` of `enum BQ4050_SafetyFlags`. -/
def SAFETY_OTC : Nat := 0x00001000

/-- Flag `SAFETY_OTD` of `enum BQ4050_SafetyFlags`. -/
def SAFETY_OTD : Nat := 0x00002000

/-- Flag `SAFETY_OTF` of `enum BQ4050_SafetyFlags`. -/
def SAFETY_OTF : Nat := 0x00010000

/-- Flag `SAFETY_PTO` of `enum BQ4050_SafetyFlags`. -/
def SAFETY_PTO : Nat := 0x00040000

/-- Flag `SAFETY_CTO` of `enum BQ4050_SafetyFlags`. -/
def SAFETY_CTO : Nat := 0x00100000

/-- Flag `SAFETY_UTC` of `enum BQ4050_SafetyFlags`. -/
def SAFETY_UTC : Nat := 0x04000000

/-- Flag `SAFETY_UTD` of `enum BQ4050_SafetyFlags`. -/
def SAFETY_UTD : Nat := 0x08000000

/-- Source function `BQ4050Utils::appendStatusFlag`; the condition is the masked
value converted to `bool` (non-zero is true). -/
def appendStatusFlag (result : String) (condition : Nat) (flagName : String) : String :=
  if condition ≠ 0 then
    (if result.length > 0 then result ++ ", " else result) ++ flagName
  else result

/-- Source function `BQ4050Utils::parseSafetyStatus`. -/
def parseSafetyStatus (safetyStatus : Nat) : String :=
  let result := ""
  let result := appendStatusFlag result (safetyStatus &&& SAFETY_CUV) "Cell Undervoltage"
  let result := appendStatusFlag result (safetyStatus &&& SAFETY_COV) "Cell Overvoltage"
  let result := appendStatusFlag result (safetyStatus &&& (SAFETY_OCC1 ||| SAFETY_OCC2))
    "Overcurrent Charge"
  let result := appendStatusFlag result (safetyStatus &&& (SAFETY_OCD1 ||| SAFETY_OCD2))
    "Overcurrent Discharge"
  let result := appendStatusFlag result (safetyStatus &&& SAFETY_AOLDL)
    "Overload During Discharge Latch"
  let result := appendStatusFlag result (safetyStatus &&& SAFETY_ASCDL)
    "Short Circuit During Discharge Latch"
  let result := appendStatusFlag result (safetyStatus &&& SAFETY_ASCCL)
    "Short Circuit During Charge Latch"
  let result := appendStatusFlag result (safetyStatus &&& SAFETY_PTO) "Precharge Timeout"
  let result := appendStatusFlag result (safetyStatus &&& SAFETY_CTO) "Charge Timeout"
  let result := appendStatusFlag result (safetyStatus &&& SAFETY_OTD)
    "Over Temperature Discharge"
  let result := appendStatusFlag result (safetyStatus &&& SAFETY_OTC) "Over Temperature Charge"
  let result := appendStatusFlag result (safetyStatus &&& SAFETY_OTF) "Over Temperature FET"
  let result := appendStatusFlag result (safetyStatus &&& SAFETY_UTC)
    "Under Temperature Charge"
  let result := appendStatusFlag result (safetyStatus &&& SAFETY_UTD)
    "Under Temperature Discharge"
  if result.length = 0 then "Normal" else result

end BQ4050Utils

/-! # Theorems -/

set_option maxRecDepth 100000

namespace BQ4050

/-! ## Lemmas on the CRC engine -/

theorem crc8_lookup_eq_reference :
    ∀ i < 256, crc8_lookup.getD i 0 = crc8_reference_byte 0 i := by
  decide

theorem crc8_lookup_lt : ∀ i < 256, crc8_lookup.getD i 0 < 256 := by
  decide

theorem xor_lt_256 {a b : Nat} (ha : a < 256) (hb : b < 256) : a ^^^ b < 256 :=
  @Nat.xor_lt_two_pow a b 8 ha hb

theorem crc8_reference_byte_zero (crc b : Nat) :
    crc8_reference_byte crc b = crc8_reference_byte 0 (crc ^^^ b) := by
  simp [crc8_reference_byte]

/-- An index loop over a whole buffer is a left fold over its elements. -/
theorem foldl_range_getD (g : Nat → Nat → Nat) (data : List Nat) (init : Nat) :
    (List.range data.length).foldl (fun c i => g c (data.getD i 0)) init
      = data.foldl g init := by
  induction data using List.reverseRecOn with
  | nil => rfl
  | append_singleton l x ih =>
    simp only [List.length_append, List.length_singleton, List.range_succ, List.foldl_append,
      List.foldl_cons, List.foldl_nil]
    have h1 : (List.range l.length).foldl (fun c i => g c ((l ++ [x]).getD i 0)) init
        = (List.range l.length).foldl (fun c i => g c (l.getD i 0)) init := by
      apply List.foldl_ext
      intro a i hi
      have hi' : i < l.length := List.mem_range.mp hi
      simp [List.getD_eq_getElem?_getD, List.getElem?_append_left hi']
    rw [h1, ih]
    simp [List.getD_eq_getElem?_getD]

theorem calculatePEC_eq_foldl (data : List Nat) :
    calculatePEC data data.length
      = data.foldl (fun crc b => crc8_lookup.getD (crc ^^^ b) 0) 0 :=
  foldl_range_getD (fun crc b => crc8_lookup.getD (crc ^^^ b) 0) data 0

theorem foldl_lookup_eq_reference (data : List Nat) (hb : ∀ b ∈ data, b < 256) :
    ∀ crc, crc < 256 →
      data.foldl (fun crc b => crc8_lookup.getD (crc ^^^ b) 0) crc
        = data.foldl crc8_reference_byte crc := by
  induction data with
  | nil => intro crc _; rfl
  | cons b bs ih =>
    intro crc hc
    have hb0 : b < 256 := hb b (List.mem_cons_self _ _)
    have hx : crc ^^^ b < 256 := xor_lt_256 hc hb0
    simp only [List.foldl_cons]
    rw [crc8_reference_byte_zero crc b, ← crc8_lookup_eq_reference _ hx]
    exact ih (fun c hc' => hb c (List.mem_cons_of_mem _ hc')) _ (crc8_lookup_lt _ hx)

/-! ## Lemmas on byte assembly -/

theorem shiftLeft_or_eq_add (k x y : Nat) (hx : x < 2 ^ k) :
    (y <<< k) ||| x = x + 2 ^ k * y := by
  rw [Nat.shiftLeft_eq, Nat.mul_comm, ← Nat.mul_add_lt_is_or hx, Nat.add_comm]

theorem or_shiftLeft_eq_add (k x y : Nat) (hx : x < 2 ^ k) :
    x ||| (y <<< k) = x + 2 ^ k * y := by
  rw [Nat.or_comm, shiftLeft_or_eq_add k x y hx]

theorem assemble16 (b0 b1 : Nat) (h0 : b0 < 256) (h1 : b1 < 256) :
    ((b1 <<< 8) ||| b0) % 65536 = b0 + 256 * b1 := by
  rw [shiftLeft_or_eq_add 8 b0 b1 (by omega)]
  omega

theorem assemble32 (b0 b1 b2 b3 : Nat) (h0 : b0 < 256) (h1 : b1 < 256) (h2 : b2 < 256) :
    b0 ||| (b1 <<< 8) ||| (b2 <<< 16) ||| (b3 <<< 24)
      = b0 + 256 * (b1 + 256 * (b2 + 256 * b3)) := by
  rw [or_shiftLeft_eq_add 8 b0 b1 (by omega), or_shiftLeft_eq_add 16 _ b2 (by omega),
    or_shiftLeft_eq_add 24 _ b3 (by omega)]
  omega

theorem shiftLeft_byte_mod (b k : Nat) (h : b < 256) (hk : k ≤ 24) :
    (b <<< k) % 4294967296 = b <<< k := by
  apply Nat.mod_eq_of_lt
  rw [Nat.shiftLeft_eq]
  calc b * 2 ^ k ≤ b * 2 ^ 24 := Nat.mul_le_mul_left _ (Nat.pow_le_pow_right (by decide) hk)
    _ < 4294967296 := by omega

theorem toUint8_natCast (b : Nat) : toUint8 (b : Int) = b % 256 := by
  unfold toUint8
  omega

theorem toUint8_natCast_mod (b : Nat) : toUint8 ((b : Int) % 256) = b % 256 := by
  unfold toUint8
  omega

theorem toUint8_neg_one : toUint8 (-1) = 255 := by
  decide

/-- The loop of `readRegister32` on a buffer holding at least four bytes. -/
theorem readRegister32_loop (a : Nat) (tb : List Nat) (st : List Nat)
    (rs : List (Nat × List Nat)) (lg : List BusEvent) (b0 b1 b2 b3 : Nat) (rest : List Nat)
    (h0 : b0 < 256) (h1 : b1 < 256) (h2 : b2 < 256) (h3 : b3 < 256) :
    (List.range 4).foldl readRegister32_step (TwoWire.mk a tb (b0 :: b1 :: b2 :: b3 :: rest) st rs lg, [], 0)
      = (TwoWire.mk a tb rest st rs lg, [b0, b1, b2, b3],
          b0 ||| (b1 <<< 8) ||| (b2 <<< 16) ||| (b3 <<< 24)) := by
  have e : b0 ||| (b1 <<< 8) ||| (b2 <<< 16) ||| (b3 <<< 24) < 4294967296 := by
    rw [assemble32 b0 b1 b2 b3 h0 h1 h2]
    omega
  have e1 : b0 ||| (b1 <<< 8) < 4294967296 := by
    rw [or_shiftLeft_eq_add 8 b0 b1 (by omega)]
    omega
  have e2 : b0 ||| (b1 <<< 8) ||| (b2 <<< 16) < 4294967296 := by
    rw [or_shiftLeft_eq_add 8 b0 b1 (by omega), or_shiftLeft_eq_add 16 _ b2 (by omega)]
    omega
  simp [readRegister32_step, List.range_succ, TwoWire.read, toUint8_natCast_mod,
    toUint8_natCast, Nat.mod_eq_of_lt h0, Nat.mod_eq_of_lt h1, Nat.mod_eq_of_lt h2,
    Nat.mod_eq_of_lt h3, shiftLeft_byte_mod, h1, h2, h3, Nat.mod_eq_of_lt e,
    Nat.mod_eq_of_lt e1, Nat.mod_eq_of_lt e2,
    Nat.mod_eq_of_lt (show b0 < 4294967296 by omega)]


/-! ## Lemmas on the bus log and on the error of a call -/


theorem read_snd_log (w : TwoWire) : w.read.2.log = w.log := by
  unfold TwoWire.read
  split <;> rfl

theorem validatePEC_wire (self : BQ4050) (d : List Nat) (l p : Nat) :
    (self.validatePEC d l p).2._wire = self._wire := by
  simp only [validatePEC]
  split <;> rfl

theorem readRegister32_loop_log (w : TwoWire) (l : List Nat) (r : Nat) :
    ((List.range 4).foldl readRegister32_step (w, l, r)).1.log = w.log := by
  simp [List.range_succ, readRegister32_step, read_snd_log]

/-- The bus events that a register read of `width` bytes adds to the log. -/
theorem readRegister8_log (self : BQ4050) (reg : Nat) :
    (self.readRegister8 reg).2._wire.log
      = self._wire.log ++
          BusEvent.transmission self._address [reg % 256] false self._wire.nextStatus ::
            (if self._wire.nextStatus = 0 then
              [BusEvent.request self._address (1 + (if self._pecEnabled then 1 else 0))]
             else []) := by
  by_cases hs : self._wire.statuses.head?.getD 0 % 256 = 0 <;>
  cases hp : self._pecEnabled <;>
  simp [readRegister8, safeBeginTransmission, safeRequestData, TwoWire.endTransmission,
    TwoWire.requestFrom, TwoWire.beginTransmission, TwoWire.write, setError,
    TwoWire.nextStatus, TwoWire.nextResponse, hs, hp] <;>
  split_ifs <;>
  simp [validatePEC_wire, read_snd_log]

theorem readRegister16_log (self : BQ4050) (reg : Nat) :
    (self.readRegister16 reg).2._wire.log
      = self._wire.log ++
          BusEvent.transmission self._address [reg % 256] false self._wire.nextStatus ::
            (if self._wire.nextStatus = 0 then
              [BusEvent.request self._address (2 + (if self._pecEnabled then 1 else 0))]
             else []) := by
  simp only [readRegister16]
  split_ifs <;>
  simp_all [TwoWire.endTransmission, validatePEC_wire, read_snd_log,
    TwoWire.requestFrom, TwoWire.beginTransmission, TwoWire.write, setError,
    TwoWire.nextStatus, TwoWire.nextResponse]

theorem readRegister32_log (self : BQ4050) (reg : Nat) :
    (self.readRegister32 reg).2._wire.log
      = self._wire.log ++
          BusEvent.transmission self._address [reg % 256] false self._wire.nextStatus ::
            (if self._wire.nextStatus = 0 then
              [BusEvent.request self._address (4 + (if self._pecEnabled then 1 else 0))]
             else []) := by
  simp only [readRegister32]
  split_ifs <;>
  simp_all [TwoWire.endTransmission, validatePEC_wire, read_snd_log, readRegister32_loop_log,
    TwoWire.requestFrom, TwoWire.beginTransmission, TwoWire.write, setError,
    TwoWire.nextStatus, TwoWire.nextResponse]


theorem readRegister16_error (self : BQ4050) (reg : Nat) :
    (self.readRegister16 reg).2._lastError
      = expectedReadError self._address self._pecEnabled self._wire reg 2 := by
  by_cases hs : self._wire.statuses.head?.getD 0 % 256 = 0
  · cases hp : self._pecEnabled
    · by_cases hc : (self._wire.responses.head?.getD (0, [])).1 % 256 = 2 <;>
      simp [readRegister16, expectedReadError, TwoWire.endTransmission, TwoWire.requestFrom,
        TwoWire.beginTransmission, TwoWire.write, setError, TwoWire.nextStatus,
        TwoWire.nextResponse, hs, hp, hc]
    · by_cases hc : (self._wire.responses.head?.getD (0, [])).1 % 256 = 3
      · rcases hr : (self._wire.responses.head?.getD (0, [])).2 with
          _ | ⟨b0, _ | ⟨b1, _ | ⟨b2, rest⟩⟩⟩ <;>
        simp [readRegister16, expectedReadError, TwoWire.endTransmission, TwoWire.requestFrom,
          TwoWire.beginTransmission, TwoWire.write, setError, TwoWire.nextStatus,
          TwoWire.nextResponse, TwoWire.read, validatePEC, packet, receivedByte,
          toUint8_natCast_mod, toUint8_natCast, toUint8_neg_one, List.range_succ,
          hs, hp, hc, hr] <;>
        split_ifs <;> simp_all
      · simp [readRegister16, expectedReadError, TwoWire.endTransmission, TwoWire.requestFrom,
          TwoWire.beginTransmission, TwoWire.write, setError, TwoWire.nextStatus,
          TwoWire.nextResponse, hs, hp, hc]
  · simp [readRegister16, expectedReadError, TwoWire.endTransmission, TwoWire.requestFrom,
      TwoWire.beginTransmission, TwoWire.write, setError, TwoWire.nextStatus,
      TwoWire.nextResponse, hs]

theorem readRegister8_error (self : BQ4050) (reg : Nat) :
    (self.readRegister8 reg).2._lastError
      = expectedReadError self._address self._pecEnabled self._wire reg 1 := by
  by_cases hs : self._wire.statuses.head?.getD 0 % 256 = 0
  · cases hp : self._pecEnabled
    · by_cases hc : (self._wire.responses.head?.getD (0, [])).1 % 256 = 1 <;>
      simp [readRegister8, safeBeginTransmission, safeRequestData, expectedReadError,
        TwoWire.endTransmission, TwoWire.requestFrom,
        TwoWire.beginTransmission, TwoWire.write, setError, TwoWire.nextStatus,
        TwoWire.nextResponse, hs, hp, hc]
    · by_cases hc : (self._wire.responses.head?.getD (0, [])).1 % 256 = 2
      · rcases hr : (self._wire.responses.head?.getD (0, [])).2 with
          _ | ⟨b0, _ | ⟨b1, rest⟩⟩ <;>
        simp [readRegister8, safeBeginTransmission, safeRequestData, expectedReadError,
          TwoWire.endTransmission, TwoWire.requestFrom,
          TwoWire.beginTransmission, TwoWire.write, setError, TwoWire.nextStatus,
          TwoWire.nextResponse, TwoWire.read, validatePEC, packet, receivedByte,
          toUint8_natCast_mod, toUint8_natCast, toUint8_neg_one, List.range_succ,
          hs, hp, hc, hr] <;>
        split_ifs <;> simp_all
      · simp [readRegister8, safeBeginTransmission, safeRequestData, expectedReadError,
          TwoWire.endTransmission, TwoWire.requestFrom,
          TwoWire.beginTransmission, TwoWire.write, setError, TwoWire.nextStatus,
          TwoWire.nextResponse, hs, hp, hc]
  · simp [readRegister8, safeBeginTransmission, safeRequestData, expectedReadError,
      TwoWire.endTransmission, TwoWire.requestFrom,
      TwoWire.beginTransmission, TwoWire.write, setError, TwoWire.nextStatus,
      TwoWire.nextResponse, hs]

theorem readRegister32_error (self : BQ4050) (reg : Nat) :
    (self.readRegister32 reg).2._lastError
      = expectedReadError self._address self._pecEnabled self._wire reg 4 := by
  by_cases hs : self._wire.statuses.head?.getD 0 % 256 = 0
  · cases hp : self._pecEnabled
    · by_cases hc : (self._wire.responses.head?.getD (0, [])).1 % 256 = 4 <;>
      simp [readRegister32, expectedReadError, TwoWire.endTransmission, TwoWire.requestFrom,
        TwoWire.beginTransmission, TwoWire.write, setError, TwoWire.nextStatus,
        TwoWire.nextResponse, hs, hp, hc]
    · by_cases hc : (self._wire.responses.head?.getD (0, [])).1 % 256 = 5
      · rcases hr : (self._wire.responses.head?.getD (0, [])).2 with
          _ | ⟨b0, _ | ⟨b1, _ | ⟨b2, _ | ⟨b3, _ | ⟨b4, rest⟩⟩⟩⟩⟩ <;>
        simp [readRegister32, readRegister32_step, expectedReadError, TwoWire.endTransmission,
          TwoWire.requestFrom,
          TwoWire.beginTransmission, TwoWire.write, setError, TwoWire.nextStatus,
          TwoWire.nextResponse, TwoWire.read, validatePEC, packet, receivedByte,
          toUint8_natCast_mod, toUint8_natCast, toUint8_neg_one, List.range_succ,
          hs, hp, hc, hr] <;>
        split_ifs <;> simp_all
      · simp [readRegister32, expectedReadError, TwoWire.endTransmission, TwoWire.requestFrom,
          TwoWire.beginTransmission, TwoWire.write, setError, TwoWire.nextStatus,
          TwoWire.nextResponse, hs, hp, hc]
  · simp [readRegister32, expectedReadError, TwoWire.endTransmission, TwoWire.requestFrom,
      TwoWire.beginTransmission, TwoWire.write, setError, TwoWire.nextStatus,
      TwoWire.nextResponse, hs]

theorem write_error (self : BQ4050) (reg value command data : Nat) :
    (self.writeRegister8 reg value).2._lastError = expectedWriteError self._wire ∧
    (self.writeRegister16 reg value).2._lastError = expectedWriteError self._wire ∧
    (self.manufacturerAccessWrite command data).2._lastError = expectedWriteError self._wire := by
  refine ⟨?_, ?_, ?_⟩ <;>
  by_cases hs : self._wire.statuses.head?.getD 0 % 256 = 0 <;>
  simp [writeRegister8, writeRegister16, manufacturerAccessWrite, expectedWriteError,
    TwoWire.endTransmission, TwoWire.beginTransmission, TwoWire.write, setError,
    TwoWire.nextStatus, hs]

/-- A 16-bit read with the PEC flag off, acknowledged and answered with two
bytes (whatever follows them in the buffer). -/
theorem readRegister16_plain (self : BQ4050) (reg b0 b1 : Nat) (rest : List Nat)
    (hpec : self._pecEnabled = false)
    (hack : self._wire.nextStatus = 0)
    (hresp : self._wire.nextResponse = (2, b0 :: b1 :: rest))
    (h0 : b0 < 256) (h1 : b1 < 256) :
    (self.readRegister16 reg).1 = ((b1 <<< 8) ||| b0) ∧
    (self.readRegister16 reg).2._lastError = BQ4050_Error.BQ4050_ERROR_NONE := by
  simp [TwoWire.nextStatus] at hack
  simp [TwoWire.nextResponse] at hresp
  simp [readRegister16, TwoWire.endTransmission,
    TwoWire.requestFrom, TwoWire.beginTransmission, TwoWire.write, TwoWire.nextResponse,
    TwoWire.nextStatus, TwoWire.read, setError,
    toUint8_natCast_mod, toUint8_natCast, Nat.mod_eq_of_lt h0,
    Nat.mod_eq_of_lt h1, hpec, hack, hresp]
  rw [shiftLeft_or_eq_add 8 b0 b1 (by omega)]
  omega

/-- The accessor `getSafetyStatus` is a 16-bit read of register 0x51 run with the PEC flag
off, followed by the restoration of the flag. -/
theorem getSafetyStatus_eq (self : BQ4050) :
    self.getSafetyStatus
      = (({ self with _pecEnabled := false }.readRegister16 0x51).1,
         { ({ self with _pecEnabled := false }.readRegister16 0x51).2 with
           _pecEnabled := self._pecEnabled }) := by
  obtain ⟨a, w, e, p⟩ := self
  cases p <;>
  simp [getSafetyStatus, readRegister16WithSmartPEC, SMART_PEC_READ, shouldUsePECForRegister,
    BQ4050_CMD_SAFETY_STATUS]


/-! ## CRC engine -/

/-- Claim C1: for every byte sequence of length at most 255, the table-driven
`calculatePEC` returns the reference bit-at-a-time CRC-8 (polynomial 0x07,
initial value 0x00, MSB first, no reflection, no final XOR); the PEC of the
empty sequence is 0x00. -/
theorem calculatePEC_matches_reference :
    calculatePEC [] 0 = 0x00 ∧
    ∀ data : List Nat, data.length ≤ 255 → (∀ b ∈ data, b < 256) →
      calculatePEC data data.length = crc8_reference data := by
  refine ⟨rfl, ?_⟩
  intro data _ hb
  rw [calculatePEC_eq_foldl]
  exact foldl_lookup_eq_reference data hb 0 (by decide)

theorem calculatePEC_matches_reference_witness :
    [0x16, 0x09, 0x17, 0x34, 0x12].length ≤ 255 ∧
    (∀ b ∈ [0x16, 0x09, 0x17, 0x34, 0x12], b < 256) ∧
    calculatePEC [0x16, 0x09, 0x17, 0x34, 0x12] [0x16, 0x09, 0x17, 0x34, 0x12].length
      = crc8_reference [0x16, 0x09, 0x17, 0x34, 0x12] :=
  ⟨by decide, by decide,
   calculatePEC_matches_reference.2 [0x16, 0x09, 0x17, 0x34, 0x12] (by decide) (by decide)⟩

/-! ## Smart PEC policy -/

/-- Claim C2: for every register address `reg` in 0..255 and every value `x` of the
session PEC flag, `shouldUsePECForRegister reg` is false for `reg` in
0x50..0x57, false for `reg >= 0x58`, and `x` for `reg <= 0x4F` (0x00 included). -/
theorem shouldUsePECForRegister_ranges (self : BQ4050) (x : Bool) (reg : Nat)
    (_ : reg < 256) :
    (0x50 ≤ reg ∧ reg ≤ 0x57 → (self.setPECEnabled x).shouldUsePECForRegister reg = false) ∧
    (0x58 ≤ reg → (self.setPECEnabled x).shouldUsePECForRegister reg = false) ∧
    (reg ≤ 0x4F → (self.setPECEnabled x).shouldUsePECForRegister reg = x) := by
  refine ⟨?_, ?_, ?_⟩
  · intro h
    simp [shouldUsePECForRegister, h.1, h.2]
  · intro h
    simp only [shouldUsePECForRegister]
    split
    · rfl
    · simp [h]
  · intro h
    have h1 : ¬ (reg ≥ 0x50 ∧ reg ≤ 0x57) := by omega
    have h2 : ¬ (reg ≥ 0x58) := by omega
    simp [shouldUsePECForRegister, setPECEnabled, h1, h2]

theorem shouldUsePECForRegister_ranges_witness :
    (0x51 < 256 ∧ 0xFF < 256 ∧ 0x09 < 256) ∧
    ((init 0x0B (TwoWire.scripted [] [])).setPECEnabled true).shouldUsePECForRegister 0x51
      = false ∧
    ((init 0x0B (TwoWire.scripted [] [])).setPECEnabled true).shouldUsePECForRegister 0xFF
      = false ∧
    ((init 0x0B (TwoWire.scripted [] [])).setPECEnabled true).shouldUsePECForRegister 0x09
      = true :=
  ⟨by decide,
   (shouldUsePECForRegister_ranges _ true 0x51 (by decide)).1 (by decide),
   (shouldUsePECForRegister_ranges _ true 0xFF (by decide)).2.1 (by decide),
   (shouldUsePECForRegister_ranges _ true 0x09 (by decide)).2.2 (by decide)⟩

/-- Claim C3: for every register, every starting value of the session PEC flag and
every behaviour of the transport, the session PEC flag after
`readRegister16WithSmartPEC`, `readRegister32WithSmartPEC` and
`readSBSStringWithSmartPEC` equals its value before the call. -/
theorem smartPEC_read_restores_flag (self : BQ4050) (reg : Nat) :
    (self.readRegister16WithSmartPEC reg).2.isPECEnabled = self.isPECEnabled ∧
    (self.readRegister32WithSmartPEC reg).2.isPECEnabled = self.isPECEnabled ∧
    (self.readSBSStringWithSmartPEC reg).2.isPECEnabled = self.isPECEnabled :=
  ⟨rfl, rfl, rfl⟩

/-! ## Register reads -/

/-- Claim C4: with PEC enabled, when the command write is acknowledged and the
transport delivers the data bytes followed by a byte equal to `calculatePEC` of
the frame `[addr<<1, reg, (addr<<1)|1, data...]` (the PEC byte is not part of
the CRC input), `readRegister8`, `readRegister16` and `readRegister32` return
the little-endian value of the data bytes and set the last error to None. -/
theorem read_with_valid_PEC (self : BQ4050) (reg : Nat) (data : List Nat) (pec : Nat)
    (hpec : self._pecEnabled = true)
    (hack : self._wire.nextStatus = 0)
    (hdata : ∀ b ∈ data, b < 256) (hp : pec < 256)
    (hresp : self._wire.nextResponse = (data.length + 1, data ++ [pec]))
    (hcrc : pec = calculatePEC (self.packet reg data) (3 + data.length)) :
    (data.length = 1 →
      (self.readRegister8 reg).1 = littleEndian data ∧
      (self.readRegister8 reg).2.getLastError = BQ4050_Error.BQ4050_ERROR_NONE) ∧
    (data.length = 2 →
      (self.readRegister16 reg).1 = littleEndian data ∧
      (self.readRegister16 reg).2.getLastError = BQ4050_Error.BQ4050_ERROR_NONE) ∧
    (data.length = 4 →
      (self.readRegister32 reg).1 = littleEndian data ∧
      (self.readRegister32 reg).2.getLastError = BQ4050_Error.BQ4050_ERROR_NONE) := by
  simp [TwoWire.nextStatus] at hack
  simp [TwoWire.nextResponse] at hresp
  refine ⟨?_, ?_, ?_⟩
  · intro hlen
    obtain ⟨b0, rfl⟩ := List.length_eq_one.mp hlen
    have h0 : b0 < 256 := hdata b0 (by simp)
    simp [packet] at hcrc hresp
    simp [readRegister8, safeBeginTransmission, safeRequestData, TwoWire.endTransmission,
      TwoWire.requestFrom, TwoWire.beginTransmission, TwoWire.write, TwoWire.nextResponse,
      TwoWire.nextStatus, TwoWire.read, validatePEC, setError, getLastError, packet,
      littleEndian, toUint8_natCast_mod, toUint8_natCast, Nat.mod_eq_of_lt h0,
      Nat.mod_eq_of_lt hp, hpec, hack, hresp, ← hcrc]
  · intro hlen
    obtain ⟨b0, b1, rfl⟩ := List.length_eq_two.mp hlen
    have h0 : b0 < 256 := hdata b0 (by simp)
    have h1 : b1 < 256 := hdata b1 (by simp)
    simp [packet] at hcrc hresp
    simp [readRegister16, TwoWire.endTransmission,
      TwoWire.requestFrom, TwoWire.beginTransmission, TwoWire.write, TwoWire.nextResponse,
      TwoWire.nextStatus, TwoWire.read, validatePEC, setError, getLastError, packet,
      littleEndian, toUint8_natCast_mod, toUint8_natCast, Nat.mod_eq_of_lt h0,
      Nat.mod_eq_of_lt h1, Nat.mod_eq_of_lt hp, hpec, hack, hresp, ← hcrc]
    exact assemble16 b0 b1 h0 h1
  · intro hlen
    obtain ⟨b0, b1, b2, b3, rfl⟩ : ∃ b0 b1 b2 b3, data = [b0, b1, b2, b3] := by
      match data, hlen with
      | [b0, b1, b2, b3], _ => exact ⟨b0, b1, b2, b3, rfl⟩
    have h0 : b0 < 256 := hdata b0 (by simp)
    have h1 : b1 < 256 := hdata b1 (by simp)
    have h2 : b2 < 256 := hdata b2 (by simp)
    have h3 : b3 < 256 := hdata b3 (by simp)
    simp [packet] at hcrc hresp
    simp [readRegister32, readRegister32_loop _ _ _ _ _ b0 b1 b2 b3 _ h0 h1 h2 h3,
      TwoWire.endTransmission,
      TwoWire.requestFrom, TwoWire.beginTransmission, TwoWire.write, TwoWire.nextResponse,
      TwoWire.nextStatus, TwoWire.read, validatePEC, setError, getLastError, packet,
      littleEndian, toUint8_natCast_mod, toUint8_natCast,
      Nat.mod_eq_of_lt hp, hpec, hack, hresp, ← hcrc]
    exact assemble32 b0 b1 b2 b3 h0 h1 h2

theorem read_with_valid_PEC_witness :
    0xB8 = calculatePEC [0x16, 0x09, 0x17, 0x34, 0x12] 5 ∧
    (((init 0x0B (TwoWire.scripted [0] [(3, [0x34, 0x12, 0xB8])])).setPECEnabled true).readRegister16
      0x09).1 = 0x1234 ∧
    (((init 0x0B (TwoWire.scripted [0] [(3, [0x34, 0x12, 0xB8])])).setPECEnabled true).readRegister16
      0x09).2.getLastError = BQ4050_Error.BQ4050_ERROR_NONE :=
  ⟨by decide,
   (read_with_valid_PEC
    ((init 0x0B (TwoWire.scripted [0] [(3, [0x34, 0x12, 0xB8])])).setPECEnabled true)
    0x09 [0x34, 0x12] 0xB8 rfl rfl (by decide) (by decide) rfl (by decide)).2.1 rfl⟩

/-- Claim C5: with PEC enabled, when the transport delivers all requested bytes but
the last byte differs from `calculatePEC` of the frame
`[addr<<1, reg, (addr<<1)|1, data...]`, `readRegister8`, `readRegister16` and
`readRegister32` return 0 and leave the last error equal to
`BQ4050_ERROR_PEC_MISMATCH`. -/
theorem read_with_wrong_PEC (self : BQ4050) (reg : Nat) (data : List Nat) (pec : Nat)
    (hpec : self._pecEnabled = true)
    (hack : self._wire.nextStatus = 0)
    (hdata : ∀ b ∈ data, b < 256) (hp : pec < 256)
    (hresp : self._wire.nextResponse = (data.length + 1, data ++ [pec]))
    (hcrc : pec ≠ calculatePEC (self.packet reg data) (3 + data.length)) :
    (data.length = 1 →
      (self.readRegister8 reg).1 = 0 ∧
      (self.readRegister8 reg).2.getLastError = BQ4050_Error.BQ4050_ERROR_PEC_MISMATCH) ∧
    (data.length = 2 →
      (self.readRegister16 reg).1 = 0 ∧
      (self.readRegister16 reg).2.getLastError = BQ4050_Error.BQ4050_ERROR_PEC_MISMATCH) ∧
    (data.length = 4 →
      (self.readRegister32 reg).1 = 0 ∧
      (self.readRegister32 reg).2.getLastError = BQ4050_Error.BQ4050_ERROR_PEC_MISMATCH) := by
  simp [TwoWire.nextStatus] at hack
  simp [TwoWire.nextResponse] at hresp
  refine ⟨?_, ?_, ?_⟩
  · intro hlen
    obtain ⟨b0, rfl⟩ := List.length_eq_one.mp hlen
    have h0 : b0 < 256 := hdata b0 (by simp)
    simp [packet] at hcrc hresp
    simp [readRegister8, safeBeginTransmission, safeRequestData, TwoWire.endTransmission,
      TwoWire.requestFrom, TwoWire.beginTransmission, TwoWire.write, TwoWire.nextResponse,
      TwoWire.nextStatus, TwoWire.read, validatePEC, setError, getLastError, packet,
      toUint8_natCast_mod, toUint8_natCast, Nat.mod_eq_of_lt h0,
      Nat.mod_eq_of_lt hp, hpec, hack, hresp, Ne.symm hcrc]
  · intro hlen
    obtain ⟨b0, b1, rfl⟩ := List.length_eq_two.mp hlen
    have h0 : b0 < 256 := hdata b0 (by simp)
    have h1 : b1 < 256 := hdata b1 (by simp)
    simp [packet] at hcrc hresp
    simp [readRegister16, TwoWire.endTransmission,
      TwoWire.requestFrom, TwoWire.beginTransmission, TwoWire.write, TwoWire.nextResponse,
      TwoWire.nextStatus, TwoWire.read, validatePEC, setError, getLastError, packet,
      toUint8_natCast_mod, toUint8_natCast, Nat.mod_eq_of_lt h0,
      Nat.mod_eq_of_lt h1, Nat.mod_eq_of_lt hp, hpec, hack, hresp, Ne.symm hcrc]
  · intro hlen
    obtain ⟨b0, b1, b2, b3, rfl⟩ : ∃ b0 b1 b2 b3, data = [b0, b1, b2, b3] := by
      match data, hlen with
      | [b0, b1, b2, b3], _ => exact ⟨b0, b1, b2, b3, rfl⟩
    have h0 : b0 < 256 := hdata b0 (by simp)
    have h1 : b1 < 256 := hdata b1 (by simp)
    have h2 : b2 < 256 := hdata b2 (by simp)
    have h3 : b3 < 256 := hdata b3 (by simp)
    simp [packet] at hcrc hresp
    simp [readRegister32, readRegister32_loop _ _ _ _ _ b0 b1 b2 b3 _ h0 h1 h2 h3,
      TwoWire.endTransmission,
      TwoWire.requestFrom, TwoWire.beginTransmission, TwoWire.write, TwoWire.nextResponse,
      TwoWire.nextStatus, TwoWire.read, validatePEC, setError, getLastError, packet,
      toUint8_natCast_mod, toUint8_natCast,
      Nat.mod_eq_of_lt hp, hpec, hack, hresp, Ne.symm hcrc]

theorem read_with_wrong_PEC_witness :
    0xB9 ≠ calculatePEC [0x16, 0x09, 0x17, 0x34, 0x12] 5 ∧
    (((init 0x0B (TwoWire.scripted [0] [(3, [0x34, 0x12, 0xB9])])).setPECEnabled true).readRegister16
      0x09).1 = 0 ∧
    (((init 0x0B (TwoWire.scripted [0] [(3, [0x34, 0x12, 0xB9])])).setPECEnabled true).readRegister16
      0x09).2.getLastError = BQ4050_Error.BQ4050_ERROR_PEC_MISMATCH :=
  ⟨by decide,
   (read_with_wrong_PEC
    ((init 0x0B (TwoWire.scripted [0] [(3, [0x34, 0x12, 0xB9])])).setPECEnabled true)
    0x09 [0x34, 0x12] 0xB9 rfl rfl (by decide) (by decide) rfl (by decide)).2.1 rfl⟩

/-- Claim C6: with PEC disabled, when the command write is acknowledged and the
transport delivers exactly the requested bytes `b0, b1` (`readRegister16`) or
`b0..b3` (`readRegister32`), the read returns `(b1<<8)|b0`, respectively
`b0|(b1<<8)|(b2<<16)|(b3<<24)`, and leaves the last error None. -/
theorem read_without_PEC (self : BQ4050) (reg b0 b1 b2 b3 : Nat)
    (hpec : self._pecEnabled = false)
    (hack : self._wire.nextStatus = 0)
    (h0 : b0 < 256) (h1 : b1 < 256) (h2 : b2 < 256) (h3 : b3 < 256) :
    (self._wire.nextResponse = (2, [b0, b1]) →
      (self.readRegister16 reg).1 = ((b1 <<< 8) ||| b0) ∧
      (self.readRegister16 reg).2.getLastError = BQ4050_Error.BQ4050_ERROR_NONE) ∧
    (self._wire.nextResponse = (4, [b0, b1, b2, b3]) →
      (self.readRegister32 reg).1 = (b0 ||| (b1 <<< 8) ||| (b2 <<< 16) ||| (b3 <<< 24)) ∧
      (self.readRegister32 reg).2.getLastError = BQ4050_Error.BQ4050_ERROR_NONE) := by
  simp [TwoWire.nextStatus] at hack
  refine ⟨?_, ?_⟩
  · intro hresp
    simp [TwoWire.nextResponse] at hresp
    simp [readRegister16, TwoWire.endTransmission,
      TwoWire.requestFrom, TwoWire.beginTransmission, TwoWire.write, TwoWire.nextResponse,
      TwoWire.nextStatus, TwoWire.read, setError, getLastError,
      toUint8_natCast_mod, toUint8_natCast, Nat.mod_eq_of_lt h0,
      Nat.mod_eq_of_lt h1, hpec, hack, hresp]
    rw [shiftLeft_or_eq_add 8 b0 b1 (by omega)]
    omega
  · intro hresp
    simp [TwoWire.nextResponse] at hresp
    simp [readRegister32, readRegister32_loop _ _ _ _ _ b0 b1 b2 b3 _ h0 h1 h2 h3,
      TwoWire.endTransmission,
      TwoWire.requestFrom, TwoWire.beginTransmission, TwoWire.write, TwoWire.nextResponse,
      TwoWire.nextStatus, setError, getLastError, hpec, hack, hresp]

theorem read_without_PEC_witness :
    ((init 0x0B (TwoWire.scripted [0] [(2, [0x34, 0x12])])).readRegister16 0x09).1 = 0x1234 ∧
    ((init 0x0B (TwoWire.scripted [0] [(2, [0x34, 0x12])])).readRegister16 0x09).2.getLastError
      = BQ4050_Error.BQ4050_ERROR_NONE ∧
    ((init 0x0B (TwoWire.scripted [0] [(4, [0x34, 0x12, 0x56, 0x78])])).readRegister32 0x09).1
      = 0x78561234 :=
  ⟨((read_without_PEC (init 0x0B (TwoWire.scripted [0] [(2, [0x34, 0x12])])) 0x09
      0x34 0x12 0 0 rfl rfl (by decide) (by decide) (by decide) (by decide)).1 rfl).1,
   ((read_without_PEC (init 0x0B (TwoWire.scripted [0] [(2, [0x34, 0x12])])) 0x09
      0x34 0x12 0 0 rfl rfl (by decide) (by decide) (by decide) (by decide)).1 rfl).2,
   ((read_without_PEC (init 0x0B (TwoWire.scripted [0] [(4, [0x34, 0x12, 0x56, 0x78])])) 0x09
      0x34 0x12 0x56 0x78 rfl rfl (by decide) (by decide) (by decide) (by decide)).2 rfl).1⟩

/-- Claim C7: for `readRegister8`, `readRegister16` and `readRegister32`, in both PEC
modes, if the command write is acknowledged but the transport reports a
received byte count different from the requested count, the read returns 0 and
sets the last error to `BQ4050_ERROR_I2C_TIMEOUT`. -/
theorem short_read_is_timeout (self : BQ4050) (reg : Nat)
    (hack : self._wire.nextStatus = 0) :
    (self._wire.nextResponse.1 % 256 ≠ 1 + (if self._pecEnabled then 1 else 0) →
      (self.readRegister8 reg).1 = 0 ∧
      (self.readRegister8 reg).2.getLastError = BQ4050_Error.BQ4050_ERROR_I2C_TIMEOUT) ∧
    (self._wire.nextResponse.1 % 256 ≠ 2 + (if self._pecEnabled then 1 else 0) →
      (self.readRegister16 reg).1 = 0 ∧
      (self.readRegister16 reg).2.getLastError = BQ4050_Error.BQ4050_ERROR_I2C_TIMEOUT) ∧
    (self._wire.nextResponse.1 % 256 ≠ 4 + (if self._pecEnabled then 1 else 0) →
      (self.readRegister32 reg).1 = 0 ∧
      (self.readRegister32 reg).2.getLastError = BQ4050_Error.BQ4050_ERROR_I2C_TIMEOUT) := by
  simp [TwoWire.nextStatus] at hack
  refine ⟨?_, ?_, ?_⟩
  · intro hcount
    cases hp : self._pecEnabled <;>
    simp [TwoWire.nextResponse, hp] at hcount <;>
    simp [readRegister8, safeBeginTransmission, safeRequestData, TwoWire.endTransmission,
      TwoWire.requestFrom, TwoWire.beginTransmission, TwoWire.write, TwoWire.nextResponse,
      TwoWire.nextStatus, setError, getLastError, hp, hack, hcount]
  · intro hcount
    cases hp : self._pecEnabled <;>
    simp [TwoWire.nextResponse, hp] at hcount <;>
    simp [readRegister16, TwoWire.endTransmission,
      TwoWire.requestFrom, TwoWire.beginTransmission, TwoWire.write, TwoWire.nextResponse,
      TwoWire.nextStatus, setError, getLastError, hp, hack, hcount]
  · intro hcount
    cases hp : self._pecEnabled <;>
    simp [TwoWire.nextResponse, hp] at hcount <;>
    simp [readRegister32, TwoWire.endTransmission,
      TwoWire.requestFrom, TwoWire.beginTransmission, TwoWire.write, TwoWire.nextResponse,
      TwoWire.nextStatus, setError, getLastError, hp, hack, hcount]

theorem short_read_is_timeout_witness :
    ((init 0x0B (TwoWire.scripted [0] [(1, [0x34])])).readRegister16 0x09).1 = 0 ∧
    ((init 0x0B (TwoWire.scripted [0] [(1, [0x34])])).readRegister16 0x09).2.getLastError
      = BQ4050_Error.BQ4050_ERROR_I2C_TIMEOUT :=
  (short_read_is_timeout (init 0x0B (TwoWire.scripted [0] [(1, [0x34])])) 0x09 rfl).2.1
    (by decide)

/-- Claim C8: for a session at address 0x0B with the PEC flag enabled,
`getSafetyStatus()` (register 0x51) issues a data request for exactly 2 bytes
(no PEC byte requested or validated), returns the little-endian value of those
two bytes with error None when the transport succeeds, and `isPECEnabled()`
still returns true after the call. -/
theorem getSafetyStatus_runs_without_PEC (self : BQ4050)
    (haddr : self._address = 0x0B) (hpec : self.isPECEnabled = true) :
    self.getSafetyStatus.2._wire.log
      = self._wire.log ++
          BusEvent.transmission 0x0B [0x51] false self._wire.nextStatus ::
            (if self._wire.nextStatus = 0 then [BusEvent.request 0x0B 2] else []) ∧
    (∀ b0 b1 rest, b0 < 256 → b1 < 256 →
      self._wire.nextStatus = 0 → self._wire.nextResponse = (2, b0 :: b1 :: rest) →
        self.getSafetyStatus.1 = littleEndian [b0, b1] ∧
        self.getSafetyStatus.2.getLastError = BQ4050_Error.BQ4050_ERROR_NONE) ∧
    self.getSafetyStatus.2.isPECEnabled = true := by
  rw [getSafetyStatus_eq]
  refine ⟨?_, ?_, hpec⟩
  · have h := readRegister16_log { self with _pecEnabled := false } 0x51
    simpa [haddr] using h
  · intro b0 b1 rest h0 h1 hack hresp
    have h := readRegister16_plain { self with _pecEnabled := false } 0x51 b0 b1 rest rfl
      hack hresp h0 h1
    refine ⟨?_, h.2⟩
    rw [h.1, shiftLeft_or_eq_add 8 b0 b1 (by omega)]
    simp [littleEndian]

theorem getSafetyStatus_runs_without_PEC_witness :
    ((init 0x0B (TwoWire.scripted [0] [(2, [0x34, 0x12])])).setPECEnabled true).getSafetyStatus.2._wire.log
      = [BusEvent.transmission 0x0B [0x51] false 0, BusEvent.request 0x0B 2] ∧
    ((init 0x0B (TwoWire.scripted [0] [(2, [0x34, 0x12])])).setPECEnabled true).getSafetyStatus.1
      = 0x1234 ∧
    ((init 0x0B (TwoWire.scripted [0] [(2, [0x34, 0x12])])).setPECEnabled true).getSafetyStatus.2.getLastError
      = BQ4050_Error.BQ4050_ERROR_NONE ∧
    ((init 0x0B (TwoWire.scripted [0] [(2, [0x34, 0x12])])).setPECEnabled true).getSafetyStatus.2.isPECEnabled
      = true :=
  ⟨(getSafetyStatus_runs_without_PEC
      ((init 0x0B (TwoWire.scripted [0] [(2, [0x34, 0x12])])).setPECEnabled true) rfl rfl).1,
   ((getSafetyStatus_runs_without_PEC
      ((init 0x0B (TwoWire.scripted [0] [(2, [0x34, 0x12])])).setPECEnabled true) rfl rfl).2.1
      0x34 0x12 [] (by decide) (by decide) rfl rfl).1,
   ((getSafetyStatus_runs_without_PEC
      ((init 0x0B (TwoWire.scripted [0] [(2, [0x34, 0x12])])).setPECEnabled true) rfl rfl).2.1
      0x34 0x12 [] (by decide) (by decide) rfl rfl).2,
   (getSafetyStatus_runs_without_PEC
      ((init 0x0B (TwoWire.scripted [0] [(2, [0x34, 0x12])])).setPECEnabled true) rfl rfl).2.2⟩

/-- Claim C9: for `readRegister8`, `readRegister16` and `readRegister32` the number
of bytes requested from the device is the register width (1, 2 or 4) plus 1 if
the PEC flag in effect during the call is true, and plus 0 otherwise: the call
adds to the bus log the command write and, when it is acknowledged, exactly one
request of that size. -/
theorem read_request_size (self : BQ4050) (reg : Nat) :
    (self.readRegister8 reg).2._wire.log
      = self._wire.log ++
          BusEvent.transmission self._address [reg % 256] false self._wire.nextStatus ::
            (if self._wire.nextStatus = 0 then
              [BusEvent.request self._address (1 + (if self._pecEnabled then 1 else 0))]
             else []) ∧
    (self.readRegister16 reg).2._wire.log
      = self._wire.log ++
          BusEvent.transmission self._address [reg % 256] false self._wire.nextStatus ::
            (if self._wire.nextStatus = 0 then
              [BusEvent.request self._address (2 + (if self._pecEnabled then 1 else 0))]
             else []) ∧
    (self.readRegister32 reg).2._wire.log
      = self._wire.log ++
          BusEvent.transmission self._address [reg % 256] false self._wire.nextStatus ::
            (if self._wire.nextStatus = 0 then
              [BusEvent.request self._address (4 + (if self._pecEnabled then 1 else 0))]
             else []) :=
  ⟨readRegister8_log self reg, readRegister16_log self reg, readRegister32_log self reg⟩

/-- Claim C10: for `readRegister8/16/32`, `writeRegister8/16` and
`manufacturerAccessWrite`, the last error after the call does not depend on the
last error `e` before the call: it is None when the operation fully succeeds
and exactly the single error of the failing step (BusNack, BusTimeout or
IntegrityMismatch) otherwise. -/
theorem lastError_is_outcome_of_call (self : BQ4050) (e : BQ4050_Error)
    (reg value command data : Nat) :
    ((self.setError e).readRegister8 reg).2.getLastError
      = expectedReadError self._address self._pecEnabled self._wire reg 1 ∧
    ((self.setError e).readRegister16 reg).2.getLastError
      = expectedReadError self._address self._pecEnabled self._wire reg 2 ∧
    ((self.setError e).readRegister32 reg).2.getLastError
      = expectedReadError self._address self._pecEnabled self._wire reg 4 ∧
    ((self.setError e).writeRegister8 reg value).2.getLastError
      = expectedWriteError self._wire ∧
    ((self.setError e).writeRegister16 reg value).2.getLastError
      = expectedWriteError self._wire ∧
    ((self.setError e).manufacturerAccessWrite command data).2.getLastError
      = expectedWriteError self._wire :=
  ⟨readRegister8_error (self.setError e) reg, readRegister16_error (self.setError e) reg,
   readRegister32_error (self.setError e) reg,
   (write_error (self.setError e) reg value command data).1,
   (write_error (self.setError e) reg value command data).2.1,
   (write_error (self.setError e) reg value command data).2.2⟩

/-! ## Lemmas on write transactions -/

theorem and_255_mod (v : Nat) : (v &&& 255) % 256 = v &&& 255 := by
  have h : v &&& 255 = v % 256 := Nat.and_pow_two_sub_one_eq_mod v 8
  rw [h]
  omega

theorem shiftRight_8_and_255 (v : Nat) (hv : v < 65536) : (v >>> 8) &&& 255 = v >>> 8 := by
  have h : (v >>> 8) &&& 255 = (v >>> 8) % 256 := Nat.and_pow_two_sub_one_eq_mod (v >>> 8) 8
  rw [h, Nat.shiftRight_eq_div_pow]
  omega

theorem shiftRight_8_lt (v : Nat) (hv : v < 65536) : v >>> 8 < 256 := by
  rw [Nat.shiftRight_eq_div_pow]
  omega

/-- The complete result of `writeRegister16`. -/
theorem writeRegister16_eq (self : BQ4050) (reg v : Nat) (hreg : reg < 256)
    (hv : v < 65536) :
    self.writeRegister16 reg v
      = (decide (self._wire.nextStatus = 0),
         { self with
           _wire := { self._wire with
             txAddress := self._address, txBuffer := [],
             statuses := self._wire.statuses.tail,
             log := self._wire.log ++
               [BusEvent.transmission self._address [reg, v &&& 0xFF, v >>> 8] true
                 self._wire.nextStatus] },
           _lastError := expectedWriteError self._wire }) := by
  by_cases hs : self._wire.statuses.head?.getD 0 % 256 = 0 <;>
  simp [writeRegister16, expectedWriteError, TwoWire.endTransmission, TwoWire.beginTransmission,
    TwoWire.write, setError, TwoWire.nextStatus, hs, and_255_mod, shiftRight_8_and_255 v hv,
    Nat.mod_eq_of_lt hreg, Nat.mod_eq_of_lt (shiftRight_8_lt v hv)]

/-- The complete result of `writeRegister8`. -/
theorem writeRegister8_eq (self : BQ4050) (reg v : Nat) (hreg : reg < 256) (hv : v < 256) :
    self.writeRegister8 reg v
      = (decide (self._wire.nextStatus = 0),
         { self with
           _wire := { self._wire with
             txAddress := self._address, txBuffer := [],
             statuses := self._wire.statuses.tail,
             log := self._wire.log ++
               [BusEvent.transmission self._address [reg, v] true self._wire.nextStatus] },
           _lastError := expectedWriteError self._wire }) := by
  by_cases hs : self._wire.statuses.head?.getD 0 % 256 = 0 <;>
  simp [writeRegister8, expectedWriteError, TwoWire.endTransmission, TwoWire.beginTransmission,
    TwoWire.write, setError, TwoWire.nextStatus, hs, Nat.mod_eq_of_lt hreg, Nat.mod_eq_of_lt hv]

/-- The complete result of `manufacturerAccessWrite`. -/
theorem manufacturerAccessWrite_eq (self : BQ4050) (cmd data : Nat) (hc : cmd < 65536)
    (hd : data < 65536) :
    self.manufacturerAccessWrite cmd data
      = (decide (self._wire.nextStatus = 0),
         { self with
           _wire := { self._wire with
             txAddress := self._address, txBuffer := [],
             statuses := self._wire.statuses.tail,
             log := self._wire.log ++
               [BusEvent.transmission self._address
                 [0x00, cmd &&& 0xFF, cmd >>> 8, data &&& 0xFF, data >>> 8] true
                 self._wire.nextStatus] },
           _lastError := expectedWriteError self._wire }) := by
  by_cases hs : self._wire.statuses.head?.getD 0 % 256 = 0 <;>
  simp [manufacturerAccessWrite, expectedWriteError, TwoWire.endTransmission,
    TwoWire.beginTransmission,
    TwoWire.write, setError, TwoWire.nextStatus, hs, and_255_mod, shiftRight_8_and_255 cmd hc,
    shiftRight_8_and_255 data hd,
    Nat.mod_eq_of_lt (shiftRight_8_lt cmd hc), Nat.mod_eq_of_lt (shiftRight_8_lt data hd)]

/-! ## Lemmas on block reads -/

/-- The loop of `readSBSString` issues no bus transaction. -/
theorem readSBSString_loop_log (n : Nat) :
    ∀ (self : BQ4050) (acc : List Nat),
      (self.readSBSString_loop acc n).2._wire.log = self._wire.log := by
  induction n with
  | zero => intro self acc; rfl
  | succ n ih =>
    intro self acc
    simp only [readSBSString_loop]
    split
    · rfl
    · rw [ih]
      exact read_snd_log _

/-- The loop of `readSBSString` on a buffer that holds the declared bytes `data`
(and whatever follows them): every byte is consumed, the printable ones are
kept in order, and the error is not touched. -/
theorem readSBSString_loop_deliver (a ta : Nat) (tb st : List Nat)
    (rs : List (Nat × List Nat)) (lg : List BusEvent) (e : BQ4050_Error) (p : Bool)
    (extra : List Nat) (data : List Nat) (hdata : ∀ b ∈ data, b < 256) :
    ∀ acc : List Nat,
      readSBSString_loop (BQ4050.mk a (TwoWire.mk ta tb (data ++ extra) st rs lg) e p) acc
          data.length
        = (acc ++ data.filter printable,
           BQ4050.mk a (TwoWire.mk ta tb extra st rs lg) e p) := by
  induction data with
  | nil => intro acc; simp [readSBSString_loop]
  | cons b bs ih =>
    intro acc
    have hb : b < 256 := hdata b (List.mem_cons_self _ _)
    have hbs : ∀ c ∈ bs, c < 256 := fun c hc => hdata c (List.mem_cons_of_mem _ hc)
    simp only [List.length_cons, List.cons_append, readSBSString_loop, TwoWire.available,
      TwoWire.read]
    simp only [List.length_cons, Nat.succ_ne_zero, if_false, Nat.add_one_ne_zero,
      toUint8_natCast, Nat.mod_mod, Nat.mod_eq_of_lt hb]
    rw [ih hbs]
    by_cases hp : b ≥ 0x20 ∧ b ≤ 0x7E
    · simp [hp, printable, List.filter_cons]
    · simp [hp, printable, List.filter_cons]

/-- A block read whose command write is acknowledged, whose length byte is the
length of `data` (1..32) and whose data request delivers `data` followed by
`extra`: the printable bytes of `data`, and error None. -/
theorem readSBSString_deliver (self : BQ4050) (command : Nat) (data extra : List Nat)
    (more : List (Nat × List Nat))
    (hack : self._wire.nextStatus = 0)
    (h1 : 1 ≤ data.length) (h32 : data.length ≤ 32)
    (hdata : ∀ b ∈ data, b < 256)
    (hresp : self._wire.responses
      = (1, [data.length]) ::
        (data.length + (if self._pecEnabled then 1 else 0), data ++ extra) :: more) :
    (self.readSBSString command).1 = data.filter printable ∧
    (self.readSBSString command).2._lastError = BQ4050_Error.BQ4050_ERROR_NONE := by
  simp [TwoWire.nextStatus] at hack
  have hL : data.length % 256 = data.length := Nat.mod_eq_of_lt (by omega)
  have hL0 : data.length ≠ 0 := by omega
  have hL32 : ¬ (32 < data.length) := by omega
  obtain ⟨a, ⟨ta, tb, rx, st, rs, lg⟩, e, p⟩ := self
  simp only at hresp hack
  cases p <;> simp only [if_true, if_false, Bool.false_eq_true] at hresp <;> rw [hresp]
  · simp [readSBSString, safeBeginTransmission, safeRequestData, TwoWire.endTransmission,
      TwoWire.requestFrom, TwoWire.beginTransmission, TwoWire.write, TwoWire.nextResponse,
      TwoWire.nextStatus, TwoWire.read, setError, MAX_SBS_STRING_LENGTH, toUint8_natCast,
      toUint8_natCast_mod, hack, hL, hL0, hL32,
      readSBSString_loop_deliver _ _ _ _ _ _ _ _ extra data hdata]
  · have hL1 : (data.length + 1) % 256 = data.length + 1 := Nat.mod_eq_of_lt (by omega)
    simp [readSBSString, safeBeginTransmission, safeRequestData, TwoWire.endTransmission,
      TwoWire.requestFrom, TwoWire.beginTransmission, TwoWire.write, TwoWire.nextResponse,
      TwoWire.nextStatus, TwoWire.read, setError, MAX_SBS_STRING_LENGTH, toUint8_natCast,
      toUint8_natCast_mod, hack, hL, hL0, hL32, hL1,
      readSBSString_loop_deliver _ _ _ _ _ _ _ _ extra data hdata]

theorem read_mk_cons (ta : Nat) (tb : List Nat) (b : Nat) (r st : List Nat)
    (rs : List (Nat × List Nat)) (lg : List BusEvent) :
    (TwoWire.mk ta tb (b :: r) st rs lg).read
      = (((b % 256 : Nat) : Int), TwoWire.mk ta tb r st rs lg) :=
  rfl

theorem expectedWriteError_ne_invalid (w : TwoWire) :
    expectedWriteError w ≠ BQ4050_Error.BQ4050_ERROR_INVALID_PARAMETER := by
  unfold expectedWriteError
  split <;> decide

theorem expectedReadError_ne_invalid (a : Nat) (p : Bool) (w : TwoWire) (reg width : Nat) :
    expectedReadError a p w reg width ≠ BQ4050_Error.BQ4050_ERROR_INVALID_PARAMETER := by
  unfold expectedReadError
  split_ifs <;> decide

/-- In range, `readDataFlash` ends with the error of its write or of its read. -/
theorem readDataFlash_error_in_range (self : BQ4050) (address : Nat)
    (hlo : 0x4000 ≤ address) (hhi : address ≤ 0x5FFF) :
    (self.readDataFlash address).2._lastError
      ≠ BQ4050_Error.BQ4050_ERROR_INVALID_PARAMETER := by
  have hr : ¬ (address < BQ4050_DATA_FLASH_START ∨ address > BQ4050_DATA_FLASH_END) := by
    simp only [BQ4050_DATA_FLASH_START, BQ4050_DATA_FLASH_END]
    omega
  have hw := (write_error self 0 0 0x44 address).2.2
  simp only [readDataFlash, hr, if_false]
  split
  · rw [hw]
    exact expectedWriteError_ne_invalid _
  · rw [readRegister8_error]
    exact expectedReadError_ne_invalid _ _ _ _ _

/-- In range, `writeDataFlash` ends with the error of one of its two writes. -/
theorem writeDataFlash_error_in_range (self : BQ4050) (address data : Nat)
    (hlo : 0x4000 ≤ address) (hhi : address ≤ 0x5FFF) :
    (self.writeDataFlash address data).2._lastError
      ≠ BQ4050_Error.BQ4050_ERROR_INVALID_PARAMETER := by
  have hr : ¬ (address < BQ4050_DATA_FLASH_START ∨ address > BQ4050_DATA_FLASH_END) := by
    simp only [BQ4050_DATA_FLASH_START, BQ4050_DATA_FLASH_END]
    omega
  have hw := (write_error self 0 0 0x44 address).2.2
  have hw8 := (write_error (self.manufacturerAccessWrite 0x44 address).2 0x40 data 0 0).1
  simp only [writeDataFlash, hr, if_false]
  split
  · rw [hw]
    exact expectedWriteError_ne_invalid _
  · split <;>
    · rw [hw8]
      exact expectedWriteError_ne_invalid _

/-! ## Register writes and manufacturer access -/

/-- Claim C11: `writeRegister16(reg, v)` queues exactly the bytes
`[reg, v & 0xFF, v >> 8]` (`writeRegister8`: `[reg, v]`) in one transaction to
the device address, with no PEC byte appended whatever the PEC flag `x` is; it
returns true with last error None when the transaction completes with status 0,
and false with last error BusNack for every non-zero status. -/
theorem write_register_transaction (self : BQ4050) (x : Bool) (reg v v8 : Nat)
    (hreg : reg < 256) (hv : v < 65536) (hv8 : v8 < 256) :
    ((self.setPECEnabled x).writeRegister16 reg v).2._wire.log
      = self._wire.log ++
          [BusEvent.transmission self._address [reg, v &&& 0xFF, v >>> 8] true
            self._wire.nextStatus] ∧
    ((self.setPECEnabled x).writeRegister8 reg v8).2._wire.log
      = self._wire.log ++
          [BusEvent.transmission self._address [reg, v8] true self._wire.nextStatus] ∧
    (self._wire.nextStatus = 0 →
      ((self.setPECEnabled x).writeRegister16 reg v).1 = true ∧
      ((self.setPECEnabled x).writeRegister16 reg v).2.getLastError
        = BQ4050_Error.BQ4050_ERROR_NONE ∧
      ((self.setPECEnabled x).writeRegister8 reg v8).1 = true ∧
      ((self.setPECEnabled x).writeRegister8 reg v8).2.getLastError
        = BQ4050_Error.BQ4050_ERROR_NONE) ∧
    (self._wire.nextStatus ≠ 0 →
      ((self.setPECEnabled x).writeRegister16 reg v).1 = false ∧
      ((self.setPECEnabled x).writeRegister16 reg v).2.getLastError
        = BQ4050_Error.BQ4050_ERROR_I2C_NACK ∧
      ((self.setPECEnabled x).writeRegister8 reg v8).1 = false ∧
      ((self.setPECEnabled x).writeRegister8 reg v8).2.getLastError
        = BQ4050_Error.BQ4050_ERROR_I2C_NACK) := by
  rw [writeRegister16_eq _ reg v hreg hv, writeRegister8_eq _ reg v8 hreg hv8]
  refine ⟨rfl, rfl, ?_, ?_⟩
  · intro h
    simp [setPECEnabled, getLastError, expectedWriteError, h]
  · intro h
    simp [setPECEnabled, getLastError, expectedWriteError, h]

theorem write_register_transaction_witness :
    (((init 0x0B (TwoWire.scripted [0] [])).setPECEnabled true).writeRegister16 0x01
        0x1234).2._wire.log
      = [BusEvent.transmission 0x0B [0x01, 0x34, 0x12] true 0] ∧
    (((init 0x0B (TwoWire.scripted [0] [])).setPECEnabled true).writeRegister16 0x01
        0x1234).1 = true ∧
    (((init 0x0B (TwoWire.scripted [2] [])).setPECEnabled true).writeRegister8 0x40
        0x56).2.getLastError = BQ4050_Error.BQ4050_ERROR_I2C_NACK :=
  ⟨(write_register_transaction (init 0x0B (TwoWire.scripted [0] [])) true 0x01 0x1234 0x56
      (by decide) (by decide) (by decide)).1,
   ((write_register_transaction (init 0x0B (TwoWire.scripted [0] [])) true 0x01 0x1234 0x56
      (by decide) (by decide) (by decide)).2.2.1 rfl).1,
   ((write_register_transaction (init 0x0B (TwoWire.scripted [2] [])) true 0x40 0x1234 0x56
      (by decide) (by decide) (by decide)).2.2.2 (by decide)).2.2.2⟩

/-- Claim C12: for `manufacturerAccess16` and `manufacturerAccess32` with any
subcommand, if the write of the subcommand to register 0x00 fails, the call
returns 0, the last error is the error of the write (BusNack) and no read
transaction is issued; otherwise the returned value and the last error are
exactly those of `readRegister16`, respectively `readRegister32`, on register
0x00. -/
theorem manufacturerAccess_write_then_read (self : BQ4050) (command : Nat)
    (hc : command < 65536) :
    (self._wire.nextStatus ≠ 0 →
      (self.manufacturerAccess16 command).1 = 0 ∧
      (self.manufacturerAccess16 command).2.getLastError = BQ4050_Error.BQ4050_ERROR_I2C_NACK ∧
      (self.manufacturerAccess16 command).2._wire.log
        = self._wire.log ++
            [BusEvent.transmission self._address [0x00, command &&& 0xFF, command >>> 8] true
              self._wire.nextStatus] ∧
      (self.manufacturerAccess32 command).1 = 0 ∧
      (self.manufacturerAccess32 command).2.getLastError = BQ4050_Error.BQ4050_ERROR_I2C_NACK ∧
      (self.manufacturerAccess32 command).2._wire.log
        = self._wire.log ++
            [BusEvent.transmission self._address [0x00, command &&& 0xFF, command >>> 8] true
              self._wire.nextStatus]) ∧
    (self._wire.nextStatus = 0 →
      self.manufacturerAccess16 command
        = (self.writeRegister16 0x00 command).2.readRegister16 0x00 ∧
      self.manufacturerAccess32 command
        = (self.writeRegister16 0x00 command).2.readRegister32 0x00) := by
  have hw := writeRegister16_eq self 0x00 command (by decide) hc
  refine ⟨?_, ?_⟩
  · intro h
    simp [manufacturerAccess16, manufacturerAccess32, hw, h, getLastError, expectedWriteError]
  · intro h
    simp [manufacturerAccess16, manufacturerAccess32, hw, h]

theorem manufacturerAccess_write_then_read_witness :
    ((init 0x0B (TwoWire.scripted [2] [(2, [0x50, 0x45])])).manufacturerAccess16 0x0001).1 = 0 ∧
    ((init 0x0B (TwoWire.scripted [2] [(2, [0x50, 0x45])])).manufacturerAccess16
        0x0001).2._wire.log = [BusEvent.transmission 0x0B [0x00, 0x01, 0x00] true 2] ∧
    (init 0x0B (TwoWire.scripted [0, 0] [(2, [0x50, 0x45])])).manufacturerAccess16 0x0001
      = ((init 0x0B (TwoWire.scripted [0, 0] [(2, [0x50, 0x45])])).writeRegister16 0x00
          0x0001).2.readRegister16 0x00 :=
  ⟨((manufacturerAccess_write_then_read (init 0x0B (TwoWire.scripted [2] [(2, [0x50, 0x45])]))
      0x0001 (by decide)).1 (by decide)).1,
   ((manufacturerAccess_write_then_read (init 0x0B (TwoWire.scripted [2] [(2, [0x50, 0x45])]))
      0x0001 (by decide)).1 (by decide)).2.2.1,
   ((manufacturerAccess_write_then_read
      (init 0x0B (TwoWire.scripted [0, 0] [(2, [0x50, 0x45])])) 0x0001 (by decide)).2 rfl).1⟩

/-- Claim C13: `manufacturerAccessWrite(cmd, data)` queues exactly five bytes in
a single transaction, in this order: 0x00, `cmd & 0xFF`, `cmd >> 8`,
`data & 0xFF`, `data >> 8`; it returns true with last error None on completion
status 0 and false with last error BusNack otherwise. -/
theorem manufacturerAccessWrite_transaction (self : BQ4050) (cmd data : Nat)
    (hc : cmd < 65536) (hd : data < 65536) :
    (self.manufacturerAccessWrite cmd data).2._wire.log
      = self._wire.log ++
          [BusEvent.transmission self._address
            [0x00, cmd &&& 0xFF, cmd >>> 8, data &&& 0xFF, data >>> 8] true
            self._wire.nextStatus] ∧
    (self._wire.nextStatus = 0 →
      (self.manufacturerAccessWrite cmd data).1 = true ∧
      (self.manufacturerAccessWrite cmd data).2.getLastError
        = BQ4050_Error.BQ4050_ERROR_NONE) ∧
    (self._wire.nextStatus ≠ 0 →
      (self.manufacturerAccessWrite cmd data).1 = false ∧
      (self.manufacturerAccessWrite cmd data).2.getLastError
        = BQ4050_Error.BQ4050_ERROR_I2C_NACK) := by
  rw [manufacturerAccessWrite_eq self cmd data hc hd]
  refine ⟨rfl, ?_, ?_⟩
  · intro h
    simp [getLastError, expectedWriteError, h]
  · intro h
    simp [getLastError, expectedWriteError, h]

theorem manufacturerAccessWrite_transaction_witness :
    ((init 0x0B (TwoWire.scripted [0] [])).manufacturerAccessWrite 0x0044 0x4001).2._wire.log
      = [BusEvent.transmission 0x0B [0x00, 0x44, 0x00, 0x01, 0x40] true 0] ∧
    ((init 0x0B (TwoWire.scripted [0] [])).manufacturerAccessWrite 0x0044 0x4001).1 = true ∧
    ((init 0x0B (TwoWire.scripted [3] [])).manufacturerAccessWrite 0x0044 0x4001).2.getLastError
      = BQ4050_Error.BQ4050_ERROR_I2C_NACK :=
  ⟨(manufacturerAccessWrite_transaction (init 0x0B (TwoWire.scripted [0] [])) 0x0044 0x4001
      (by decide) (by decide)).1,
   ((manufacturerAccessWrite_transaction (init 0x0B (TwoWire.scripted [0] [])) 0x0044 0x4001
      (by decide) (by decide)).2.1 rfl).1,
   ((manufacturerAccessWrite_transaction (init 0x0B (TwoWire.scripted [3] [])) 0x0044 0x4001
      (by decide) (by decide)).2.2 (by decide)).2⟩

/-! ## Block reads -/

/-- Claim C14, evaluated on the code: a session whose last error is
`BQ4050_ERROR_I2C_TIMEOUT` reads a string whose length byte is 0; the command
write is acknowledged and the length byte is delivered. `readSBSString` returns
the empty string and the last error is still `BQ4050_ERROR_I2C_TIMEOUT`, not
None: the zero-length return does not clear the error. -/
theorem readSBSString_zero_length_keeps_error :
    (((init 0x0B (TwoWire.scripted [0] [(1, [0])])).setError
        BQ4050_Error.BQ4050_ERROR_I2C_TIMEOUT).readSBSString 0x20).1 = [] ∧
    (((init 0x0B (TwoWire.scripted [0] [(1, [0])])).setError
        BQ4050_Error.BQ4050_ERROR_I2C_TIMEOUT).readSBSString 0x20).2.getLastError
      = BQ4050_Error.BQ4050_ERROR_I2C_TIMEOUT := by
  decide

/-- Claim C15: when the length byte read by `readSBSString` is greater than 32,
`readSBSString` returns the empty string, sets the last error to
InvalidParameter and requests no further bytes; a length byte of exactly 32 is
accepted: the data bytes are requested and the error is not InvalidParameter. -/
theorem readSBSString_length_limit (self : BQ4050) (command L : Nat)
    (rest : List (Nat × List Nat))
    (hack : self._wire.nextStatus = 0)
    (hL : L < 256)
    (hresp : self._wire.responses = (1, [L]) :: rest) :
    (32 < L →
      (self.readSBSString command).1 = [] ∧
      (self.readSBSString command).2.getLastError
        = BQ4050_Error.BQ4050_ERROR_INVALID_PARAMETER ∧
      (self.readSBSString command).2._wire.log
        = self._wire.log ++
            [BusEvent.transmission self._address [command % 256] false 0,
             BusEvent.request self._address 1]) ∧
    (L = 32 →
      (self.readSBSString command).2.getLastError
        ≠ BQ4050_Error.BQ4050_ERROR_INVALID_PARAMETER ∧
      (self.readSBSString command).2._wire.log
        = self._wire.log ++
            [BusEvent.transmission self._address [command % 256] false 0,
             BusEvent.request self._address 1,
             BusEvent.request self._address (32 + (if self._pecEnabled then 1 else 0))]) := by
  simp [TwoWire.nextStatus] at hack
  refine ⟨?_, ?_⟩
  · intro h
    have hL0 : L ≠ 0 := by omega
    simp [readSBSString, safeBeginTransmission, safeRequestData, TwoWire.endTransmission,
      TwoWire.requestFrom, TwoWire.beginTransmission, TwoWire.write, TwoWire.nextResponse,
      TwoWire.nextStatus, TwoWire.read, setError, getLastError, MAX_SBS_STRING_LENGTH,
      toUint8_natCast, toUint8_natCast_mod, hack, hresp, Nat.mod_eq_of_lt hL, hL0, h]
  · intro h
    subst h
    have h32 : toUint8 32 = 32 := by decide
    cases hp : self._pecEnabled <;>
    simp [readSBSString, safeBeginTransmission, safeRequestData, TwoWire.endTransmission,
      TwoWire.requestFrom, TwoWire.beginTransmission, TwoWire.write, TwoWire.nextResponse,
      TwoWire.nextStatus, read_mk_cons, setError, getLastError, MAX_SBS_STRING_LENGTH,
      toUint8_natCast, toUint8_natCast_mod, hack, hresp, hp, h32] <;>
    split_ifs <;>
    simp_all [readSBSString_loop_log, read_snd_log]

theorem readSBSString_length_limit_witness :
    ((init 0x0B (TwoWire.scripted [0] [(1, [200])])).readSBSString 0x20).1 = [] ∧
    ((init 0x0B (TwoWire.scripted [0] [(1, [200])])).readSBSString 0x20).2.getLastError
      = BQ4050_Error.BQ4050_ERROR_INVALID_PARAMETER ∧
    ((init 0x0B (TwoWire.scripted [0] [(1, [200])])).readSBSString 0x20).2._wire.log
      = [BusEvent.transmission 0x0B [0x20] false 0, BusEvent.request 0x0B 1] ∧
    ((init 0x0B (TwoWire.scripted [0] [(1, [32])])).readSBSString 0x20).2.getLastError
      ≠ BQ4050_Error.BQ4050_ERROR_INVALID_PARAMETER :=
  ⟨((readSBSString_length_limit (init 0x0B (TwoWire.scripted [0] [(1, [200])])) 0x20 200 []
      rfl (by decide) rfl).1 (by decide)).1,
   ((readSBSString_length_limit (init 0x0B (TwoWire.scripted [0] [(1, [200])])) 0x20 200 []
      rfl (by decide) rfl).1 (by decide)).2.1,
   ((readSBSString_length_limit (init 0x0B (TwoWire.scripted [0] [(1, [200])])) 0x20 200 []
      rfl (by decide) rfl).1 (by decide)).2.2,
   ((readSBSString_length_limit (init 0x0B (TwoWire.scripted [0] [(1, [32])])) 0x20 32 []
      rfl (by decide) rfl).2 rfl).1⟩

/-- Claim C16: when the length byte `L` is in 1..32 and the transport delivers
the `L` data bytes, `readSBSString` returns exactly the subsequence of those
bytes whose value lies in 0x20..0x7E, in arrival order (every other byte,
bytes of 0x80 and above included, is dropped), with last error None. -/
theorem readSBSString_keeps_printable (self : BQ4050) (command : Nat)
    (data extra : List Nat) (more : List (Nat × List Nat))
    (hack : self._wire.nextStatus = 0)
    (h1 : 1 ≤ data.length) (h32 : data.length ≤ 32)
    (hdata : ∀ b ∈ data, b < 256)
    (hresp : self._wire.responses
      = (1, [data.length]) ::
        (data.length + (if self._pecEnabled then 1 else 0), data ++ extra) :: more) :
    (self.readSBSString command).1 = data.filter (fun c => decide (0x20 ≤ c ∧ c ≤ 0x7E)) ∧
    (self.readSBSString command).2.getLastError = BQ4050_Error.BQ4050_ERROR_NONE :=
  readSBSString_deliver self command data extra more hack h1 h32 hdata hresp

theorem readSBSString_keeps_printable_witness :
    ((init 0x0B (TwoWire.scripted [0] [(1, [5]), (5, [0x42, 0x07, 0x51, 0x80, 0x7E])])).readSBSString
      0x21).1 = [0x42, 0x51, 0x7E] ∧
    ((init 0x0B (TwoWire.scripted [0] [(1, [5]), (5, [0x42, 0x07, 0x51, 0x80, 0x7E])])).readSBSString
      0x21).2.getLastError = BQ4050_Error.BQ4050_ERROR_NONE :=
  readSBSString_keeps_printable
    (init 0x0B (TwoWire.scripted [0] [(1, [5]), (5, [0x42, 0x07, 0x51, 0x80, 0x7E])])) 0x21
    [0x42, 0x07, 0x51, 0x80, 0x7E] [] [] rfl (by decide) (by decide) (by decide) rfl

/-- Claim C18: with PEC enabled, the string and the last error returned by
`readSBSString` do not depend on the value of the trailing PEC byte: two
transports that deliver the same length byte and data bytes but different PEC
bytes `p1`, `p2` give the same string and error None. -/
theorem readSBSString_ignores_PEC_byte (s1 s2 : BQ4050) (command p1 p2 : Nat)
    (data : List Nat) (more1 more2 : List (Nat × List Nat))
    (hpec1 : s1._pecEnabled = true) (hpec2 : s2._pecEnabled = true)
    (hack1 : s1._wire.nextStatus = 0) (hack2 : s2._wire.nextStatus = 0)
    (h1 : 1 ≤ data.length) (h32 : data.length ≤ 32)
    (hdata : ∀ b ∈ data, b < 256)
    (hresp1 : s1._wire.responses
      = (1, [data.length]) :: (data.length + 1, data ++ [p1]) :: more1)
    (hresp2 : s2._wire.responses
      = (1, [data.length]) :: (data.length + 1, data ++ [p2]) :: more2) :
    (s1.readSBSString command).1 = (s2.readSBSString command).1 ∧
    (s1.readSBSString command).2.getLastError = BQ4050_Error.BQ4050_ERROR_NONE ∧
    (s2.readSBSString command).2.getLastError = BQ4050_Error.BQ4050_ERROR_NONE := by
  have e1 := readSBSString_deliver s1 command data [p1] more1 hack1 h1 h32 hdata
    (by rw [hresp1, hpec1]; rfl)
  have e2 := readSBSString_deliver s2 command data [p2] more2 hack2 h1 h32 hdata
    (by rw [hresp2, hpec2]; rfl)
  exact ⟨e1.1.trans e2.1.symm, e1.2, e2.2⟩

theorem readSBSString_ignores_PEC_byte_witness :
    (((init 0x0B (TwoWire.scripted [0] [(1, [2]), (3, [0x4F, 0x4B, 0x00])])).setPECEnabled
        true).readSBSString 0x21).1
      = (((init 0x0B (TwoWire.scripted [0] [(1, [2]), (3, [0x4F, 0x4B, 0xFF])])).setPECEnabled
        true).readSBSString 0x21).1 ∧
    (((init 0x0B (TwoWire.scripted [0] [(1, [2]), (3, [0x4F, 0x4B, 0x00])])).setPECEnabled
        true).readSBSString 0x21).2.getLastError = BQ4050_Error.BQ4050_ERROR_NONE ∧
    (((init 0x0B (TwoWire.scripted [0] [(1, [2]), (3, [0x4F, 0x4B, 0xFF])])).setPECEnabled
        true).readSBSString 0x21).2.getLastError = BQ4050_Error.BQ4050_ERROR_NONE :=
  readSBSString_ignores_PEC_byte
    ((init 0x0B (TwoWire.scripted [0] [(1, [2]), (3, [0x4F, 0x4B, 0x00])])).setPECEnabled true)
    ((init 0x0B (TwoWire.scripted [0] [(1, [2]), (3, [0x4F, 0x4B, 0xFF])])).setPECEnabled true)
    0x21 0x00 0xFF [0x4F, 0x4B] [] [] rfl rfl rfl rfl (by decide) (by decide) (by decide)
    rfl rfl

/-! ## Status accessors and data flash -/

/-- Claim C19, evaluated on the code: a session at address 0x0B with the PEC
flag enabled calls `getParsedSafetyStatus`; both command writes are
acknowledged and the device answers each read with two bytes. The read of
SafetyAlert (0x50) requests 2 bytes, but the read of SafetyStatus (0x51)
requests 3 bytes (PEC active), so the call ends with
`BQ4050_ERROR_I2C_TIMEOUT` and a raw status of 0; `getSafetyStatus` on the same
transport requests 2 bytes and succeeds. -/
theorem getParsedSafetyStatus_reads_0x51_with_PEC :
    ((init 0x0B (TwoWire.scripted [0, 0] [(2, [0x00, 0x00]), (2, [0x34, 0x12])])).setPECEnabled
        true).getParsedSafetyStatus.2._wire.log
      = [BusEvent.transmission 0x0B [0x50] false 0, BusEvent.request 0x0B 2,
         BusEvent.transmission 0x0B [0x51] false 0, BusEvent.request 0x0B 3] ∧
    ((init 0x0B (TwoWire.scripted [0, 0] [(2, [0x00, 0x00]), (2, [0x34, 0x12])])).setPECEnabled
        true).getParsedSafetyStatus.2.getLastError = BQ4050_Error.BQ4050_ERROR_I2C_TIMEOUT ∧
    ((init 0x0B (TwoWire.scripted [0, 0] [(2, [0x00, 0x00]), (2, [0x34, 0x12])])).setPECEnabled
        true).getParsedSafetyStatus.1.safetyStatusRaw = 0 ∧
    ((init 0x0B (TwoWire.scripted [0] [(2, [0x34, 0x12])])).setPECEnabled
        true).getSafetyStatus.2._wire.log
      = [BusEvent.transmission 0x0B [0x51] false 0, BusEvent.request 0x0B 2] ∧
    ((init 0x0B (TwoWire.scripted [0] [(2, [0x34, 0x12])])).setPECEnabled
        true).getSafetyStatus.1 = 0x1234 := by
  decide

/-- Claim C20: for every address below 0x4000 or above 0x5FFF, `readDataFlash`
returns 0 and `writeDataFlash` returns false, the last error is set to
InvalidParameter and no bus transaction is issued (the bus is untouched); for
every address in 0x4000..0x5FFF neither operation ends with InvalidParameter. -/
theorem dataFlash_address_range (self : BQ4050) (address data : Nat)
    (_ : address < 65536) :
    (address < 0x4000 ∨ address > 0x5FFF →
      self.readDataFlash address
        = (0, self.setError BQ4050_Error.BQ4050_ERROR_INVALID_PARAMETER) ∧
      self.writeDataFlash address data
        = (false, self.setError BQ4050_Error.BQ4050_ERROR_INVALID_PARAMETER) ∧
      (self.setError BQ4050_Error.BQ4050_ERROR_INVALID_PARAMETER)._wire = self._wire) ∧
    (0x4000 ≤ address ∧ address ≤ 0x5FFF →
      (self.readDataFlash address).2.getLastError
        ≠ BQ4050_Error.BQ4050_ERROR_INVALID_PARAMETER ∧
      (self.writeDataFlash address data).2.getLastError
        ≠ BQ4050_Error.BQ4050_ERROR_INVALID_PARAMETER) := by
  refine ⟨?_, ?_⟩
  · intro h
    simp [readDataFlash, writeDataFlash, BQ4050_DATA_FLASH_START, BQ4050_DATA_FLASH_END, h,
      setError]
  · intro h
    exact ⟨readDataFlash_error_in_range self address h.1 h.2,
      writeDataFlash_error_in_range self address data h.1 h.2⟩

theorem dataFlash_address_range_witness :
    (init 0x0B (TwoWire.scripted [0, 0] [(1, [7])])).readDataFlash 0x3FFF
      = (0, (init 0x0B (TwoWire.scripted [0, 0] [(1, [7])])).setError
          BQ4050_Error.BQ4050_ERROR_INVALID_PARAMETER) ∧
    (init 0x0B (TwoWire.scripted [0, 0] [(1, [7])])).writeDataFlash 0x6000 9
      = (false, (init 0x0B (TwoWire.scripted [0, 0] [(1, [7])])).setError
          BQ4050_Error.BQ4050_ERROR_INVALID_PARAMETER) ∧
    ((init 0x0B (TwoWire.scripted [0, 0] [(1, [7])])).readDataFlash 0x4000).2.getLastError
      ≠ BQ4050_Error.BQ4050_ERROR_INVALID_PARAMETER ∧
    ((init 0x0B (TwoWire.scripted [0, 0] [(1, [7])])).writeDataFlash 0x5FFF 9).2.getLastError
      ≠ BQ4050_Error.BQ4050_ERROR_INVALID_PARAMETER :=
  ⟨((dataFlash_address_range (init 0x0B (TwoWire.scripted [0, 0] [(1, [7])])) 0x3FFF 9
      (by decide)).1 (by decide)).1,
   ((dataFlash_address_range (init 0x0B (TwoWire.scripted [0, 0] [(1, [7])])) 0x6000 9
      (by decide)).1 (by decide)).2.1,
   ((dataFlash_address_range (init 0x0B (TwoWire.scripted [0, 0] [(1, [7])])) 0x4000 9
      (by decide)).2 (by decide)).1,
   ((dataFlash_address_range (init 0x0B (TwoWire.scripted [0, 0] [(1, [7])])) 0x5FFF 9
      (by decide)).2 (by decide)).2⟩

/-! ## Lemmas for initialisation, security mode and data flash writes -/

theorem expectedWriteError_mem (w : TwoWire) :
    expectedWriteError w ∈ [BQ4050_Error.BQ4050_ERROR_NONE, BQ4050_Error.BQ4050_ERROR_I2C_NACK,
      BQ4050_Error.BQ4050_ERROR_I2C_TIMEOUT, BQ4050_Error.BQ4050_ERROR_PEC_MISMATCH] := by
  unfold expectedWriteError
  split <;> simp

theorem expectedReadError_mem (a : Nat) (p : Bool) (w : TwoWire) (reg width : Nat) :
    expectedReadError a p w reg width ∈
      [BQ4050_Error.BQ4050_ERROR_NONE, BQ4050_Error.BQ4050_ERROR_I2C_NACK,
       BQ4050_Error.BQ4050_ERROR_I2C_TIMEOUT, BQ4050_Error.BQ4050_ERROR_PEC_MISMATCH] := by
  unfold expectedReadError
  split_ifs <;> simp

/-- The error left by `manufacturerAccess16` is that of its write or of its read. -/
theorem manufacturerAccess16_error_mem (self : BQ4050) (command : Nat) :
    (self.manufacturerAccess16 command).2._lastError ∈
      [BQ4050_Error.BQ4050_ERROR_NONE, BQ4050_Error.BQ4050_ERROR_I2C_NACK,
       BQ4050_Error.BQ4050_ERROR_I2C_TIMEOUT, BQ4050_Error.BQ4050_ERROR_PEC_MISMATCH] := by
  simp only [manufacturerAccess16]
  split
  · rw [(write_error self 0x00 command 0 0).2.1]
    exact expectedWriteError_mem _
  · rw [readRegister16_error]
    exact expectedReadError_mem _ _ _ _ _

theorem and_two_pow_eq_zero_iff (s i : Nat) : s &&& 2 ^ i = 0 ↔ s.testBit i = false := by
  constructor
  · intro h
    have ht := Nat.testBit_and s (2 ^ i) i
    rw [h, Nat.zero_testBit, Nat.testBit_two_pow] at ht
    simpa using ht.symm
  · intro h
    apply Nat.eq_of_testBit_eq
    intro j
    rw [Nat.testBit_and, Nat.testBit_two_pow, Nat.zero_testBit]
    by_cases hij : i = j
    · subst hij
      simp [h]
    · simp [hij]

/-- In range, `writeDataFlash` is its first write followed, when it succeeds, by
its second write. -/
theorem writeDataFlash_in_range (self : BQ4050) (a d : Nat)
    (hlo : 0x4000 ≤ a) (hhi : a ≤ 0x5FFF) :
    self.writeDataFlash a d
      = if (self.manufacturerAccessWrite 0x44 a).1 then
          (((self.manufacturerAccessWrite 0x44 a).2.writeRegister8 0x40 d).1,
           ((self.manufacturerAccessWrite 0x44 a).2.writeRegister8 0x40 d).2)
        else (false, (self.manufacturerAccessWrite 0x44 a).2) := by
  have hr : ¬ (a < BQ4050_DATA_FLASH_START ∨ a > BQ4050_DATA_FLASH_END) := by
    simp only [BQ4050_DATA_FLASH_START, BQ4050_DATA_FLASH_END]
    omega
  simp only [writeDataFlash, hr, if_false]
  cases h1 : (self.manufacturerAccessWrite 0x44 a).1 <;>
  cases h2 : ((self.manufacturerAccessWrite 0x44 a).2.writeRegister8 0x40 d).1 <;>
  simp [h2]

/-! ## Lemmas on the CRC table as a permutation -/

theorem crc8_lookup_nodup : crc8_lookup.Nodup := by
  decide

theorem crc8_lookup_length : crc8_lookup.length = 256 := by
  decide

/-- The table is injective on byte indices. -/
theorem crc8_lookup_injective (i j : Nat) (hi : i < 256) (hj : j < 256)
    (h : crc8_lookup.getD i 0 = crc8_lookup.getD j 0) : i = j := by
  have hi' : i < crc8_lookup.length := by rw [crc8_lookup_length]; exact hi
  have hj' : j < crc8_lookup.length := by rw [crc8_lookup_length]; exact hj
  rw [List.getD_eq_getElem _ _ hi', List.getD_eq_getElem _ _ hj'] at h
  exact (List.Nodup.getElem_inj_iff crc8_lookup_nodup).mp h

/-- The running CRC stays a byte. -/
theorem foldl_lookup_lt (data : List Nat) (hb : ∀ b ∈ data, b < 256) :
    ∀ crc, crc < 256 →
      data.foldl (fun crc b => crc8_lookup.getD (crc ^^^ b) 0) crc < 256 := by
  induction data with
  | nil => intro crc hc; exact hc
  | cons b bs ih =>
    intro crc hc
    have hb0 : b < 256 := hb b (List.mem_cons_self _ _)
    simp only [List.foldl_cons]
    exact ih (fun c hc' => hb c (List.mem_cons_of_mem _ hc')) _
      (crc8_lookup_lt _ (xor_lt_256 hc hb0))

/-- Two different running CRCs stay different over the same bytes. -/
theorem foldl_lookup_ne (data : List Nat) (hb : ∀ b ∈ data, b < 256) :
    ∀ c1 c2, c1 < 256 → c2 < 256 → c1 ≠ c2 →
      data.foldl (fun crc b => crc8_lookup.getD (crc ^^^ b) 0) c1
        ≠ data.foldl (fun crc b => crc8_lookup.getD (crc ^^^ b) 0) c2 := by
  induction data with
  | nil => intro c1 c2 _ _ h; exact h
  | cons b bs ih =>
    intro c1 c2 h1 h2 hne
    have hb0 : b < 256 := hb b (List.mem_cons_self _ _)
    have x1 : c1 ^^^ b < 256 := xor_lt_256 h1 hb0
    have x2 : c2 ^^^ b < 256 := xor_lt_256 h2 hb0
    simp only [List.foldl_cons]
    apply ih (fun c hc' => hb c (List.mem_cons_of_mem _ hc')) _ _
      (crc8_lookup_lt _ x1) (crc8_lookup_lt _ x2)
    intro heq
    exact hne (Nat.xor_left_inj.mp (crc8_lookup_injective _ _ x1 x2 heq))

/-! ## Lemmas on the settings byte layouts -/

/-- A 16-bit value is recovered from the two bytes the setters write. -/
theorem split16_roundtrip (m : Nat) (hm : m < 65536) :
    ((m &&& 0xFF) ||| (((m >>> 8) &&& 0xFF) <<< 8)) % 65536 = m := by
  have h1 : m &&& 0xFF = m % 256 := Nat.and_pow_two_sub_one_eq_mod m 8
  have h2 : (m >>> 8) &&& 0xFF = (m >>> 8) % 256 := Nat.and_pow_two_sub_one_eq_mod (m >>> 8) 8
  rw [h1, h2, Nat.shiftRight_eq_div_pow, or_shiftLeft_eq_add 8 _ _ (by omega)]
  omega

theorem DAConfiguration_roundtrip (c : DAConfiguration) (h : c.cellCount ≤ 3) :
    getDAConfiguration_config (setDAConfiguration_daReg c) = c := by
  obtain ⟨b1, b2, b3, b4, b5, b6, n⟩ := c
  simp only at h
  interval_cases n <;> cases b1 <;> cases b2 <;> cases b3 <;> cases b4 <;> cases b5 <;>
    cases b6 <;> rfl

theorem FETOptions_roundtrip (c : FETOptions) :
    getFETOptions_options (setFETOptions_fetReg c) = c := by
  obtain ⟨b1, b2, b3, b4⟩ := c
  cases b1 <;> cases b2 <;> cases b3 <;> cases b4 <;> rfl

theorem PowerConfig_roundtrip (c : PowerConfig) :
    getPowerConfig_config (setPowerConfig_powerReg c) = c := by
  obtain ⟨b1⟩ := c
  cases b1 <;> rfl

theorem IOConfig_roundtrip (c : IOConfig) :
    getIOConfig_config (setIOConfig_ioReg c) = c := by
  obtain ⟨b1, b2⟩ := c
  cases b1 <;> cases b2 <;> rfl

theorem TemperatureConfig_roundtrip (c : TemperatureConfig) :
    getTemperatureConfig_config (setTemperatureConfig_tempReg1 c)
      (setTemperatureConfig_tempReg2 c) = c := by
  obtain ⟨b1, b2, b3, b4, b5, b6, b7, b8, b9, b10⟩ := c
  cases b1 <;> cases b2 <;> cases b3 <;> cases b4 <;> cases b5 <;> cases b6 <;> cases b7 <;>
    cases b8 <;> cases b9 <;> cases b10 <;> rfl

theorem LEDConfig_ledCtrl_roundtrip (e : Bool) (blink flash : Nat) (hb : blink < 8)
    (hf : flash < 16) :
    getLEDConfig_config 0 0 (setLEDConfig_ledCtrl ⟨0, e, blink, flash⟩)
      = ⟨0, e, blink, flash⟩ := by
  interval_cases blink <;> interval_cases flash <;> cases e <;> rfl

theorem LEDConfig_roundtrip (c : LEDConfig) (hm : c.displayMask < 65536)
    (hb : c.blinkRate < 8) (hf : c.flashRate < 16) :
    getLEDConfig_config (c.displayMask &&& 0xFF) ((c.displayMask >>> 8) &&& 0xFF)
      (setLEDConfig_ledCtrl c) = c := by
  obtain ⟨m, e, blink, flash⟩ := c
  simp only at hm hb hf
  have h := LEDConfig_ledCtrl_roundtrip e blink flash hb hf
  have hc : setLEDConfig_ledCtrl ⟨m, e, blink, flash⟩ = setLEDConfig_ledCtrl ⟨0, e, blink, flash⟩ :=
    rfl
  rw [hc]
  simp only [getLEDConfig_config, LEDConfig.mk.injEq] at h ⊢
  exact ⟨split16_roundtrip m hm, h.2.1, h.2.2.1, h.2.2.2⟩

theorem BalancingConfig_roundtrip (c : BalancingConfig) (hv : c.balanceVoltage < 65536)
    (ht : c.balanceTime < 65536) :
    getBalancingConfig_config (setBalancingConfig_balanceCtrl c)
      (c.balanceVoltage &&& 0xFF) ((c.balanceVoltage >>> 8) &&& 0xFF)
      (c.balanceTime &&& 0xFF) ((c.balanceTime >>> 8) &&& 0xFF) = c := by
  obtain ⟨e, v, t⟩ := c
  simp only at hv ht
  simp only [getBalancingConfig_config, BalancingConfig.mk.injEq]
  refine ⟨?_, split16_roundtrip v hv, split16_roundtrip t ht⟩
  have hc : setBalancingConfig_balanceCtrl ⟨e, v, t⟩ = setBalancingConfig_balanceCtrl ⟨e, 0, 0⟩ :=
    rfl
  rw [hc]
  cases e <;> rfl

theorem SBSGaugingConfig_roundtrip (c : SBSGaugingConfig) :
    getSBSGaugingConfig_config (setSBSGaugingConfig_gaugingReg c) = c := by
  obtain ⟨b1, b2, b3⟩ := c
  cases b1 <;> cases b2 <;> cases b3 <;> rfl

theorem SBSConfig_roundtrip (c : SBSConfig) (h : c.smbusTimeout < 64) :
    getSBSConfig_config (setSBSConfig_sbsReg c) = c := by
  obtain ⟨b1, n, b2⟩ := c
  simp only at h
  interval_cases n <;> cases b1 <;> cases b2 <;> rfl

theorem SOCFlagConfig_roundtrip (c : SOCFlagConfig) (h : c.rsocThresholds < 16) :
    getSOCFlagConfig_config (setSOCFlagConfig_socReg c) = c := by
  obtain ⟨b1, b2, b3, b4, n⟩ := c
  simp only at h
  interval_cases n <;> cases b1 <;> cases b2 <;> cases b3 <;> cases b4 <;> rfl

theorem ProtectionConfig_roundtrip (c : ProtectionConfig) (h : c.protectionDelay < 128) :
    getProtectionConfig_config (setProtectionConfig_protReg c) = c := by
  obtain ⟨b1, n⟩ := c
  simp only at h
  interval_cases n <;> cases b1 <;> rfl

/-! ## Lemmas on acknowledged flash accesses -/

theorem nextStatus_of_allAcknowledged (w : TwoWire) (h : allAcknowledged w) :
    w.nextStatus = 0 := by
  unfold TwoWire.nextStatus
  cases hs : w.statuses with
  | nil => rfl
  | cons s rest =>
    have := h s (by rw [hs]; exact List.mem_cons_self _ _)
    simpa using this

theorem allAcknowledged_tail (w : TwoWire) (h : allAcknowledged w) :
    ∀ s ∈ w.statuses.tail, s % 256 = 0 :=
  fun s hs => h s (List.mem_of_mem_tail hs)

theorem crc8_lookup_getD_lt (i : Nat) : crc8_lookup.getD i 0 < 256 := by
  by_cases h : i < 256
  · exact crc8_lookup_lt i h
  · have hl : crc8_lookup.length ≤ i := by
      rw [crc8_lookup_length]
      omega
    rw [List.getD_eq_default _ _ hl]
    decide

theorem calculatePEC_lt (data : List Nat) (n : Nat) : calculatePEC data (n + 1) < 256 := by
  simp only [calculatePEC, List.range_succ, List.foldl_append, List.foldl_cons, List.foldl_nil,
    calculatePEC_step]
  exact crc8_lookup_getD_lt _

/-- An acknowledged write of one flash cell. -/
theorem writeDataFlash_ack (self : BQ4050) (a d : Nat) (hack : allAcknowledged self._wire)
    (hlo : 0x4000 ≤ a) (hhi : a ≤ 0x5FFF) (hd : d < 256) :
    (self.writeDataFlash a d).1 = true ∧
    (self.writeDataFlash a d).2._address = self._address ∧
    allAcknowledged (self.writeDataFlash a d).2._wire ∧
    (self.writeDataFlash a d).2._wire.log = self._wire.log ++ flashWrite self._address a d := by
  have hin := writeDataFlash_in_range self a d hlo hhi
  have hm := manufacturerAccessWrite_eq self 0x44 a (by decide) (by omega)
  have hw := writeRegister8_eq (self.manufacturerAccessWrite 0x44 a).2 0x40 d (by decide) hd
  have e1 : (0x44 &&& 0xFF : Nat) = 0x44 := by decide
  have e2 : (0x44 >>> 8 : Nat) = 0x00 := by decide
  have h0 := nextStatus_of_allAcknowledged self._wire hack
  rw [e1, e2, h0] at hm
  have hmst : (self.manufacturerAccessWrite 0x44 a).2._wire.statuses
      = self._wire.statuses.tail := by
    rw [hm]
  have hack1 : allAcknowledged (self.manufacturerAccessWrite 0x44 a).2._wire := by
    intro s hs
    rw [hmst] at hs
    exact allAcknowledged_tail _ hack s hs
  have h1 := nextStatus_of_allAcknowledged _ hack1
  rw [h1] at hw
  have ht : (self.manufacturerAccessWrite 0x44 a).1 = true := by
    rw [hm]
    rfl
  rw [hin, ht]
  simp only [if_true]
  rw [hw]
  refine ⟨rfl, ?_, ?_, ?_⟩
  · simp only []
    rw [hm]
  · intro s hs
    simp only [] at hs
    exact allAcknowledged_tail _ hack1 s hs
  · simp only []
    rw [hm]
    simp [flashWrite]

/-- An acknowledged read of one flash cell, answered with the byte `b`. -/
theorem readDataFlash_ack (self : BQ4050) (a b : Nat) (rest : List (Nat × List Nat))
    (hack : allAcknowledged self._wire)
    (hlo : 0x4000 ≤ a) (hhi : a ≤ 0x5FFF) (hb : b < 256)
    (hresp : self._wire.responses = flashAnswer self._address self._pecEnabled b :: rest) :
    (self.readDataFlash a).1 = b ∧
    (self.readDataFlash a).2._address = self._address ∧
    (self.readDataFlash a).2._pecEnabled = self._pecEnabled ∧
    allAcknowledged (self.readDataFlash a).2._wire ∧
    (self.readDataFlash a).2._wire.responses = rest ∧
    (self.readDataFlash a).2._wire.log
      = self._wire.log ++ flashRead self._address self._pecEnabled a := by
  have hm := manufacturerAccessWrite_eq self 0x44 a (by decide) (by omega)
  have e1 : (0x44 &&& 0xFF : Nat) = 0x44 := by decide
  have e2 : (0x44 >>> 8 : Nat) = 0x00 := by decide
  have h0 := nextStatus_of_allAcknowledged self._wire hack
  rw [e1, e2, h0] at hm
  have hack1 : allAcknowledged (self.manufacturerAccessWrite 0x44 a).2._wire := by
    intro s hs
    rw [hm] at hs
    exact allAcknowledged_tail _ hack s hs
  have hack2 : ∀ s ∈ self._wire.statuses.tail.tail, s % 256 = 0 := by
    intro s hs
    exact allAcknowledged_tail _ hack s (List.mem_of_mem_tail hs)
  have h1 := nextStatus_of_allAcknowledged _ hack1
  rw [hm] at h1
  simp [TwoWire.nextStatus] at h1
  have hin : ¬ (a < BQ4050_DATA_FLASH_START ∨ a > BQ4050_DATA_FLASH_END) := by
    simp only [BQ4050_DATA_FLASH_START, BQ4050_DATA_FLASH_END]
    omega
  have hpl := calculatePEC_lt [(self._address <<< 1) % 256, 0x40,
    ((self._address <<< 1) ||| 1) % 256, b] 3
  unfold readDataFlash
  rw [if_neg hin, hm]
  cases hp : self._pecEnabled <;>
  simp [hp, flashAnswer] at hresp <;>
  simp [readRegister8, safeBeginTransmission, safeRequestData, TwoWire.endTransmission,
    TwoWire.requestFrom, TwoWire.beginTransmission, TwoWire.write, TwoWire.nextResponse,
    TwoWire.nextStatus, read_mk_cons, setError, validatePEC, packet, allAcknowledged,
    toUint8_natCast, toUint8_natCast_mod, h1, hresp, hp, flashRead,
    Nat.mod_eq_of_lt hb, Nat.mod_eq_of_lt hpl] <;>
  exact hack2

/-! ## Lemmas on the settings bytes and their round trip through the flash -/

theorem and_255_lt (x : Nat) : x &&& 0xFF < 256 := by
  have h : x &&& 0xFF = x % 256 := Nat.and_pow_two_sub_one_eq_mod x 8
  rw [h]
  exact Nat.mod_lt _ (by decide)

theorem setDAConfiguration_daReg_lt (c : DAConfiguration) : setDAConfiguration_daReg c < 256 := by
  unfold setDAConfiguration_daReg
  simp only []
  split_ifs <;> exact Nat.mod_lt _ (by decide)

theorem setFETOptions_fetReg_lt (c : FETOptions) : setFETOptions_fetReg c < 256 := by
  unfold setFETOptions_fetReg
  simp only []
  split_ifs <;> first | exact Nat.mod_lt _ (by decide) | decide

theorem setPowerConfig_powerReg_lt (c : PowerConfig) : setPowerConfig_powerReg c < 256 := by
  unfold setPowerConfig_powerReg
  simp only []
  split_ifs <;> first | exact Nat.mod_lt _ (by decide) | decide

theorem setIOConfig_ioReg_lt (c : IOConfig) : setIOConfig_ioReg c < 256 := by
  unfold setIOConfig_ioReg
  simp only []
  split_ifs <;> first | exact Nat.mod_lt _ (by decide) | decide

theorem setTemperatureConfig_tempReg1_lt (c : TemperatureConfig) :
    setTemperatureConfig_tempReg1 c < 256 := by
  unfold setTemperatureConfig_tempReg1
  simp only []
  split_ifs <;> first | exact Nat.mod_lt _ (by decide) | decide

theorem setTemperatureConfig_tempReg2_lt (c : TemperatureConfig) :
    setTemperatureConfig_tempReg2 c < 256 := by
  unfold setTemperatureConfig_tempReg2
  simp only []
  split_ifs <;> first | exact Nat.mod_lt _ (by decide) | decide

theorem setLEDConfig_ledCtrl_lt (c : LEDConfig) : setLEDConfig_ledCtrl c < 256 := by
  unfold setLEDConfig_ledCtrl
  simp only []
  split_ifs <;> exact Nat.mod_lt _ (by decide)

theorem setBalancingConfig_balanceCtrl_lt (c : BalancingConfig) :
    setBalancingConfig_balanceCtrl c < 256 := by
  unfold setBalancingConfig_balanceCtrl
  simp only []
  split_ifs <;> first | exact Nat.mod_lt _ (by decide) | decide

theorem setSBSGaugingConfig_gaugingReg_lt (c : SBSGaugingConfig) :
    setSBSGaugingConfig_gaugingReg c < 256 := by
  unfold setSBSGaugingConfig_gaugingReg
  simp only []
  split_ifs <;> first | exact Nat.mod_lt _ (by decide) | decide

theorem setSBSConfig_sbsReg_lt (c : SBSConfig) : setSBSConfig_sbsReg c < 256 := by
  unfold setSBSConfig_sbsReg
  simp only []
  split_ifs <;> exact Nat.mod_lt _ (by decide)

theorem setSOCFlagConfig_socReg_lt (c : SOCFlagConfig) : setSOCFlagConfig_socReg c < 256 := by
  unfold setSOCFlagConfig_socReg
  simp only []
  split_ifs <;> exact Nat.mod_lt _ (by decide)

theorem setProtectionConfig_protReg_lt (c : ProtectionConfig) :
    setProtectionConfig_protReg c < 256 := by
  unfold setProtectionConfig_protReg
  simp only []
  split_ifs <;> exact Nat.mod_lt _ (by decide)

/-- Round trip of a struct that occupies one flash cell. -/
theorem flashRoundtrip_one {α : Type} (setter : BQ4050 → α → Bool × BQ4050)
    (getter : BQ4050 → α × BQ4050) (c : α) (a b : Nat) (dec : Nat → α)
    (hset : ∀ s, setter s c = s.writeDataFlash a b)
    (hget : ∀ s, getter s = (dec (s.readDataFlash a).1, (s.readDataFlash a).2))
    (hlo : 0x4000 ≤ a) (hhi : a ≤ 0x5FFF) (hb : b < 256) (hrt : dec b = c) :
    flashRoundtrip setter getter c [(a, b)] := by
  intro w r more hw hr hresp
  have s1 := writeDataFlash_ack w a b hw hlo hhi hb
  have g1 := readDataFlash_ack r a b more hr hlo hhi hb (by simpa using hresp)
  rw [hset, hget]
  refine ⟨s1.1, ?_, ?_, ?_⟩
  · simpa using s1.2.2.2
  · simpa using g1.2.2.2.2.2
  · simp only []
    rw [g1.1, hrt]

theorem DAConfiguration_flashRoundtrip (c : DAConfiguration) (h : c.cellCount ≤ 3) :
    flashRoundtrip setDAConfiguration getDAConfiguration c
      [(0x4000, setDAConfiguration_daReg c)] :=
  flashRoundtrip_one _ _ c _ _ getDAConfiguration_config (fun _ => rfl) (fun _ => rfl)
    (by decide) (by decide) (setDAConfiguration_daReg_lt c) (DAConfiguration_roundtrip c h)

theorem FETOptions_flashRoundtrip (c : FETOptions) :
    flashRoundtrip setFETOptions getFETOptions c [(0x4001, setFETOptions_fetReg c)] :=
  flashRoundtrip_one _ _ c _ _ getFETOptions_options (fun _ => rfl) (fun _ => rfl)
    (by decide) (by decide) (setFETOptions_fetReg_lt c) (FETOptions_roundtrip c)

theorem PowerConfig_flashRoundtrip (c : PowerConfig) :
    flashRoundtrip setPowerConfig getPowerConfig c [(0x4002, setPowerConfig_powerReg c)] :=
  flashRoundtrip_one _ _ c _ _ getPowerConfig_config (fun _ => rfl) (fun _ => rfl)
    (by decide) (by decide) (setPowerConfig_powerReg_lt c) (PowerConfig_roundtrip c)

theorem IOConfig_flashRoundtrip (c : IOConfig) :
    flashRoundtrip setIOConfig getIOConfig c [(0x4003, setIOConfig_ioReg c)] :=
  flashRoundtrip_one _ _ c _ _ getIOConfig_config (fun _ => rfl) (fun _ => rfl)
    (by decide) (by decide) (setIOConfig_ioReg_lt c) (IOConfig_roundtrip c)

theorem SBSGaugingConfig_flashRoundtrip (c : SBSGaugingConfig) :
    flashRoundtrip setSBSGaugingConfig getSBSGaugingConfig c
      [(0x400E, setSBSGaugingConfig_gaugingReg c)] :=
  flashRoundtrip_one _ _ c _ _ getSBSGaugingConfig_config (fun _ => rfl) (fun _ => rfl)
    (by decide) (by decide) (setSBSGaugingConfig_gaugingReg_lt c) (SBSGaugingConfig_roundtrip c)

theorem SBSConfig_flashRoundtrip (c : SBSConfig) (h : c.smbusTimeout < 64) :
    flashRoundtrip setSBSConfig getSBSConfig c [(0x400F, setSBSConfig_sbsReg c)] :=
  flashRoundtrip_one _ _ c _ _ getSBSConfig_config (fun _ => rfl) (fun _ => rfl)
    (by decide) (by decide) (setSBSConfig_sbsReg_lt c) (SBSConfig_roundtrip c h)

theorem SOCFlagConfig_flashRoundtrip (c : SOCFlagConfig) (h : c.rsocThresholds < 16) :
    flashRoundtrip setSOCFlagConfig getSOCFlagConfig c [(0x4010, setSOCFlagConfig_socReg c)] :=
  flashRoundtrip_one _ _ c _ _ getSOCFlagConfig_config (fun _ => rfl) (fun _ => rfl)
    (by decide) (by decide) (setSOCFlagConfig_socReg_lt c) (SOCFlagConfig_roundtrip c h)

theorem ProtectionConfig_flashRoundtrip (c : ProtectionConfig) (h : c.protectionDelay < 128) :
    flashRoundtrip setProtectionConfig getProtectionConfig c
      [(0x4011, setProtectionConfig_protReg c)] :=
  flashRoundtrip_one _ _ c _ _ getProtectionConfig_config (fun _ => rfl) (fun _ => rfl)
    (by decide) (by decide) (setProtectionConfig_protReg_lt c) (ProtectionConfig_roundtrip c h)

theorem TemperatureConfig_flashRoundtrip (c : TemperatureConfig) :
    flashRoundtrip setTemperatureConfig getTemperatureConfig c
      [(0x4004, setTemperatureConfig_tempReg1 c), (0x4005, setTemperatureConfig_tempReg2 c)] := by
  intro w r more hw hr hresp
  simp only [List.map_cons, List.map_nil, List.cons_append, List.nil_append] at hresp
  have s1 := writeDataFlash_ack w 0x4004 _ hw (by decide) (by decide)
    (setTemperatureConfig_tempReg1_lt c)
  have s2 := writeDataFlash_ack _ 0x4005 _ s1.2.2.1 (by decide) (by decide)
    (setTemperatureConfig_tempReg2_lt c)
  have g1 := readDataFlash_ack r 0x4004 _ _ hr (by decide) (by decide)
    (setTemperatureConfig_tempReg1_lt c) hresp
  have g2 := readDataFlash_ack _ 0x4005 (setTemperatureConfig_tempReg2 c) more g1.2.2.2.1
    (by decide) (by decide) (setTemperatureConfig_tempReg2_lt c)
    (by rw [g1.2.2.2.2.1, g1.2.1, g1.2.2.1])
  refine ⟨?_, ?_, ?_, ?_⟩
  · simp only [setTemperatureConfig, s1.1, s2.1, Bool.and_self]
  · simp only [setTemperatureConfig, s2.2.2.2, s1.2.2.2, s1.2.1, List.flatMap_cons,
      List.flatMap_nil, List.append_assoc, List.append_nil]
  · simp only [getTemperatureConfig, g2.2.2.2.2.2, g1.2.2.2.2.2, g1.2.1, g1.2.2.1,
      List.flatMap_cons, List.flatMap_nil, List.append_assoc, List.append_nil]
  · simp only [getTemperatureConfig, g1.1, g2.1]
    exact TemperatureConfig_roundtrip c

theorem LEDConfig_flashRoundtrip (c : LEDConfig) (hm : c.displayMask < 65536)
    (hb : c.blinkRate < 8) (hf : c.flashRate < 16) :
    flashRoundtrip setLEDConfig getLEDConfig c
      [(0x4006, c.displayMask &&& 0xFF), (0x4007, (c.displayMask >>> 8) &&& 0xFF),
       (0x4008, setLEDConfig_ledCtrl c)] := by
  intro w r more hw hr hresp
  simp only [List.map_cons, List.map_nil, List.cons_append, List.nil_append] at hresp
  have s1 := writeDataFlash_ack w 0x4006 _ hw (by decide) (by decide)
    (and_255_lt c.displayMask)
  have s2 := writeDataFlash_ack _ 0x4007 _ s1.2.2.1 (by decide) (by decide)
    (and_255_lt (c.displayMask >>> 8))
  have s3 := writeDataFlash_ack _ 0x4008 _ s2.2.2.1 (by decide) (by decide)
    (setLEDConfig_ledCtrl_lt c)
  have g1 := readDataFlash_ack r 0x4006 _ _ hr (by decide) (by decide)
    (and_255_lt c.displayMask) hresp
  have g2 := readDataFlash_ack _ 0x4007 ((c.displayMask >>> 8) &&& 0xFF) _ g1.2.2.2.1
    (by decide) (by decide) (and_255_lt (c.displayMask >>> 8))
    (by rw [g1.2.2.2.2.1, g1.2.1, g1.2.2.1])
  have g3 := readDataFlash_ack _ 0x4008 (setLEDConfig_ledCtrl c) more g2.2.2.2.1
    (by decide) (by decide) (setLEDConfig_ledCtrl_lt c)
    (by rw [g2.2.2.2.2.1, g2.2.1, g2.2.2.1, g1.2.1, g1.2.2.1])
  refine ⟨?_, ?_, ?_, ?_⟩
  · simp only [setLEDConfig, s1.1, s2.1, s3.1, Bool.and_self]
  · simp only [setLEDConfig, s3.2.2.2, s2.2.2.2, s1.2.2.2, s2.2.1, s1.2.1, List.flatMap_cons,
      List.flatMap_nil, List.append_assoc, List.append_nil]
  · simp only [getLEDConfig, g3.2.2.2.2.2, g2.2.2.2.2.2, g1.2.2.2.2.2, g2.2.1, g2.2.2.1,
      g1.2.1, g1.2.2.1, List.flatMap_cons, List.flatMap_nil, List.append_assoc,
      List.append_nil]
  · simp only [getLEDConfig, g1.1, g2.1, g3.1]
    exact LEDConfig_roundtrip c hm hb hf

theorem BalancingConfig_flashRoundtrip (c : BalancingConfig) (hv : c.balanceVoltage < 65536)
    (ht : c.balanceTime < 65536) :
    flashRoundtrip setBalancingConfig getBalancingConfig c
      [(0x4009, setBalancingConfig_balanceCtrl c),
       (0x400A, c.balanceVoltage &&& 0xFF), (0x400B, (c.balanceVoltage >>> 8) &&& 0xFF),
       (0x400C, c.balanceTime &&& 0xFF), (0x400D, (c.balanceTime >>> 8) &&& 0xFF)] := by
  intro w r more hw hr hresp
  simp only [List.map_cons, List.map_nil, List.cons_append, List.nil_append] at hresp
  have s1 := writeDataFlash_ack w 0x4009 _ hw (by decide) (by decide)
    (setBalancingConfig_balanceCtrl_lt c)
  have s2 := writeDataFlash_ack _ 0x400A _ s1.2.2.1 (by decide) (by decide)
    (and_255_lt c.balanceVoltage)
  have s3 := writeDataFlash_ack _ 0x400B _ s2.2.2.1 (by decide) (by decide)
    (and_255_lt (c.balanceVoltage >>> 8))
  have s4 := writeDataFlash_ack _ 0x400C _ s3.2.2.1 (by decide) (by decide)
    (and_255_lt c.balanceTime)
  have s5 := writeDataFlash_ack _ 0x400D _ s4.2.2.1 (by decide) (by decide)
    (and_255_lt (c.balanceTime >>> 8))
  have g1 := readDataFlash_ack r 0x4009 _ _ hr (by decide) (by decide)
    (setBalancingConfig_balanceCtrl_lt c) hresp
  have g2 := readDataFlash_ack _ 0x400A (c.balanceVoltage &&& 0xFF) _ g1.2.2.2.1
    (by decide) (by decide) (and_255_lt c.balanceVoltage)
    (by rw [g1.2.2.2.2.1, g1.2.1, g1.2.2.1])
  have g3 := readDataFlash_ack _ 0x400B ((c.balanceVoltage >>> 8) &&& 0xFF) _ g2.2.2.2.1
    (by decide) (by decide) (and_255_lt (c.balanceVoltage >>> 8))
    (by rw [g2.2.2.2.2.1, g2.2.1, g2.2.2.1, g1.2.1, g1.2.2.1])
  have g4 := readDataFlash_ack _ 0x400C (c.balanceTime &&& 0xFF) _ g3.2.2.2.1
    (by decide) (by decide) (and_255_lt c.balanceTime)
    (by rw [g3.2.2.2.2.1, g3.2.1, g3.2.2.1, g2.2.1, g2.2.2.1, g1.2.1, g1.2.2.1])
  have g5 := readDataFlash_ack _ 0x400D ((c.balanceTime >>> 8) &&& 0xFF) more g4.2.2.2.1
    (by decide) (by decide) (and_255_lt (c.balanceTime >>> 8))
    (by rw [g4.2.2.2.2.1, g4.2.1, g4.2.2.1, g3.2.1, g3.2.2.1, g2.2.1, g2.2.2.1, g1.2.1,
      g1.2.2.1])
  refine ⟨?_, ?_, ?_, ?_⟩
  · simp only [setBalancingConfig, s1.1, s2.1, s3.1, s4.1, s5.1, Bool.and_self]
  · simp only [setBalancingConfig, s5.2.2.2, s4.2.2.2, s3.2.2.2, s2.2.2.2, s1.2.2.2, s4.2.1,
      s3.2.1, s2.2.1, s1.2.1, List.flatMap_cons, List.flatMap_nil, List.append_assoc,
      List.append_nil]
  · simp only [getBalancingConfig, g5.2.2.2.2.2, g4.2.2.2.2.2, g3.2.2.2.2.2, g2.2.2.2.2.2,
      g1.2.2.2.2.2, g4.2.1, g4.2.2.1, g3.2.1, g3.2.2.1, g2.2.1, g2.2.2.1, g1.2.1, g1.2.2.1,
      List.flatMap_cons, List.flatMap_nil, List.append_assoc, List.append_nil]
  · simp only [getBalancingConfig, g1.1, g2.1, g3.1, g4.1, g5.1]
    exact BalancingConfig_roundtrip c hv ht

/-! ## Lemmas on 16-bit reads and the cell count -/

theorem readRegister16_lt (self : BQ4050) (reg : Nat) : (self.readRegister16 reg).1 < 65536 := by
  simp only [readRegister16]
  split_ifs <;> simp <;> omega

theorem getCellCount_le (self : BQ4050) : self.getCellCount.1 ≤ 3 := by
  simp only [getCellCount]
  exact Nat.and_le_right

/-! ## Initialisation and security mode -/

/-- Claim C21, as stated, fails on the code: with the probe write not
acknowledged (the probe fails), `begin()` returns false but the last error is
`BQ4050_ERROR_I2C_NACK`, not `BQ4050_ERROR_DEVICE_NOT_FOUND`. -/
theorem begin_failure_is_not_reported_as_DeviceNotFound :
    ¬ ((init 0x0B (TwoWire.scripted [2] [])).getDeviceType.2.getLastError
          ≠ BQ4050_Error.BQ4050_ERROR_NONE →
        (init 0x0B (TwoWire.scripted [2] [])).begin.1 = false ∧
        (init 0x0B (TwoWire.scripted [2] [])).begin.2.getLastError
          = BQ4050_Error.BQ4050_ERROR_DEVICE_NOT_FOUND) := by
  decide

/-- Claim C21, amended: `begin()` leaves the session exactly as the probe
(`getDeviceType`, that is `manufacturerAccess16(0x0001)`) left it; if the probe
fails, `begin()` returns false and the last error is the error of the failing
step of the probe (BusNack, BusTimeout or IntegrityMismatch), never
DeviceNotFound; if the probe succeeds, `begin()` returns true with last error
None. -/
theorem begin_reports_probe_error (self : BQ4050) :
    self.begin.2 = self.getDeviceType.2 ∧
    self.begin.1 = decide (self.getDeviceType.2.getLastError = BQ4050_Error.BQ4050_ERROR_NONE) ∧
    self.begin.2.getLastError ∈
      [BQ4050_Error.BQ4050_ERROR_NONE, BQ4050_Error.BQ4050_ERROR_I2C_NACK,
       BQ4050_Error.BQ4050_ERROR_I2C_TIMEOUT, BQ4050_Error.BQ4050_ERROR_PEC_MISMATCH] ∧
    self.begin.2.getLastError ≠ BQ4050_Error.BQ4050_ERROR_DEVICE_NOT_FOUND := by
  have hb : self.begin.2 = self.getDeviceType.2 := by
    simp only [begin, TwoWire.begin]
    split <;> rfl
  have hm := manufacturerAccess16_error_mem self BQ4050_MAC_DEVICE_TYPE
  refine ⟨hb, ?_, ?_, ?_⟩
  · simp only [begin, TwoWire.begin, getLastError]
    split <;> simp_all
  · rw [hb]
    exact hm
  · rw [hb]
    intro h
    simp only [getLastError, getDeviceType] at h
    rw [h] at hm
    simp at hm

/-- Claim C22: `getSecurityMode` returns Unknown when the ManufacturingStatus
(0x57) read leaves a non-None error; otherwise, for the 16-bit status `s` read,
it returns Sealed when bit 13 of `s` is 0, FullAccess when bits 13 and 14 are
both 1, and Unsealed when bit 13 is 1 and bit 14 is 0. -/
theorem getSecurityMode_decodes_bits (self : BQ4050) :
    (self.getManufacturingStatus.2.getLastError ≠ BQ4050_Error.BQ4050_ERROR_NONE →
      self.getSecurityMode.1 = BQ4050_SecurityMode.BQ4050_SECURITY_UNKNOWN) ∧
    (self.getManufacturingStatus.2.getLastError = BQ4050_Error.BQ4050_ERROR_NONE →
      (self.getManufacturingStatus.1.testBit 13 = false →
        self.getSecurityMode.1 = BQ4050_SecurityMode.BQ4050_SECURITY_SEALED) ∧
      (self.getManufacturingStatus.1.testBit 13 = true ∧
        self.getManufacturingStatus.1.testBit 14 = true →
        self.getSecurityMode.1 = BQ4050_SecurityMode.BQ4050_SECURITY_FULL_ACCESS) ∧
      (self.getManufacturingStatus.1.testBit 13 = true ∧
        self.getManufacturingStatus.1.testBit 14 = false →
        self.getSecurityMode.1 = BQ4050_SecurityMode.BQ4050_SECURITY_UNSEALED)) := by
  have h13 := and_two_pow_eq_zero_iff self.getManufacturingStatus.1 13
  have h14 := and_two_pow_eq_zero_iff self.getManufacturingStatus.1 14
  norm_num at h13 h14
  refine ⟨?_, ?_⟩
  · intro he
    simp only [getLastError] at he
    simp [getSecurityMode, he]
  · intro he
    simp only [getLastError] at he
    refine ⟨?_, ?_, ?_⟩
    · intro hb
      simp [getSecurityMode, he, h13.mpr hb]
    · intro hb
      have n13 : ¬ self.getManufacturingStatus.1 &&& 8192 = 0 := by
        rw [h13]; simp [hb.1]
      have n14 : ¬ self.getManufacturingStatus.1 &&& 16384 = 0 := by
        rw [h14]; simp [hb.2]
      simp [getSecurityMode, he, n13, n14]
    · intro hb
      have n13 : ¬ self.getManufacturingStatus.1 &&& 8192 = 0 := by
        rw [h13]; simp [hb.1]
      simp [getSecurityMode, he, n13, h14.mpr hb.2]

/-- Claim C23: for every 16-bit cycle count `c` (indeed every `c`),
`isValidCycleCount(c)` is true exactly when `c <= 50000`: 0x0000 is valid,
0xFFFF is invalid, 50000 is valid and 50001 is invalid. -/
theorem isValidCycleCount_iff (c : Nat) :
    (BQ4050Utils.isValidCycleCount c = true ↔ c ≤ 50000) ∧
    BQ4050Utils.isValidCycleCount 0x0000 = true ∧
    BQ4050Utils.isValidCycleCount 0xFFFF = false ∧
    BQ4050Utils.isValidCycleCount 50000 = true ∧
    BQ4050Utils.isValidCycleCount 50001 = false := by
  refine ⟨?_, by decide, by decide, by decide, by decide⟩
  unfold BQ4050Utils.isValidCycleCount
  split_ifs <;> simp <;> omega

/-! ## Data flash writes -/

/-- Claim C24: for every in-range address `a` (0x4000..0x5FFF) and byte `d`,
`writeDataFlash(a, d)` first issues `manufacturerAccessWrite(0x44, a)` (bytes
0x00, 0x44, 0x00, `a & 0xFF`, `a >> 8`) and then `writeRegister8(0x40, d)`; it
returns true exactly when both transactions complete with status 0, and when
the first transaction fails the second is not issued and the result is false
with last error BusNack. -/
theorem writeDataFlash_two_transactions (self : BQ4050) (a d : Nat)
    (hlo : 0x4000 ≤ a) (hhi : a ≤ 0x5FFF) (hd : d < 256) :
    (self._wire.nextStatus ≠ 0 →
      (self.writeDataFlash a d).1 = false ∧
      (self.writeDataFlash a d).2.getLastError = BQ4050_Error.BQ4050_ERROR_I2C_NACK ∧
      (self.writeDataFlash a d).2._wire.log
        = self._wire.log ++
            [BusEvent.transmission self._address [0x00, 0x44, 0x00, a &&& 0xFF, a >>> 8] true
              self._wire.nextStatus]) ∧
    (self._wire.nextStatus = 0 →
      (self.writeDataFlash a d).2
        = ((self.manufacturerAccessWrite 0x44 a).2.writeRegister8 0x40 d).2 ∧
      (self.writeDataFlash a d).2._wire.log
        = self._wire.log ++
            [BusEvent.transmission self._address [0x00, 0x44, 0x00, a &&& 0xFF, a >>> 8] true 0,
             BusEvent.transmission self._address [0x40, d] true
              (self.manufacturerAccessWrite 0x44 a).2._wire.nextStatus]) ∧
    ((self.writeDataFlash a d).1 = true ↔
      self._wire.nextStatus = 0 ∧
      (self.manufacturerAccessWrite 0x44 a).2._wire.nextStatus = 0) := by
  have hin := writeDataFlash_in_range self a d hlo hhi
  have hm := manufacturerAccessWrite_eq self 0x44 a (by decide) (by omega)
  have hw := writeRegister8_eq (self.manufacturerAccessWrite 0x44 a).2 0x40 d (by decide) hd
  have e1 : (0x44 &&& 0xFF : Nat) = 0x44 := by decide
  have e2 : (0x44 >>> 8 : Nat) = 0x00 := by decide
  rw [e1, e2] at hm
  have hm1 : (self.manufacturerAccessWrite 0x44 a).1 = decide (self._wire.nextStatus = 0) := by
    rw [hm]
  have hmlog : (self.manufacturerAccessWrite 0x44 a).2._wire.log
      = self._wire.log ++
          [BusEvent.transmission self._address [0x00, 0x44, 0x00, a &&& 0xFF, a >>> 8] true
            self._wire.nextStatus] := by
    rw [hm]
  have hmaddr : (self.manufacturerAccessWrite 0x44 a).2._address = self._address := by
    rw [hm]
  have hmerr : (self.manufacturerAccessWrite 0x44 a).2._lastError
      = expectedWriteError self._wire := by
    rw [hm]
  have hw1 : ((self.manufacturerAccessWrite 0x44 a).2.writeRegister8 0x40 d).1
      = decide ((self.manufacturerAccessWrite 0x44 a).2._wire.nextStatus = 0) := by
    rw [hw]
  have hwlog : ((self.manufacturerAccessWrite 0x44 a).2.writeRegister8 0x40 d).2._wire.log
      = (self.manufacturerAccessWrite 0x44 a).2._wire.log ++
          [BusEvent.transmission (self.manufacturerAccessWrite 0x44 a).2._address [0x40, d] true
            (self.manufacturerAccessWrite 0x44 a).2._wire.nextStatus] := by
    rw [hw]
  refine ⟨?_, ?_, ?_⟩
  · intro h
    have hf : (self.manufacturerAccessWrite 0x44 a).1 = false := by
      rw [hm1]
      simp [h]
    rw [hin, hf]
    refine ⟨rfl, ?_, hmlog⟩
    simp [getLastError, hmerr, expectedWriteError, h]
  · intro h
    have ht : (self.manufacturerAccessWrite 0x44 a).1 = true := by
      rw [hm1]
      simp [h]
    rw [hin, ht]
    refine ⟨rfl, ?_⟩
    simp only [if_true]
    rw [hwlog, hmlog, hmaddr, h]
    simp
  · rw [hin]
    cases ht : (self.manufacturerAccessWrite 0x44 a).1
    · have hn : ¬ self._wire.nextStatus = 0 := by
        intro h0
        rw [hm1] at ht
        simp [h0] at ht
      simp [hn]
    · have h0 : self._wire.nextStatus = 0 := by
        rw [hm1] at ht
        simpa using ht
      simp [h0, hw1]

theorem writeDataFlash_two_transactions_witness :
    ((init 0x0B (TwoWire.scripted [0, 0] [])).writeDataFlash 0x4001 0x09).1 = true ∧
    ((init 0x0B (TwoWire.scripted [0, 0] [])).writeDataFlash 0x4001 0x09).2._wire.log
      = [BusEvent.transmission 0x0B [0x00, 0x44, 0x00, 0x01, 0x40] true 0,
         BusEvent.transmission 0x0B [0x40, 0x09] true 0] ∧
    ((init 0x0B (TwoWire.scripted [2, 0] [])).writeDataFlash 0x4001 0x09).2._wire.log
      = [BusEvent.transmission 0x0B [0x00, 0x44, 0x00, 0x01, 0x40] true 2] :=
  ⟨(writeDataFlash_two_transactions (init 0x0B (TwoWire.scripted [0, 0] [])) 0x4001 0x09
      (by decide) (by decide) (by decide)).2.2.2 ⟨rfl, rfl⟩,
   ((writeDataFlash_two_transactions (init 0x0B (TwoWire.scripted [0, 0] [])) 0x4001 0x09
      (by decide) (by decide) (by decide)).2.1 rfl).2,
   ((writeDataFlash_two_transactions (init 0x0B (TwoWire.scripted [2, 0] [])) 0x4001 0x09
      (by decide) (by decide) (by decide)).1 (by decide)).2.2⟩

/-! ## Single-byte corruption -/

/-- Claim C25: two byte sequences of the same length (at most 255) that differ
in exactly one byte position (`a` against `b`, after the same prefix and before
the same suffix) have different `calculatePEC` values; the CRC table is a
permutation of 0..255 (256 entries, no repetition, every entry a byte). -/
theorem calculatePEC_detects_single_byte_change (pre suf : List Nat) (a b : Nat)
    (_ : (pre ++ a :: suf).length ≤ 255)
    (hpre : ∀ x ∈ pre, x < 256) (hsuf : ∀ x ∈ suf, x < 256)
    (ha : a < 256) (hb : b < 256) (hab : a ≠ b) :
    calculatePEC (pre ++ a :: suf) (pre ++ a :: suf).length
      ≠ calculatePEC (pre ++ b :: suf) (pre ++ b :: suf).length ∧
    crc8_lookup.length = 256 ∧ crc8_lookup.Nodup ∧ (∀ v ∈ crc8_lookup, v < 256) := by
  refine ⟨?_, crc8_lookup_length, crc8_lookup_nodup, by decide⟩
  rw [calculatePEC_eq_foldl, calculatePEC_eq_foldl]
  simp only [List.foldl_append, List.foldl_cons]
  have hc : pre.foldl (fun crc b => crc8_lookup.getD (crc ^^^ b) 0) 0 < 256 :=
    foldl_lookup_lt pre hpre 0 (by decide)
  have x1 := xor_lt_256 hc ha
  have x2 := xor_lt_256 hc hb
  apply foldl_lookup_ne suf hsuf _ _ (crc8_lookup_lt _ x1) (crc8_lookup_lt _ x2)
  intro heq
  exact hab (Nat.xor_right_inj.mp (crc8_lookup_injective _ _ x1 x2 heq))

theorem calculatePEC_detects_single_byte_change_witness :
    calculatePEC [0x16, 0x09, 0x17, 0x34, 0x12] 5
      ≠ calculatePEC [0x16, 0x09, 0x17, 0x35, 0x12] 5 :=
  (calculatePEC_detects_single_byte_change [0x16, 0x09, 0x17] [0x12] 0x34 0x35
    (by decide) (by decide) (by decide) (by decide) (by decide) (by decide)).1

/-! ## Settings flash -/

/-- Claim C26: for each settings struct (DAConfiguration, FETOptions,
PowerConfig, IOConfig, TemperatureConfig, LEDConfig, BalancingConfig,
SBSGaugingConfig, SBSConfig, SOCFlagConfig, ProtectionConfig), the setter and
the getter of the driver round-trip through the flash, provided
cellCount <= 3, blinkRate < 8, flashRate < 16, smbusTimeout < 64,
rsocThresholds < 16 and protectionDelay < 128 (the 16-bit fields being 16-bit
values): on an acknowledging bus the setter returns true and writes exactly the
listed bytes to the listed flash addresses, and the getter, reading these
addresses from a device that answers with these bytes (PEC on or off), returns
the original struct. -/
theorem settings_roundtrip (da : DAConfiguration) (fet : FETOptions) (power : PowerConfig)
    (io : IOConfig) (temp : TemperatureConfig) (led : LEDConfig) (bal : BalancingConfig)
    (gauging : SBSGaugingConfig) (sbs : SBSConfig) (soc : SOCFlagConfig)
    (prot : ProtectionConfig)
    (hcell : da.cellCount ≤ 3)
    (hmask : led.displayMask < 65536) (hblink : led.blinkRate < 8) (hflash : led.flashRate < 16)
    (hvolt : bal.balanceVoltage < 65536) (htime : bal.balanceTime < 65536)
    (htimeout : sbs.smbusTimeout < 64) (hrsoc : soc.rsocThresholds < 16)
    (hdelay : prot.protectionDelay < 128) :
    flashRoundtrip setDAConfiguration getDAConfiguration da
      [(0x4000, setDAConfiguration_daReg da)] ∧
    flashRoundtrip setFETOptions getFETOptions fet
      [(0x4001, setFETOptions_fetReg fet)] ∧
    flashRoundtrip setPowerConfig getPowerConfig power
      [(0x4002, setPowerConfig_powerReg power)] ∧
    flashRoundtrip setIOConfig getIOConfig io
      [(0x4003, setIOConfig_ioReg io)] ∧
    flashRoundtrip setTemperatureConfig getTemperatureConfig temp
      [(0x4004, setTemperatureConfig_tempReg1 temp),
       (0x4005, setTemperatureConfig_tempReg2 temp)] ∧
    flashRoundtrip setLEDConfig getLEDConfig led
      [(0x4006, led.displayMask &&& 0xFF), (0x4007, (led.displayMask >>> 8) &&& 0xFF),
       (0x4008, setLEDConfig_ledCtrl led)] ∧
    flashRoundtrip setBalancingConfig getBalancingConfig bal
      [(0x4009, setBalancingConfig_balanceCtrl bal),
       (0x400A, bal.balanceVoltage &&& 0xFF), (0x400B, (bal.balanceVoltage >>> 8) &&& 0xFF),
       (0x400C, bal.balanceTime &&& 0xFF), (0x400D, (bal.balanceTime >>> 8) &&& 0xFF)] ∧
    flashRoundtrip setSBSGaugingConfig getSBSGaugingConfig gauging
      [(0x400E, setSBSGaugingConfig_gaugingReg gauging)] ∧
    flashRoundtrip setSBSConfig getSBSConfig sbs
      [(0x400F, setSBSConfig_sbsReg sbs)] ∧
    flashRoundtrip setSOCFlagConfig getSOCFlagConfig soc
      [(0x4010, setSOCFlagConfig_socReg soc)] ∧
    flashRoundtrip setProtectionConfig getProtectionConfig prot
      [(0x4011, setProtectionConfig_protReg prot)] :=
  ⟨DAConfiguration_flashRoundtrip da hcell, FETOptions_flashRoundtrip fet,
   PowerConfig_flashRoundtrip power, IOConfig_flashRoundtrip io,
   TemperatureConfig_flashRoundtrip temp, LEDConfig_flashRoundtrip led hmask hblink hflash,
   BalancingConfig_flashRoundtrip bal hvolt htime, SBSGaugingConfig_flashRoundtrip gauging,
   SBSConfig_flashRoundtrip sbs htimeout, SOCFlagConfig_flashRoundtrip soc hrsoc,
   ProtectionConfig_flashRoundtrip prot hdelay⟩

theorem settings_roundtrip_witness :
    ((setLEDConfig (init 0x0B (TwoWire.scripted [0, 0, 0, 0, 0, 0] [])) ⟨0xA55A, true, 5, 12⟩).1
      = true ∧
     (setLEDConfig (init 0x0B (TwoWire.scripted [0, 0, 0, 0, 0, 0] []))
        ⟨0xA55A, true, 5, 12⟩).2._wire.log
      = [BusEvent.transmission 0x0B [0x00, 0x44, 0x00, 0x06, 0x40] true 0,
         BusEvent.transmission 0x0B [0x40, 0x5A] true 0,
         BusEvent.transmission 0x0B [0x00, 0x44, 0x00, 0x07, 0x40] true 0,
         BusEvent.transmission 0x0B [0x40, 0xA5] true 0,
         BusEvent.transmission 0x0B [0x00, 0x44, 0x00, 0x08, 0x40] true 0,
         BusEvent.transmission 0x0B [0x40, 0xCB] true 0] ∧
     (getLEDConfig (init 0x0B (TwoWire.scripted [0, 0, 0, 0, 0, 0]
        [(1, [0x5A]), (1, [0xA5]), (1, [0xCB])]))).2._wire.log
      = [BusEvent.transmission 0x0B [0x00, 0x44, 0x00, 0x06, 0x40] true 0,
         BusEvent.transmission 0x0B [0x40] false 0, BusEvent.request 0x0B 1,
         BusEvent.transmission 0x0B [0x00, 0x44, 0x00, 0x07, 0x40] true 0,
         BusEvent.transmission 0x0B [0x40] false 0, BusEvent.request 0x0B 1,
         BusEvent.transmission 0x0B [0x00, 0x44, 0x00, 0x08, 0x40] true 0,
         BusEvent.transmission 0x0B [0x40] false 0, BusEvent.request 0x0B 1] ∧
     (getLEDConfig (init 0x0B (TwoWire.scripted [0, 0, 0, 0, 0, 0]
        [(1, [0x5A]), (1, [0xA5]), (1, [0xCB])]))).1 = ⟨0xA55A, true, 5, 12⟩) ∧
    ((setDAConfiguration (init 0x0B (TwoWire.scripted [] []))
        ⟨true, false, true, false, true, false, 2⟩).1 = true ∧
     (setDAConfiguration (init 0x0B (TwoWire.scripted [] []))
        ⟨true, false, true, false, true, false, 2⟩).2._wire.log
      = [BusEvent.transmission 0x0B [0x00, 0x44, 0x00, 0x00, 0x40] true 0,
         BusEvent.transmission 0x0B [0x40, 0xAA] true 0] ∧
     (getDAConfiguration ((init 0x0B (TwoWire.scripted [] [(2, [0xAA, 0xF6])])).setPECEnabled
        true)).2._wire.log
      = [BusEvent.transmission 0x0B [0x00, 0x44, 0x00, 0x00, 0x40] true 0,
         BusEvent.transmission 0x0B [0x40] false 0, BusEvent.request 0x0B 2] ∧
     (getDAConfiguration ((init 0x0B (TwoWire.scripted [] [(2, [0xAA, 0xF6])])).setPECEnabled
        true)).1 = ⟨true, false, true, false, true, false, 2⟩) :=
  ⟨(settings_roundtrip ⟨true, false, true, false, true, false, 2⟩ ⟨true, false, true, false⟩
      ⟨true⟩ ⟨true, false⟩ ⟨true, false, true, false, true, false, true, false, true, false⟩
      ⟨0xA55A, true, 5, 12⟩ ⟨true, 4200, 600⟩ ⟨true, false, true⟩ ⟨true, 63, false⟩
      ⟨true, false, true, false, 15⟩ ⟨true, 127⟩
      (by decide) (by decide) (by decide) (by decide) (by decide) (by decide) (by decide)
      (by decide) (by decide)).2.2.2.2.2.1
      (init 0x0B (TwoWire.scripted [0, 0, 0, 0, 0, 0] []))
      (init 0x0B (TwoWire.scripted [0, 0, 0, 0, 0, 0] [(1, [0x5A]), (1, [0xA5]), (1, [0xCB])]))
      [] (by decide) (by decide) rfl,
   (settings_roundtrip ⟨true, false, true, false, true, false, 2⟩ ⟨true, false, true, false⟩
      ⟨true⟩ ⟨true, false⟩ ⟨true, false, true, false, true, false, true, false, true, false⟩
      ⟨0xA55A, true, 5, 12⟩ ⟨true, 4200, 600⟩ ⟨true, false, true⟩ ⟨true, 63, false⟩
      ⟨true, false, true, false, 15⟩ ⟨true, 127⟩
      (by decide) (by decide) (by decide) (by decide) (by decide) (by decide) (by decide)
      (by decide) (by decide)).1
      (init 0x0B (TwoWire.scripted [] []))
      ((init 0x0B (TwoWire.scripted [] [(2, [0xAA, 0xF6])])).setPECEnabled true)
      [] (by decide) (by decide) (by decide)⟩

/-- Claim C27, evaluated on the code: with PEC enabled the device answers the
read of flash address 0x4000 with the byte 0xFC and a PEC byte that does not
match (0x00 instead of 0x53), so `readDataFlash` returns 0; `setCellCount(2)`
goes on, writes the byte 0x02 to 0x4000 and returns true. Bits 2-7 of the
written byte are 0, not those of the byte 0xFC the device held. -/
theorem setCellCount_clears_other_bits_after_failed_read :
    (((init 0x0B (TwoWire.scripted [0, 0, 0, 0] [(2, [0xFC, 0x00])])).setPECEnabled
        true).readDataFlash 0x4000).1 = 0 ∧
    (((init 0x0B (TwoWire.scripted [0, 0, 0, 0] [(2, [0xFC, 0x00])])).setPECEnabled
        true).readDataFlash 0x4000).2.getLastError = BQ4050_Error.BQ4050_ERROR_PEC_MISMATCH ∧
    (((init 0x0B (TwoWire.scripted [0, 0, 0, 0] [(2, [0xFC, 0x00])])).setPECEnabled
        true).setCellCount 2).1 = true ∧
    (((init 0x0B (TwoWire.scripted [0, 0, 0, 0] [(2, [0xFC, 0x00])])).setPECEnabled
        true).setCellCount 2).2._wire.log
      = [BusEvent.transmission 0x0B [0x00, 0x44, 0x00, 0x00, 0x40] true 0,
         BusEvent.transmission 0x0B [0x40] false 0,
         BusEvent.request 0x0B 2,
         BusEvent.transmission 0x0B [0x00, 0x44, 0x00, 0x00, 0x40] true 0,
         BusEvent.transmission 0x0B [0x40, 0x02] true 0] := by
  decide

/-- Claim C28: `validateConfiguration()` and `isConfigurationValid()` return true
for every device state and every transport behaviour: `getCellCount` always
yields a value in 0..3, so the rejection of a cell count above `FOUR_CELL` is
never taken. -/
theorem validateConfiguration_always_true (self : BQ4050) :
    self.validateConfiguration.1 = true ∧
    self.isConfigurationValid.1 = true ∧
    self.getCellCount.1 ≤ 3 := by
  have h := getCellCount_le self
  have hv : self.validateConfiguration.1 = true := by
    have hn : ¬ (self.getCellCount.1 > FOUR_CELL) := by
      simp only [FOUR_CELL]
      omega
    simp only [validateConfiguration, hn, if_false]
  exact ⟨hv, hv, h⟩

/-- Claim C29: `getStateOfHealth` returns 0 when the design capacity read is 0
(no division by zero), and otherwise returns
floor(fullChargeCapacity * 100 / designCapacity) reduced modulo 256, the product
staying below 2^31 (32-bit `int` arithmetic does not wrap); the result is at
most 100 whenever fullChargeCapacity <= designCapacity. -/
theorem getStateOfHealth_value (self : BQ4050) :
    (self.getFullChargeCapacity.2.getDesignCapacity.1 = 0 → self.getStateOfHealth.1 = 0) ∧
    (self.getFullChargeCapacity.2.getDesignCapacity.1 ≠ 0 →
      self.getStateOfHealth.1
        = (self.getFullChargeCapacity.1 * 100
            / self.getFullChargeCapacity.2.getDesignCapacity.1) % 256) ∧
    self.getFullChargeCapacity.1 * 100 < 2 ^ 31 ∧
    (self.getFullChargeCapacity.1 ≤ self.getFullChargeCapacity.2.getDesignCapacity.1 →
      self.getStateOfHealth.1 ≤ 100) := by
  have hf : self.getFullChargeCapacity.1 < 65536 := readRegister16_lt self _
  refine ⟨?_, ?_, by omega, ?_⟩
  · intro h
    simp [getStateOfHealth, h]
  · intro h
    simp [getStateOfHealth, h]
  · intro hle
    by_cases h : self.getFullChargeCapacity.2.getDesignCapacity.1 = 0
    · simp [getStateOfHealth, h]
    · simp only [getStateOfHealth, h, if_false]
      have hq : self.getFullChargeCapacity.1 * 100
          / self.getFullChargeCapacity.2.getDesignCapacity.1 ≤ 100 := by
        apply Nat.div_le_of_le_mul
        exact Nat.mul_comm _ _ ▸ Nat.mul_le_mul_right 100 hle
      exact Nat.le_trans (Nat.mod_le _ _) hq

/-! ## Safety status decoding -/

/-- Claim C30, evaluated on the code: for the SafetyStatus value 0x0001 (bit 0
set), read without PEC, `getParsedSafetyStatus` reports `overVoltage = true`
and `underVoltage = false`, while `BQ4050Utils::parseSafetyStatus(0x0001)`
returns "Cell Undervoltage" (`SAFETY_CUV` is bit 0, `SAFETY_COV` is bit 1):
the two decodings disagree on both conditions. -/
theorem safety_status_decodings_disagree :
    (init 0x0B (TwoWire.scripted [0, 0] [(2, [0x00, 0x00]), (2, [0x01, 0x00])])).getParsedSafetyStatus.1.safetyStatusRaw
      = 0x0001 ∧
    (init 0x0B (TwoWire.scripted [0, 0] [(2, [0x00, 0x00]), (2, [0x01, 0x00])])).getParsedSafetyStatus.1.overVoltage
      = true ∧
    (init 0x0B (TwoWire.scripted [0, 0] [(2, [0x00, 0x00]), (2, [0x01, 0x00])])).getParsedSafetyStatus.1.underVoltage
      = false ∧
    BQ4050Utils.parseSafetyStatus 0x0001 = "Cell Undervoltage" ∧
    BQ4050Utils.parseSafetyStatus 0x0002 = "Cell Overvoltage" := by
  decide

end BQ4050
